import Mathlib

/-! EcoImpact: simulation-result normalisation and comparison pipeline.

A shallow embedding of the JavaScript sources

* `FYP-EcoImpact/frontend/src/utils/simulationStorage.js` (`formatSimulationForComparison`,
  `saveSimulation`, `getSimulations`, `removeSimulation`, `clearAllSimulations`),
* `FYP-EcoImpact/frontend/src/pages/Simulate.js` (`transformApiResponse`),
* `FYP-EcoImpact/backend/controllers/simulateController.js` (`runSimulation`),
* `FYP-EcoImpact/frontend/src/components/compare/CompareTable.js` (`formattedSimulations`,
  `sortedSimulations`),
* `FYP-EcoImpact/frontend/src/utils/exportUtils.js` (`formatNumber`, `exportToCSV`,
  `exportToPDF`),
* `FYP-EcoImpact/backend/services/mlService.js` (`runMockSimulationForFrontend`),
* `FYP-EcoImpact/frontend/src/components/simulate/SummaryCards.js` and `CO2DonutChart.js`
  (the derived metrics),
* `frontend/src/pages/simulate/components/InputForm.jsx` (the duration stepper).

Modelling conventions.

* A JavaScript number is an exact rational (`ℚ`) wherever a result does not turn on
  rounding. Lines 82-89 of `formatSimulationForComparison`, whose results do, are embedded a
  second time over IEEE 754 binary64 values (`Double`, `Binary64.co2CoveredMillionTons`),
  with every product and quotient rounded to the nearest value, ties to even.
* A property that is `undefined` or `null` (or whose parent object is missing, as in
  `a?.b`) is `none`; a property that carries a value is `some v`.
* The properties `carbonPriceUSD` and `durationYears` of stored inputs hold a number (the
  echo of the upstream response) or a string (the text of the form field), `NumOrStr`; a
  string comes with the number that `Number(text)` makes of it.
* `x || y` yields `x` when `x` is truthy, that is a non-zero number or a non-empty
  string, and `y` otherwise.
* The store is the value under one `localStorage` key, passed in and out of every call;
  the clock and the random source are arguments of the call that reads them.
* Built-in functions whose result depends on the host (`Date` parsing, printing of a
  number, `localeCompare`) are the fields of a `Host` argument; timestamps are taken to be
  valid dates. `String.prototype.toUpperCase` is the locale-independent full case mapping
  of the Unicode Character Database (version 14), tabulated below.
* What a reader makes of an exported text is stated with two readers that are not part of
  the sources: `readCsv` (RFC 4180) and `readTableRows` (rows of `<td>` cells).
-/

namespace EcoImpact

/-! ## JavaScript helpers -/

/-- Truthiness of an optional number: `undefined`, `null` and `0` are falsy. -/
def truthyNum : Option ℚ → Bool
  | some q => decide (q ≠ 0)
  | none => false

/-- Truthiness of an optional string: `undefined`, `null` and `''` are falsy. -/
def truthyStr : Option String → Bool
  | some s => decide (s ≠ "")
  | none => false

/-- The expression `a || b` on optional numbers. -/
def orNum (a b : Option ℚ) : Option ℚ :=
  if truthyNum a then a else b

/-- The expression `a || b` on optional strings. -/
def orStr (a b : Option String) : Option String :=
  if truthyStr a then a else b

/-- The expression `a || d` where `d` is a number literal, such as `x || 0`. -/
def orNumLit (a : Option ℚ) (d : ℚ) : ℚ :=
  match a with
  | some q => if q ≠ 0 then q else d
  | none => d

/-- The expression `a || d` where `d` is a string literal, such as `x || ''`. -/
def orStrLit (a : Option String) (d : String) : String :=
  match a with
  | some s => if s ≠ "" then s else d
  | none => d

/-- A value that is a number or a string, as the properties `carbonPriceUSD` and
`durationYears` of the stored inputs are: `transformApiResponse` stores the number echoed
by the upstream response, or else the value of the form field, which is a text once the
user has typed or selected it. A string comes with the number that `Number(text)` makes
of it, `none` standing for `NaN`. -/
inductive NumOrStr where
  | num (q : ℚ)
  | str (s : String) (number : Option ℚ)
  deriving DecidableEq, Repr

/-- Truthiness of a number or string: `0` and `''` are falsy. -/
def NumOrStr.truthy : NumOrStr → Bool
  | .num q => decide (q ≠ 0)
  | .str s _ => decide (s ≠ "")

/-- The number that a value is converted to in `x > 0`, `a / x`, `isNaN(x)` and
`Number(x)`; `none` stands for `NaN`. -/
def NumOrStr.toNumber : NumOrStr → Option ℚ
  | .num q => some q
  | .str _ number => number

/-- Truthiness of an optional number or string: `undefined` and `null` are falsy. -/
def truthyValue : Option NumOrStr → Bool
  | some x => x.truthy
  | none => false

/-- The expression `a || d` on a number or string, where `d` is a number literal. -/
def orValueLit (a : Option NumOrStr) (d : ℚ) : NumOrStr :=
  match a with
  | some x => if x.truthy then x else .num d
  | none => .num d

/-- The expression `a || b` where `a` is an optional number and `b` a number or string. -/
def orNumValue (a : Option ℚ) (b : NumOrStr) : NumOrStr :=
  match a with
  | some q => if q ≠ 0 then .num q else b
  | none => b

/-! ## Data model (canonical simulation result) -/

/-- The `inputs` object of a simulation result. -/
structure PolicyInputs where
  country : Option String
  policyType : Option String
  carbonPriceUSD : Option NumOrStr
  durationYears : Option NumOrStr
  deriving DecidableEq, Repr

/-- The `confidence` object of the `predictions`. -/
structure Confidence where
  revenueLow : ℚ
  revenueHigh : ℚ
  deriving DecidableEq, Repr

/-- The `predictions` object of a simulation result. -/
structure Predictions where
  annualRevenueMillionUSD : Option ℚ
  confidence : Option Confidence
  deriving DecidableEq, Repr

/-- The `countryContext` object of a simulation result. -/
structure CountryContext where
  annualCO2Tons : Option ℚ
  gdpUSD : Option ℚ
  gdpPPP : Option ℚ
  population : Option ℚ
  fossilFuelDependencyPct : Option ℚ
  region : Option String
  incomeGroup : Option String
  deriving DecidableEq, Repr

/-- The `success` object of a simulation result. -/
structure SuccessAssessment where
  success_probability : Option ℚ
  risk_level : Option String
  status : Option String
  deriving DecidableEq, Repr

/-- One entry of `yearly_predictions`. -/
structure YearlyPrediction where
  year : Option ℚ
  revenue_million_usd : Option ℚ
  coverage : Option ℚ
  deriving DecidableEq, Repr

/-- A simulation result as it is stored and read back: every property may be missing. -/
structure SimulationResult where
  id : Option String
  timestamp : Option String
  inputs : Option PolicyInputs
  predictions : Option Predictions
  countryContext : Option CountryContext
  success : Option SuccessAssessment
  deriving DecidableEq, Repr

/-- The row that `formatSimulationForComparison` returns. -/
structure ComparisonRow where
  id : Option String
  timestamp : Option String
  country : String
  policyType : String
  carbonPrice : NumOrStr
  duration : NumOrStr
  annualRevenue : ℚ
  co2Covered : Option ℚ
  revenuePctGDP : Option ℚ
  successProbability : Option ℚ
  riskLevel : Option String
  status : Option String
  deriving DecidableEq, Repr

/-! ## `formatSimulationForComparison` (simulationStorage.js, lines 77-113) -/

/-- The expression `predictions?.annualRevenueMillionUSD`. -/
def SimulationResult.revenueField (sim : SimulationResult) : Option ℚ :=
  sim.predictions.bind (fun p => p.annualRevenueMillionUSD)

/-- The expression `inputs?.carbonPriceUSD`. -/
def SimulationResult.priceField (sim : SimulationResult) : Option NumOrStr :=
  sim.inputs.bind (fun i => i.carbonPriceUSD)

/-- The expression `countryContext?.gdpUSD`. -/
def SimulationResult.gdpUSDField (sim : SimulationResult) : Option ℚ :=
  sim.countryContext.bind (fun c => c.gdpUSD)

/-- The expression `countryContext?.gdpPPP`. -/
def SimulationResult.gdpPPPField (sim : SimulationResult) : Option ℚ :=
  sim.countryContext.bind (fun c => c.gdpPPP)

/-- Lines 84-89: the `co2CoveredMillionTons` local, from the two locals
`annualRevenueMillionUSD` and `carbonPriceUSD`; a price that is a string is converted to
its number by `>` and by `/`, and `NaN > 0` is false. -/
def co2CoveredMillionTons (annualRevenueMillionUSD : ℚ) (carbonPriceUSD : NumOrStr) :
    Option ℚ :=
  match carbonPriceUSD.toNumber with
  | some price =>
    if 0 < annualRevenueMillionUSD ∧ 0 < price then
      let annualRevenueUSD := annualRevenueMillionUSD * 1000000
      let co2CoveredTons := annualRevenueUSD / price
      some (co2CoveredTons / 1000000)
    else
      none
  | none => none

/-- Lines 92-97: the `revenuePctGDP` local, from the local `annualRevenueMillionUSD` and
the two GDP properties of the country context. -/
def revenuePctGDP (annualRevenueMillionUSD : ℚ) (gdpUSDField gdpPPPField : Option ℚ) :
    Option ℚ :=
  let revenueUSD := annualRevenueMillionUSD * 1000000
  let gdpUSD := orNum (orNum gdpUSDField gdpPPPField) none
  match gdpUSD with
  | some g => if g ≠ 0 ∧ 0 < g then some ((revenueUSD / g) * 100) else none
  | none => none

/-- The function `formatSimulationForComparison`. -/
def formatSimulationForComparison (sim : SimulationResult) : ComparisonRow :=
  let annualRevenueMillionUSD := orNumLit sim.revenueField 0
  let carbonPriceUSD := orValueLit sim.priceField 0
  { id := sim.id
    timestamp := sim.timestamp
    country := orStrLit (sim.inputs.bind (fun i => i.country)) ""
    policyType :=
      if sim.inputs.bind (fun i => i.policyType) = some "CARBON_TAX" then "Carbon Tax" else "ETS"
    carbonPrice := carbonPriceUSD
    duration := orValueLit (sim.inputs.bind (fun i => i.durationYears)) 0
    annualRevenue := annualRevenueMillionUSD
    co2Covered := co2CoveredMillionTons annualRevenueMillionUSD carbonPriceUSD
    revenuePctGDP := revenuePctGDP annualRevenueMillionUSD sim.gdpUSDField sim.gdpPPPField
    successProbability := orNum (sim.success.bind (fun s => s.success_probability)) none
    riskLevel := orStr (sim.success.bind (fun s => s.risk_level)) none
    status := orStr (sim.success.bind (fun s => s.status)) none }

/-! ## Lines 82-89 over IEEE 754 binary64

Every finite binary64 value is a whole multiple of `2 ^ (-1074)`, its magnitude is below
`2 ^ 1024`, and it has at most 53 significant bits. A magnitude is held as its number of
units of `2 ^ (-1074)`; a magnitude of `2 ^ 2098` units or more is not finite. -/

/-- A JavaScript number. -/
inductive Double where
  | nan
  | infinite (negative : Bool)
  /-- The value of magnitude `units * 2 ^ (-1074)`. -/
  | finite (negative : Bool) (units : ℕ)
  deriving DecidableEq, Repr

/-- The whole number nearest to `a / b`, the even one of the two when `a / b` lies half-way
between them. -/
def roundHalfEven (a b : ℕ) : ℕ :=
  let q := a / b
  let r := a % b
  if 2 * r < b then q
  else if b < 2 * r then q + 1
  else if q % 2 = 0 then q else q + 1

/-- The number of halvings that bring `q` below `2 ^ 53`, by recursion on a bound. -/
def binadeFuel : ℕ → ℕ → ℕ
  | 0, _ => 0
  | fuel + 1, q => if q < 2 ^ 53 then 0 else binadeFuel fuel (q / 2) + 1

/-- The exponent `k` for which binary64 values of about `q` units are `2 ^ k` units apart:
0 when `q < 2 ^ 53`, and otherwise the `k` with `2 ^ (52 + k) <= q < 2 ^ (53 + k)`. -/
def binade (q : ℕ) : ℕ := binadeFuel q q

/-- Rounding to nearest, ties to even: the number of units nearest to `a / b` units among
the multiples of the spacing at `a / b`. -/
def roundToDouble (a b : ℕ) : ℕ :=
  let k := binade (a / b)
  roundHalfEven a (b * 2 ^ k) * 2 ^ k

/-- The binary64 value nearest to `a / b` units with the given sign; an infinity when the
rounded magnitude is not finite. -/
def Double.ofMagnitude (negative : Bool) (a b : ℕ) : Double :=
  let n := roundToDouble a b
  if n < 2 ^ 2098 then .finite negative n else .infinite negative

/-- The value of a decimal literal that denotes `a / b`: the binary64 value nearest to
it. -/
def Double.ofRatio (a b : ℕ) : Double := Double.ofMagnitude false (a * 2 ^ 1074) b

/-- The operator `*` on numbers. -/
def Double.mul : Double → Double → Double
  | .nan, _ => .nan
  | _, .nan => .nan
  | .infinite s, .infinite t => .infinite (xor s t)
  | .infinite s, .finite t n => if n = 0 then .nan else .infinite (xor s t)
  | .finite s m, .infinite t => if m = 0 then .nan else .infinite (xor s t)
  | .finite s m, .finite t n => Double.ofMagnitude (xor s t) (m * n) (2 ^ 1074)

/-- The operator `/` on numbers. -/
def Double.div : Double → Double → Double
  | .nan, _ => .nan
  | _, .nan => .nan
  | .infinite _, .infinite _ => .nan
  | .infinite s, .finite t _ => .infinite (xor s t)
  | .finite s _, .infinite t => .finite (xor s t) 0
  | .finite s m, .finite t n =>
    if n = 0 then (if m = 0 then .nan else .infinite (xor s t))
    else Double.ofMagnitude (xor s t) (m * 2 ^ 1074) n

/-- The comparison `x > 0`. -/
def Double.gtZero : Double → Bool
  | .finite false n => decide (n ≠ 0)
  | .infinite false => true
  | _ => false

/-- Truthiness of a number: `NaN`, `0` and `-0` are falsy. -/
def Double.truthy : Double → Bool
  | .nan => false
  | .infinite _ => true
  | .finite _ n => decide (n ≠ 0)

/-- The comparison `x <= y`. -/
def Double.le : Double → Double → Bool
  | .nan, _ => false
  | _, .nan => false
  | .infinite true, _ => true
  | .infinite false, y => decide (y = .infinite false)
  | .finite _ _, .infinite t => !t
  | .finite s m, .finite t n =>
    match s, t with
    | false, false => decide (m ≤ n)
    | true, true => decide (n ≤ m)
    | true, false => true
    | false, true => decide (m = 0 ∧ n = 0)

/-- The expression `a || 0` on an optional number. -/
def Double.orZero (a : Option Double) : Double :=
  match a with
  | some x => if x.truthy then x else .finite false 0
  | none => .finite false 0

/-- Lines 82-89 over binary64: the `co2Covered` of the returned row, from the properties
`predictions?.annualRevenueMillionUSD` and `inputs?.carbonPriceUSD` (a price that is a
string enters as the number it is converted to). -/
def Binary64.co2CoveredMillionTons (revenueField priceField : Option Double) :
    Option Double :=
  let annualRevenueMillionUSD := Double.orZero revenueField
  let carbonPriceUSD := Double.orZero priceField
  if annualRevenueMillionUSD.gtZero && carbonPriceUSD.gtZero then
    let annualRevenueUSD := annualRevenueMillionUSD.mul (Double.ofRatio 1000000 1)
    let co2CoveredTons := annualRevenueUSD.div carbonPriceUSD
    some (co2CoveredTons.div (Double.ofRatio 1000000 1))
  else
    none

/-- A number that is neither negative nor `NaN`: a finite magnitude or `Infinity`. -/
def Double.nonNegative : Double → Bool
  | .finite false _ => true
  | .infinite false => true
  | _ => false

/-- A number that is `Infinity` or a finite magnitude of at least `2 ^ j` units. -/
def Double.atLeast (x : Double) (j : ℕ) : Prop :=
  x = .infinite false ∨ ∃ k, x = .finite false k ∧ 2 ^ j ≤ k

/-! ## `transformApiResponse` (Simulate.js, lines 169-217) -/

/-- The `inputs` echo of an upstream response (`apiData.inputs`). -/
structure ApiInputsEcho where
  country : Option String
  policy_type : Option String
  carbon_price : Option ℚ
  duration : Option ℚ
  deriving DecidableEq, Repr

/-- The upstream response handed to `transformApiResponse`. -/
structure ApiData where
  yearly_predictions : Option (List YearlyPrediction)
  country_context : Option CountryContext
  inputs : Option ApiInputsEcho
  success_probability : Option ℚ
  risk_level : Option String
  status : Option String
  deriving DecidableEq, Repr

/-- The form state `inputs` of the `Simulate` page (lines 17-22 and 35-40), which
`transformApiResponse` closes over: `carbonPriceUSD` is the text of the number field (`''`
at first), `durationYears` the number 5 at first and the text of the selected option
afterwards. -/
structure FormState where
  country : String
  policyType : String
  carbonPriceUSD : NumOrStr
  durationYears : NumOrStr
  deriving DecidableEq, Repr

/-- The object that `transformApiResponse` returns. -/
structure TransformedResult where
  inputs : PolicyInputs
  predictions : Predictions
  success : SuccessAssessment
  countryContext : CountryContext
  similarPolicies : List Unit
  yearlyPredictions : List YearlyPrediction
  deriving DecidableEq, Repr

/-- The empty object `{}` read as a country context: every property is missing. -/
def emptyCountryContext : CountryContext :=
  { annualCO2Tons := none, gdpUSD := none, gdpPPP := none, population := none,
    fossilFuelDependencyPct := none, region := none, incomeGroup := none }

/-- The callback of the `reduce` on line 176: `sum + (p.revenue_million_usd || 0)`. -/
def sumRevenue (sum : ℚ) (p : YearlyPrediction) : ℚ :=
  sum + orNumLit p.revenue_million_usd 0

/-- Lines 171-177: the `averageRevenue` local. The first year is `yearlyPredictions[0]`,
with `{}` in its place when the sequence is empty. -/
def averageRevenue (yearlyPredictions : List YearlyPrediction) : ℚ :=
  let firstYear := yearlyPredictions.head?
  if 0 < yearlyPredictions.length then
    yearlyPredictions.foldl sumRevenue 0 / (yearlyPredictions.length : ℚ)
  else
    orNumLit (firstYear.bind (fun y => y.revenue_million_usd)) 0

/-- Lines 183-192: the `countryContext` local. -/
def transformCountryContext (country_context : Option CountryContext) : CountryContext :=
  let backendCountryContext := country_context.getD emptyCountryContext
  { annualCO2Tons := orNum backendCountryContext.annualCO2Tons none
    gdpUSD := orNum (orNum backendCountryContext.gdpUSD backendCountryContext.gdpPPP) none
    gdpPPP := orNum (orNum backendCountryContext.gdpPPP backendCountryContext.gdpUSD) none
    population := orNum backendCountryContext.population none
    fossilFuelDependencyPct := orNum backendCountryContext.fossilFuelDependencyPct none
    region := orStr backendCountryContext.region none
    incomeGroup := orStr backendCountryContext.incomeGroup none }

/-- The function `transformApiResponse`, with the form state it closes over as its first
argument. -/
def transformApiResponse (inputs : FormState) (apiData : ApiData) : TransformedResult :=
  let yearlyPredictions := apiData.yearly_predictions.getD []
  let averageRevenue := averageRevenue yearlyPredictions
  { inputs :=
      { country := orStr (apiData.inputs.bind (fun i => i.country)) (some inputs.country)
        policyType :=
          some (if apiData.inputs.bind (fun i => i.policy_type) = some "Carbon Tax"
            then "CARBON_TAX" else "ETS")
        carbonPriceUSD :=
          some (orNumValue (apiData.inputs.bind (fun i => i.carbon_price))
            inputs.carbonPriceUSD)
        durationYears :=
          some (orNumValue (apiData.inputs.bind (fun i => i.duration))
            inputs.durationYears) }
    predictions :=
      { annualRevenueMillionUSD := some averageRevenue
        confidence :=
          some { revenueLow := averageRevenue * 0.8
                 revenueHigh := averageRevenue * 1.2 } }
    success :=
      { success_probability := orNum apiData.success_probability none
        risk_level := orStr apiData.risk_level none
        status := orStr apiData.status none }
    countryContext := transformCountryContext apiData.country_context
    similarPolicies := []
    yearlyPredictions := yearlyPredictions }

/-! ## `runSimulation` (simulateController.js, lines 7-138) -/

/-- The request body fields that `runSimulation` destructures. -/
structure SimulateRequest where
  duration : Option ℚ
  durationYears : Option ℚ
  policyType : Option String
  carbonPrice : Option ℚ
  carbonPriceUSD : Option ℚ
  country : Option String
  deriving DecidableEq, Repr

/-- The values that `runSimulation` hands on after validation: the arguments of the
prediction call and of the mock generator, and the `inputs` of the response. -/
structure NormalizedInputs where
  country : String
  policyType : String
  carbonPriceUSD : ℚ
  durationYears : ℤ
  deriving DecidableEq, Repr

/-- The two ways the validation part of `runSimulation` ends: an HTTP 400 answer with its
message, or the normalised inputs it continues with. -/
inductive ValidationOutcome where
  | badRequest (message : String)
  | proceed (inputs : NormalizedInputs)
  deriving DecidableEq, Repr

/-- The message of the 400 answer on lines 26-29. -/
def missingFieldsMessage : String :=
  "Please provide all required fields: country, policyType (CARBON_TAX or ETS), carbonPriceUSD, durationYears"

/-- The message of the 400 answer on lines 34-37. -/
def durationMessage : String := "Duration must be between 1 and 20 years"

/-- The message of the 400 answer on lines 47-50. -/
def policyTypeMessage : String := "Policy type must be either CARBON_TAX or ETS"

/-- The one-character uppercase mappings of the Unicode Character Database, in runs: the
first and the last code point of a run, the step between its members, and the uppercase
of the first member; the uppercase of a member lies as far from that of the first member
as the member lies from the first. -/
def upperRuns : List (ℕ × ℕ × ℕ × ℕ) :=
  [(0x0061, 0x007A, 1, 0x0041), (0x00B5, 0x00B5, 1, 0x039C), (0x00E0, 0x00F6, 1, 0x00C0),
   (0x00F8, 0x00FE, 1, 0x00D8), (0x00FF, 0x00FF, 1, 0x0178), (0x0101, 0x012F, 2, 0x0100),
   (0x0131, 0x0131, 1, 0x0049), (0x0133, 0x0137, 2, 0x0132), (0x013A, 0x0148, 2, 0x0139),
   (0x014B, 0x0177, 2, 0x014A), (0x017A, 0x017E, 2, 0x0179), (0x017F, 0x017F, 1, 0x0053),
   (0x0180, 0x0180, 1, 0x0243), (0x0183, 0x0185, 2, 0x0182), (0x0188, 0x0188, 1, 0x0187),
   (0x018C, 0x018C, 1, 0x018B), (0x0192, 0x0192, 1, 0x0191), (0x0195, 0x0195, 1, 0x01F6),
   (0x0199, 0x0199, 1, 0x0198), (0x019A, 0x019A, 1, 0x023D), (0x019E, 0x019E, 1, 0x0220),
   (0x01A1, 0x01A5, 2, 0x01A0), (0x01A8, 0x01A8, 1, 0x01A7), (0x01AD, 0x01AD, 1, 0x01AC),
   (0x01B0, 0x01B0, 1, 0x01AF), (0x01B4, 0x01B6, 2, 0x01B3), (0x01B9, 0x01B9, 1, 0x01B8),
   (0x01BD, 0x01BD, 1, 0x01BC), (0x01BF, 0x01BF, 1, 0x01F7), (0x01C5, 0x01C5, 1, 0x01C4),
   (0x01C6, 0x01C6, 1, 0x01C4), (0x01C8, 0x01C8, 1, 0x01C7), (0x01C9, 0x01C9, 1, 0x01C7),
   (0x01CB, 0x01CB, 1, 0x01CA), (0x01CC, 0x01CC, 1, 0x01CA), (0x01CE, 0x01DC, 2, 0x01CD),
   (0x01DD, 0x01DD, 1, 0x018E), (0x01DF, 0x01EF, 2, 0x01DE), (0x01F2, 0x01F2, 1, 0x01F1),
   (0x01F3, 0x01F3, 1, 0x01F1), (0x01F5, 0x01F5, 1, 0x01F4), (0x01F9, 0x021F, 2, 0x01F8),
   (0x0223, 0x0233, 2, 0x0222), (0x023C, 0x023C, 1, 0x023B), (0x023F, 0x0240, 1, 0x2C7E),
   (0x0242, 0x0242, 1, 0x0241), (0x0247, 0x024F, 2, 0x0246), (0x0250, 0x0250, 1, 0x2C6F),
   (0x0251, 0x0251, 1, 0x2C6D), (0x0252, 0x0252, 1, 0x2C70), (0x0253, 0x0253, 1, 0x0181),
   (0x0254, 0x0254, 1, 0x0186), (0x0256, 0x0257, 1, 0x0189), (0x0259, 0x0259, 1, 0x018F),
   (0x025B, 0x025B, 1, 0x0190), (0x025C, 0x025C, 1, 0xA7AB), (0x0260, 0x0260, 1, 0x0193),
   (0x0261, 0x0261, 1, 0xA7AC), (0x0263, 0x0263, 1, 0x0194), (0x0265, 0x0265, 1, 0xA78D),
   (0x0266, 0x0266, 1, 0xA7AA), (0x0268, 0x0268, 1, 0x0197), (0x0269, 0x0269, 1, 0x0196),
   (0x026A, 0x026A, 1, 0xA7AE), (0x026B, 0x026B, 1, 0x2C62), (0x026C, 0x026C, 1, 0xA7AD),
   (0x026F, 0x026F, 1, 0x019C), (0x0271, 0x0271, 1, 0x2C6E), (0x0272, 0x0272, 1, 0x019D),
   (0x0275, 0x0275, 1, 0x019F), (0x027D, 0x027D, 1, 0x2C64), (0x0280, 0x0280, 1, 0x01A6),
   (0x0282, 0x0282, 1, 0xA7C5), (0x0283, 0x0283, 1, 0x01A9), (0x0287, 0x0287, 1, 0xA7B1),
   (0x0288, 0x0288, 1, 0x01AE), (0x0289, 0x0289, 1, 0x0244), (0x028A, 0x028B, 1, 0x01B1),
   (0x028C, 0x028C, 1, 0x0245), (0x0292, 0x0292, 1, 0x01B7), (0x029D, 0x029D, 1, 0xA7B2),
   (0x029E, 0x029E, 1, 0xA7B0), (0x0345, 0x0345, 1, 0x0399), (0x0371, 0x0373, 2, 0x0370),
   (0x0377, 0x0377, 1, 0x0376), (0x037B, 0x037D, 1, 0x03FD), (0x03AC, 0x03AC, 1, 0x0386),
   (0x03AD, 0x03AF, 1, 0x0388), (0x03B1, 0x03C1, 1, 0x0391), (0x03C2, 0x03C2, 1, 0x03A3),
   (0x03C3, 0x03CB, 1, 0x03A3), (0x03CC, 0x03CC, 1, 0x038C), (0x03CD, 0x03CE, 1, 0x038E),
   (0x03D0, 0x03D0, 1, 0x0392), (0x03D1, 0x03D1, 1, 0x0398), (0x03D5, 0x03D5, 1, 0x03A6),
   (0x03D6, 0x03D6, 1, 0x03A0), (0x03D7, 0x03D7, 1, 0x03CF), (0x03D9, 0x03EF, 2, 0x03D8),
   (0x03F0, 0x03F0, 1, 0x039A), (0x03F1, 0x03F1, 1, 0x03A1), (0x03F2, 0x03F2, 1, 0x03F9),
   (0x03F3, 0x03F3, 1, 0x037F), (0x03F5, 0x03F5, 1, 0x0395), (0x03F8, 0x03F8, 1, 0x03F7),
   (0x03FB, 0x03FB, 1, 0x03FA), (0x0430, 0x044F, 1, 0x0410), (0x0450, 0x045F, 1, 0x0400),
   (0x0461, 0x0481, 2, 0x0460), (0x048B, 0x04BF, 2, 0x048A), (0x04C2, 0x04CE, 2, 0x04C1),
   (0x04CF, 0x04CF, 1, 0x04C0), (0x04D1, 0x052F, 2, 0x04D0), (0x0561, 0x0586, 1, 0x0531),
   (0x10D0, 0x10FA, 1, 0x1C90), (0x10FD, 0x10FF, 1, 0x1CBD), (0x13F8, 0x13FD, 1, 0x13F0),
   (0x1C80, 0x1C80, 1, 0x0412), (0x1C81, 0x1C81, 1, 0x0414), (0x1C82, 0x1C82, 1, 0x041E),
   (0x1C83, 0x1C84, 1, 0x0421), (0x1C85, 0x1C85, 1, 0x0422), (0x1C86, 0x1C86, 1, 0x042A),
   (0x1C87, 0x1C87, 1, 0x0462), (0x1C88, 0x1C88, 1, 0xA64A), (0x1D79, 0x1D79, 1, 0xA77D),
   (0x1D7D, 0x1D7D, 1, 0x2C63), (0x1D8E, 0x1D8E, 1, 0xA7C6), (0x1E01, 0x1E95, 2, 0x1E00),
   (0x1E9B, 0x1E9B, 1, 0x1E60), (0x1EA1, 0x1EFF, 2, 0x1EA0), (0x1F00, 0x1F07, 1, 0x1F08),
   (0x1F10, 0x1F15, 1, 0x1F18), (0x1F20, 0x1F27, 1, 0x1F28), (0x1F30, 0x1F37, 1, 0x1F38),
   (0x1F40, 0x1F45, 1, 0x1F48), (0x1F51, 0x1F57, 2, 0x1F59), (0x1F60, 0x1F67, 1, 0x1F68),
   (0x1F70, 0x1F71, 1, 0x1FBA), (0x1F72, 0x1F75, 1, 0x1FC8), (0x1F76, 0x1F77, 1, 0x1FDA),
   (0x1F78, 0x1F79, 1, 0x1FF8), (0x1F7A, 0x1F7B, 1, 0x1FEA), (0x1F7C, 0x1F7D, 1, 0x1FFA),
   (0x1FB0, 0x1FB1, 1, 0x1FB8), (0x1FBE, 0x1FBE, 1, 0x0399), (0x1FD0, 0x1FD1, 1, 0x1FD8),
   (0x1FE0, 0x1FE1, 1, 0x1FE8), (0x1FE5, 0x1FE5, 1, 0x1FEC), (0x214E, 0x214E, 1, 0x2132),
   (0x2170, 0x217F, 1, 0x2160), (0x2184, 0x2184, 1, 0x2183), (0x24D0, 0x24E9, 1, 0x24B6),
   (0x2C30, 0x2C5F, 1, 0x2C00), (0x2C61, 0x2C61, 1, 0x2C60), (0x2C65, 0x2C65, 1, 0x023A),
   (0x2C66, 0x2C66, 1, 0x023E), (0x2C68, 0x2C6C, 2, 0x2C67), (0x2C73, 0x2C73, 1, 0x2C72),
   (0x2C76, 0x2C76, 1, 0x2C75), (0x2C81, 0x2CE3, 2, 0x2C80), (0x2CEC, 0x2CEE, 2, 0x2CEB),
   (0x2CF3, 0x2CF3, 1, 0x2CF2), (0x2D00, 0x2D25, 1, 0x10A0), (0x2D27, 0x2D27, 1, 0x10C7),
   (0x2D2D, 0x2D2D, 1, 0x10CD), (0xA641, 0xA66D, 2, 0xA640), (0xA681, 0xA69B, 2, 0xA680),
   (0xA723, 0xA72F, 2, 0xA722), (0xA733, 0xA76F, 2, 0xA732), (0xA77A, 0xA77C, 2, 0xA779),
   (0xA77F, 0xA787, 2, 0xA77E), (0xA78C, 0xA78C, 1, 0xA78B), (0xA791, 0xA793, 2, 0xA790),
   (0xA794, 0xA794, 1, 0xA7C4), (0xA797, 0xA7A9, 2, 0xA796), (0xA7B5, 0xA7C3, 2, 0xA7B4),
   (0xA7C8, 0xA7CA, 2, 0xA7C7), (0xA7D1, 0xA7D1, 1, 0xA7D0), (0xA7D7, 0xA7D9, 2, 0xA7D6),
   (0xA7F6, 0xA7F6, 1, 0xA7F5), (0xAB53, 0xAB53, 1, 0xA7B3), (0xAB70, 0xABBF, 1, 0x13A0),
   (0xFF41, 0xFF5A, 1, 0xFF21), (0x10428, 0x1044F, 1, 0x10400), (0x104D8, 0x104FB, 1, 0x104B0),
   (0x10597, 0x105A1, 1, 0x10570), (0x105A3, 0x105B1, 1, 0x1057C),
   (0x105B3, 0x105B9, 1, 0x1058C), (0x105BB, 0x105BC, 1, 0x10594),
   (0x10CC0, 0x10CF2, 1, 0x10C80), (0x118C0, 0x118DF, 1, 0x118A0),
   (0x16E60, 0x16E7F, 1, 0x16E40), (0x1E922, 0x1E943, 1, 0x1E900)]

/-- The uppercase mappings to more than one character (`SpecialCasing.txt`, the entries
that hold in every locale and context): the code point and the code points of its
uppercase. -/
def upperSpecial : List (ℕ × List ℕ) :=
  [(0x00DF, [0x0053, 0x0053]), (0x0149, [0x02BC, 0x004E]), (0x01F0, [0x004A, 0x030C]),
   (0x0390, [0x0399, 0x0308, 0x0301]), (0x03B0, [0x03A5, 0x0308, 0x0301]),
   (0x0587, [0x0535, 0x0552]), (0x1E96, [0x0048, 0x0331]), (0x1E97, [0x0054, 0x0308]),
   (0x1E98, [0x0057, 0x030A]), (0x1E99, [0x0059, 0x030A]), (0x1E9A, [0x0041, 0x02BE]),
   (0x1F50, [0x03A5, 0x0313]), (0x1F52, [0x03A5, 0x0313, 0x0300]),
   (0x1F54, [0x03A5, 0x0313, 0x0301]), (0x1F56, [0x03A5, 0x0313, 0x0342]),
   (0x1F80, [0x1F08, 0x0399]), (0x1F81, [0x1F09, 0x0399]), (0x1F82, [0x1F0A, 0x0399]),
   (0x1F83, [0x1F0B, 0x0399]), (0x1F84, [0x1F0C, 0x0399]), (0x1F85, [0x1F0D, 0x0399]),
   (0x1F86, [0x1F0E, 0x0399]), (0x1F87, [0x1F0F, 0x0399]), (0x1F88, [0x1F08, 0x0399]),
   (0x1F89, [0x1F09, 0x0399]), (0x1F8A, [0x1F0A, 0x0399]), (0x1F8B, [0x1F0B, 0x0399]),
   (0x1F8C, [0x1F0C, 0x0399]), (0x1F8D, [0x1F0D, 0x0399]), (0x1F8E, [0x1F0E, 0x0399]),
   (0x1F8F, [0x1F0F, 0x0399]), (0x1F90, [0x1F28, 0x0399]), (0x1F91, [0x1F29, 0x0399]),
   (0x1F92, [0x1F2A, 0x0399]), (0x1F93, [0x1F2B, 0x0399]), (0x1F94, [0x1F2C, 0x0399]),
   (0x1F95, [0x1F2D, 0x0399]), (0x1F96, [0x1F2E, 0x0399]), (0x1F97, [0x1F2F, 0x0399]),
   (0x1F98, [0x1F28, 0x0399]), (0x1F99, [0x1F29, 0x0399]), (0x1F9A, [0x1F2A, 0x0399]),
   (0x1F9B, [0x1F2B, 0x0399]), (0x1F9C, [0x1F2C, 0x0399]), (0x1F9D, [0x1F2D, 0x0399]),
   (0x1F9E, [0x1F2E, 0x0399]), (0x1F9F, [0x1F2F, 0x0399]), (0x1FA0, [0x1F68, 0x0399]),
   (0x1FA1, [0x1F69, 0x0399]), (0x1FA2, [0x1F6A, 0x0399]), (0x1FA3, [0x1F6B, 0x0399]),
   (0x1FA4, [0x1F6C, 0x0399]), (0x1FA5, [0x1F6D, 0x0399]), (0x1FA6, [0x1F6E, 0x0399]),
   (0x1FA7, [0x1F6F, 0x0399]), (0x1FA8, [0x1F68, 0x0399]), (0x1FA9, [0x1F69, 0x0399]),
   (0x1FAA, [0x1F6A, 0x0399]), (0x1FAB, [0x1F6B, 0x0399]), (0x1FAC, [0x1F6C, 0x0399]),
   (0x1FAD, [0x1F6D, 0x0399]), (0x1FAE, [0x1F6E, 0x0399]), (0x1FAF, [0x1F6F, 0x0399]),
   (0x1FB2, [0x1FBA, 0x0399]), (0x1FB3, [0x0391, 0x0399]), (0x1FB4, [0x0386, 0x0399]),
   (0x1FB6, [0x0391, 0x0342]), (0x1FB7, [0x0391, 0x0342, 0x0399]), (0x1FBC, [0x0391, 0x0399]),
   (0x1FC2, [0x1FCA, 0x0399]), (0x1FC3, [0x0397, 0x0399]), (0x1FC4, [0x0389, 0x0399]),
   (0x1FC6, [0x0397, 0x0342]), (0x1FC7, [0x0397, 0x0342, 0x0399]), (0x1FCC, [0x0397, 0x0399]),
   (0x1FD2, [0x0399, 0x0308, 0x0300]), (0x1FD3, [0x0399, 0x0308, 0x0301]),
   (0x1FD6, [0x0399, 0x0342]), (0x1FD7, [0x0399, 0x0308, 0x0342]),
   (0x1FE2, [0x03A5, 0x0308, 0x0300]), (0x1FE3, [0x03A5, 0x0308, 0x0301]),
   (0x1FE4, [0x03A1, 0x0313]), (0x1FE6, [0x03A5, 0x0342]), (0x1FE7, [0x03A5, 0x0308, 0x0342]),
   (0x1FF2, [0x1FFA, 0x0399]), (0x1FF3, [0x03A9, 0x0399]), (0x1FF4, [0x038F, 0x0399]),
   (0x1FF6, [0x03A9, 0x0342]), (0x1FF7, [0x03A9, 0x0342, 0x0399]), (0x1FFC, [0x03A9, 0x0399]),
   (0xFB00, [0x0046, 0x0046]), (0xFB01, [0x0046, 0x0049]), (0xFB02, [0x0046, 0x004C]),
   (0xFB03, [0x0046, 0x0046, 0x0049]), (0xFB04, [0x0046, 0x0046, 0x004C]),
   (0xFB05, [0x0053, 0x0054]), (0xFB06, [0x0053, 0x0054]), (0xFB13, [0x0544, 0x0546]),
   (0xFB14, [0x0544, 0x0535]), (0xFB15, [0x0544, 0x053B]), (0xFB16, [0x054E, 0x0546]),
   (0xFB17, [0x0544, 0x053D])]

/-- The uppercase of one character. -/
def upperOfChar (c : Char) : List Char :=
  match upperSpecial.lookup c.toNat with
  | some upper => upper.map Char.ofNat
  | none =>
    match upperRuns.find? (fun run =>
        decide (run.1 ≤ c.toNat ∧ c.toNat ≤ run.2.1 ∧ (c.toNat - run.1) % run.2.2.1 = 0)) with
    | some run => [Char.ofNat (run.2.2.2 + (c.toNat - run.1))]
    | none => [c]

/-- The method `String.prototype.toUpperCase`: every character is replaced by its
uppercase, whatever the locale. -/
def toUpperCase (s : String) : String :=
  String.mk (s.data.flatMap upperOfChar)

/-- The call `parseInt(x)` on a number: the integer part, towards zero (the numbers that
reach it lie in `[1, 20]`, which print in plain decimal notation). -/
def parseIntNum (q : ℚ) : ℤ :=
  if 0 ≤ q then Int.floor q else Int.ceil q

/-- Lines 40-51: the policy-type normalisation; `none` is the 400 answer of the `else`
branch. -/
def normalizePolicyType (finalPolicyType : String) : Option String :=
  let normalizedPolicyType := toUpperCase finalPolicyType
  if normalizedPolicyType = "CARBON_TAX" ∨ normalizedPolicyType = "CARBONTAX" then
    some "CARBON_TAX"
  else if normalizedPolicyType = "ETS" then
    some "ETS"
  else
    none

/-- Lines 10-51 and 112-118 of `runSimulation`: field normalisation, validation and
policy-type normalisation, up to the values passed downstream. -/
def runSimulation (body : SimulateRequest) : ValidationOutcome :=
  let finalDuration := orNum body.durationYears body.duration
  let finalCarbonPrice := orNum body.carbonPriceUSD body.carbonPrice
  let finalPolicyType := body.policyType
  match finalDuration, finalPolicyType, finalCarbonPrice, body.country with
  | some d, some pt, some price, some country =>
    if d = 0 ∨ pt = "" ∨ country = "" then
      .badRequest missingFieldsMessage
    else if d < 1 ∨ 20 < d then
      .badRequest durationMessage
    else
      match normalizePolicyType pt with
      | some normalizedPolicyType =>
        .proceed
          { country := country
            policyType := normalizedPolicyType
            carbonPriceUSD := price
            durationYears := parseIntNum d }
      | none => .badRequest policyTypeMessage
  | _, _, _, _ => .badRequest missingFieldsMessage

/-! ## The comparison store (simulationStorage.js, lines 5-70) -/

/-- The text held under `STORAGE_KEY`, told apart by what `JSON.parse` makes of it. -/
inductive StoredBlob where
  /-- Text that parses to this array of simulation results. -/
  | array (records : List SimulationResult)
  /-- Text that parses to a value that is not an array. -/
  | nonArray (text : String)
  /-- Non-empty text on which `JSON.parse` throws. -/
  | malformed (text : String)
  /-- The empty string. -/
  | empty
  deriving DecidableEq, Repr

/-- The entry of `localStorage` under `STORAGE_KEY`; `none` when the key is not set
(`getItem` returns `null`). -/
abbrev Storage := Option StoredBlob

/-- How a call ends: it returns a value or throws an error to its caller. -/
inductive CallResult (α : Type) where
  | returned (value : α)
  | thrown (error : String)
  deriving DecidableEq, Repr

/-- The values that one call of `saveSimulation` reads from its environment. -/
structure CallTime where
  /-- The number `Date.now()`. -/
  dateNow : ℕ
  /-- The text `Math.random().toString(36).substr(2, 9)`. -/
  randomSuffix : String
  /-- The text `new Date().toISOString()`. -/
  isoString : String
  deriving DecidableEq, Repr

/-- The function `getSimulations`: the parsed array, the empty array when nothing is
stored or when `JSON.parse` throws (the `catch` branch); `none` stands for a parsed value
that is not an array, which is returned as it is. -/
def getSimulations : Storage → Option (List SimulationResult)
  | none => some []
  | some .empty => some []
  | some (.array records) => some records
  | some (.nonArray _) => none
  | some (.malformed _) => some []

/-- Line 16: the generated identifier, the current time followed by a random suffix. -/
def generatedId (now : CallTime) : String :=
  toString now.dateNow ++ now.randomSuffix

/-- Lines 15-19: the object literal `newSimulation`. The spread `...simulationResult`
comes after `id` and `timestamp`, so a property of `simulationResult` replaces the
generated one of the same name; `none` in `simulationResult` is a property it does not
have (an argument with an own property `id` or `timestamp` that holds `null` is not
covered: there the `null` replaces the generated value). -/
def newSimulation (now : CallTime) (simulationResult : SimulationResult) : SimulationResult :=
  { simulationResult with
    id := simulationResult.id <|> some (generatedId now)
    timestamp := simulationResult.timestamp <|> some now.isoString }

/-- The function `saveSimulation`: the storage afterwards, and the returned id or the
error thrown by `push` on a value that is not an array. -/
def saveSimulation (now : CallTime) (storage : Storage) (simulationResult : SimulationResult) :
    Storage × CallResult (Option String) :=
  match getSimulations storage with
  | some simulations =>
    let newSimulation := newSimulation now simulationResult
    (some (.array (simulations ++ [newSimulation])), .returned newSimulation.id)
  | none => (storage, .thrown "TypeError: simulations.push is not a function")

/-- The function `removeSimulation`: the storage afterwards, and whether the call returns
or throws. -/
def removeSimulation (storage : Storage) (id : String) : Storage × CallResult Unit :=
  match getSimulations storage with
  | some simulations =>
    let filtered := simulations.filter (fun sim => decide (sim.id ≠ some id))
    (some (.array filtered), .returned ())
  | none => (storage, .thrown "TypeError: simulations.filter is not a function")

/-- The function `clearAllSimulations`. -/
def clearAllSimulations (_storage : Storage) : Storage × CallResult Unit :=
  (none, .returned ())

/-- One call on the store. -/
inductive StoreCall where
  | save (now : CallTime) (simulationResult : SimulationResult)
  | remove (id : String)
  | clearAll
  deriving DecidableEq, Repr

/-- The storage after one call on the store. -/
def StoreCall.run (storage : Storage) : StoreCall → Storage
  | .save now simulationResult => (saveSimulation now storage simulationResult).1
  | .remove id => (removeSimulation storage id).1
  | .clearAll => (clearAllSimulations storage).1

/-- The storage after a sequence of calls, starting from the empty store. -/
def runCalls (calls : List StoreCall) : Storage :=
  calls.foldl StoreCall.run none

/-! ## `CompareTable` (CompareTable.js, lines 13-85) -/

/-- The built-in functions of the JavaScript host that the comparison view and the export
call on values of the model. -/
structure Host where
  /-- The call `new Date(text).getTime()` on a timestamp: milliseconds since the epoch. -/
  getTime : String → ℤ
  /-- The text of a number in a template literal and under `String(x)`. -/
  numToString : ℚ → String
  /-- The call `a.localeCompare(b)`. -/
  localeCompare : String → String → ℤ

/-- The method `Array.prototype.sort` with a comparator, on a copy of the array. The sort
is stable, and for a comparator that orders consistently its result is the stable sorted
arrangement, which is computed here by insertion: `a` stays before `b` when
`compare a b <= 0`. -/
def sortArray {α β : Type} [LinearOrder β] [Zero β] (compare : α → α → β) (l : List α) :
    List α :=
  l.insertionSort (fun a b => compare a b ≤ 0)

/-- Lines 21-22: `x.timestamp ? new Date(x.timestamp).getTime() : 0`. -/
def timeOf (host : Host) (timestamp : Option String) : ℤ :=
  match timestamp with
  | some t => if t ≠ "" then host.getTime t else 0
  | none => 0

/-- Lines 20-24: the array `sortedByTime`. -/
def sortedByTime (host : Host) (simulations : List SimulationResult) : List SimulationResult :=
  sortArray (fun a b => timeOf host a.timestamp - timeOf host b.timestamp) simulations

/-- A number or string in the key template, `x || ''` inside a template literal: the
printed number, the empty text for 0, and a string as it is. -/
def keyPart (host : Host) : NumOrStr → String
  | .num q => if q ≠ 0 then host.numToString q else ""
  | .str s _ => s

/-- Line 33: the deduplication key of a formatted record. -/
def dedupKey (host : Host) (formatted : ComparisonRow) : String :=
  orStrLit (some formatted.country) "" ++ "|" ++ orStrLit (some formatted.policyType) ""
    ++ "|" ++ keyPart host formatted.carbonPrice ++ "|" ++ keyPart host formatted.duration

/-- Lines 31-39: the callback of `forEach`, on the pair of the keys seen so far (the map
`seen`) and the array `uniqueSimulations`. -/
def dedupStep (host : Host) (state : List String × List SimulationResult)
    (sim : SimulationResult) : List String × List SimulationResult :=
  let formatted := formatSimulationForComparison sim
  let key := dedupKey host formatted
  if key ∈ state.1 then state else (key :: state.1, state.2 ++ [sim])

/-- Lines 28-39: the array `uniqueSimulations` after the `forEach`. -/
def uniqueSimulations (host : Host) (sortedByTime : List SimulationResult) :
    List SimulationResult :=
  (sortedByTime.foldl (dedupStep host) ([], [])).2

/-- Lines 32-33: the key that the `forEach` callback computes for a stored record. -/
def recordKey (host : Host) (sim : SimulationResult) : String :=
  dedupKey host (formatSimulationForComparison sim)

/-- An entry of `formattedSimulations`: the formatted record with its `policyId` and
`originalTimestamp`. -/
structure FormattedRow extends ComparisonRow where
  policyId : ℕ
  originalTimestamp : Option String
  deriving DecidableEq, Repr

/-- Lines 15-50: the memoised value `formattedSimulations`. -/
def formattedSimulations (host : Host) (simulations : List SimulationResult) :
    List FormattedRow :=
  if simulations.length = 0 then []
  else
    (uniqueSimulations host (sortedByTime host simulations)).enum.map (fun entry =>
      { toComparisonRow := formatSimulationForComparison entry.2
        policyId := entry.1 + 1
        originalTimestamp := entry.2.timestamp })

/-- The `(country, policyType, carbonPrice, duration)` tuple of a formatted record. -/
def dedupTuple (row : ComparisonRow) : String × String × NumOrStr × NumOrStr :=
  (row.country, row.policyType, row.carbonPrice, row.duration)

/-- The tuple of a formatted record with its carbon price and its duration as the texts
that `txt` gives for them. -/
def keyedTuple (txt : NumOrStr → String) (row : ComparisonRow) :
    String × String × String × String :=
  (row.country, row.policyType, txt row.carbonPrice, txt row.duration)

/-- A value read from a row by `a[sortColumn]`. -/
inductive CellValue where
  | null
  | str (s : String)
  | num (q : ℚ)
  deriving DecidableEq, Repr

/-- An optional number as a cell value; `undefined` and `null` are not told apart. -/
def CellValue.ofNum : Option ℚ → CellValue
  | some q => .num q
  | none => .null

/-- An optional string as a cell value; `undefined` and `null` are not told apart. -/
def CellValue.ofStr : Option String → CellValue
  | some s => .str s
  | none => .null

/-- A number or string as a cell value. -/
def CellValue.ofValue : NumOrStr → CellValue
  | .num q => .num q
  | .str s _ => .str s

/-- The call `String(x)` on a cell value. -/
def CellValue.toText (host : Host) : CellValue → String
  | .null => "null"
  | .str s => s
  | .num q => host.numToString q

/-- The properties of a row that `sortColumn` can name. -/
inductive SortColumn where
  | policyId | country | policyType | carbonPrice | duration | annualRevenue
  | successProbability | co2Covered | revenuePctGDP
  | riskLevel | status | id | timestamp | originalTimestamp
  deriving DecidableEq, Repr

/-- The state `sortDirection`. -/
inductive SortDirection where
  | asc
  | desc
  deriving DecidableEq, Repr

/-- The expression `a[sortColumn]`. -/
def FormattedRow.get (row : FormattedRow) : SortColumn → CellValue
  | .policyId => .num row.policyId
  | .country => .str row.country
  | .policyType => .str row.policyType
  | .carbonPrice => .ofValue row.carbonPrice
  | .duration => .ofValue row.duration
  | .annualRevenue => .num row.annualRevenue
  | .successProbability => .ofNum row.successProbability
  | .co2Covered => .ofNum row.co2Covered
  | .revenuePctGDP => .ofNum row.revenuePctGDP
  | .riskLevel => .ofStr row.riskLevel
  | .status => .ofStr row.status
  | .id => .ofStr row.id
  | .timestamp => .ofStr row.timestamp
  | .originalTimestamp => .ofStr row.originalTimestamp

/-- Lines 57-82: the comparator of `sortedSimulations`. -/
def compareRows (host : Host) (sortColumn : SortColumn) (sortDirection : SortDirection)
    (a b : FormattedRow) : ℚ :=
  match a.get sortColumn, b.get sortColumn with
  | .null, .null => 0
  | .null, _ => 1
  | _, .null => -1
  | .str aVal, .str bVal =>
    let comparison := host.localeCompare aVal bVal
    if sortDirection = .asc then comparison else -comparison
  | .num aVal, .num bVal =>
    if sortDirection = .asc then aVal - bVal else bVal - aVal
  | aVal, bVal =>
    let comparison := host.localeCompare (aVal.toText host) (bVal.toText host)
    if sortDirection = .asc then comparison else -comparison

/-- Lines 54-85: the memoised value `sortedSimulations`; `none` is a falsy `sortColumn`. -/
def sortedSimulations (host : Host) (sortColumn : Option SortColumn)
    (sortDirection : SortDirection) (formattedSimulations : List FormattedRow) :
    List FormattedRow :=
  match sortColumn with
  | none => formattedSimulations
  | some column => sortArray (compareRows host column sortDirection) formattedSimulations

/-! ## `exportToCSV` (exportUtils.js, lines 23-82) -/

/-- The method `Number.prototype.toFixed` as ECMAScript defines it, on an exact number
whose magnitude is `x.num.natAbs / x.den`: a magnitude of `10^21` or more is printed as
`String(x)`; otherwise `n` is the integer nearest to the magnitude times `10^f` (the
larger one on a tie), its decimal digits are padded with zeros to `f + 1` digits, and the
point is put before the last `f` digits. -/
def toFixed (host : Host) (x : ℚ) (fractionDigits : ℕ) : String :=
  let sign := if x < 0 then "-" else ""
  if 10 ^ 21 * x.den ≤ x.num.natAbs then sign ++ host.numToString |x|
  else
    let n := (2 * x.num.natAbs * 10 ^ fractionDigits + x.den) / (2 * x.den)
    let m := (toString n).data
    if fractionDigits = 0 then sign ++ String.mk m
    else
      let m :=
        if m.length ≤ fractionDigits then
          List.replicate (fractionDigits + 1 - m.length) '0' ++ m
        else m
      let k := m.length
      sign ++ String.mk (m.take (k - fractionDigits) ++ '.' :: m.drop (k - fractionDigits))

/-- Lines 23-26: the function `formatNumber` on the number that `isNaN(num)` and
`Number(num)` make of its argument; `none` is `null`, `undefined` or `NaN`. -/
def formatNumber (host : Host) (num : Option ℚ) (decimals : ℕ) : String :=
  match num with
  | none => "N/A"
  | some x => toFixed host x decimals

/-- A cell of a CSV row: a string, or the number that `item.duration || 0` leaves. -/
inductive CsvCell where
  | text (s : String)
  | number (q : ℚ)
  deriving DecidableEq, Repr

/-- A number or string as a cell. -/
def CsvCell.ofValue : NumOrStr → CsvCell
  | .num q => .number q
  | .str s _ => .text s

/-- The text of a cell in the template literal of line 67. -/
def CsvCell.render (host : Host) : CsvCell → String
  | .text s => s
  | .number q => host.numToString q

/-- Lines 38-48: the array `headers`. -/
def csvHeaders : List String :=
  ["Country", "Policy Type", "Carbon Price (USD/ton CO₂)", "Duration (Years)",
   "Annual Revenue (Million USD)", "Policy Success (%)", "Risk Level",
   "CO₂ Covered (Million tons/year)", "Revenue as % of GDP"]

/-- Lines 50-62: the callback of `data.map`, the cells of one record. -/
def csvRow (host : Host) (item : ComparisonRow) : List CsvCell :=
  [.text (orStrLit (some item.country) ""),
   .text (orStrLit (some item.policyType) ""),
   .text (formatNumber host item.carbonPrice.toNumber 2),
   .ofValue (orValueLit (some item.duration) 0),
   .text (formatNumber host (some item.annualRevenue) 2),
   .text (match item.successProbability with
     | some p => formatNumber host (some (p * 100)) 1
     | none => "N/A"),
   .text (orStrLit item.status "N/A"),
   .text (match item.co2Covered with
     | some c => formatNumber host (some c) 2
     | none => "N/A"),
   .text (match item.revenuePctGDP with
     | some g => formatNumber host (some g) 2
     | none => "N/A")]

/-- Lines 50-62: the array `rows`. -/
def csvRows (host : Host) (data : List ComparisonRow) : List (List CsvCell) :=
  data.map (csvRow host)

/-- Line 67: one data line, every cell between double quotes, joined by commas. -/
def csvLine (host : Host) (row : List CsvCell) : String :=
  String.intercalate "," (row.map (fun cell => "\"" ++ cell.render host ++ "\""))

/-- Lines 65-68: the text `csvContent`. -/
def csvContent (host : Host) (data : List ComparisonRow) : String :=
  String.intercalate "\n"
    (String.intercalate "," csvHeaders :: (csvRows host data).map (csvLine host))

/-- The function `exportToCSV`: the text of the downloaded file, the byte-order mark
followed by `csvContent`; `none` when there is no data and only the alert is shown. -/
def exportToCSV (host : Host) (data : List ComparisonRow) : Option String :=
  if data.length = 0 then none
  else some ("\uFEFF" ++ csvContent host data)

/-! ## `exportToPDF` (exportUtils.js, lines 163-252) -/

/-- Lines 184-194: one pass of the `forEach`, on the text `tableRows` accumulated so far;
each line of the source appends one piece. -/
def appendRow (host : Host) (tableRows : String) (item : ComparisonRow) : String :=
  let tableRows := tableRows ++ "<tr>"
  let tableRows := tableRows ++ ("<td>" ++ orStrLit (some item.country) "" ++ "</td>")
  let tableRows := tableRows ++ ("<td>" ++ orStrLit (some item.policyType) "" ++ "</td>")
  let tableRows :=
    tableRows ++ ("<td>" ++ formatNumber host item.carbonPrice.toNumber 2 ++ "</td>")
  let tableRows :=
    tableRows ++ ("<td>" ++ (CsvCell.ofValue (orValueLit (some item.duration) 0)).render host
      ++ "</td>")
  let tableRows :=
    tableRows ++ ("<td>" ++ formatNumber host (some item.annualRevenue) 2 ++ "</td>")
  let tableRows :=
    tableRows ++ ("<td>" ++ (match item.successProbability with
      | some p => formatNumber host (some (p * 100)) 1
      | none => "N/A") ++ "</td>")
  let tableRows := tableRows ++ ("<td>" ++ orStrLit item.status "N/A" ++ "</td>")
  let tableRows :=
    tableRows ++ ("<td>" ++ (match item.co2Covered with
      | some c => formatNumber host (some c) 2
      | none => "N/A") ++ "</td>")
  let tableRows :=
    tableRows ++ ("<td>" ++ (match item.revenuePctGDP with
      | some g => formatNumber host (some g) 2
      | none => "N/A") ++ "</td>")
  tableRows ++ "</tr>"

/-- Lines 182-195: the text `tableRows` after the `forEach`. -/
def tableRows (host : Host) (data : List ComparisonRow) : String :=
  data.foldl (appendRow host) ""

/-- The function `exportToPDF`, as far as the table body goes: the text placed in
`<tbody>`; `none` when there is no data and only the alert is shown. The markup around the
table (style sheet, title, date of generation, header cells) is left out. -/
def exportToPDF (host : Host) (data : List ComparisonRow) : Option String :=
  if data.length = 0 then none
  else some (tableRows host data)

/-! ## Readers of the exported texts

The two readers below are not part of the sources. They say what a reader of the
downloaded CSV file (RFC 4180) and of the table body finds in the texts that the export
functions write. -/

/-- Where a reader of RFC 4180 text stands. -/
inductive CsvState where
  | recordStart
  | fieldStart
  | unquoted
  | quoted
  /-- After a double quote inside a quoted field: the field has ended, unless a second
  double quote follows. -/
  | quoteSeen
  deriving DecidableEq, Repr

/-- A reader of RFC 4180 text part-way through its input. -/
structure CsvReader where
  state : CsvState
  field : List Char
  record : List String
  records : List (List String)
  deriving DecidableEq, Repr

/-- One character read; `none` is text that is not well-formed. A field starts with a
double quote or without one; a quoted field runs to the next double quote that is not
doubled, and a comma or a line feed must follow it; an unquoted field holds no double
quote. -/
def CsvReader.step (reader : Option CsvReader) (c : Char) : Option CsvReader :=
  match reader with
  | none => none
  | some r =>
    match r.state with
    | .recordStart | .fieldStart =>
      if c = '"' then some { r with state := .quoted, field := [] }
      else if c = ',' then
        some { r with state := .fieldStart, field := [], record := r.record ++ [""] }
      else if c = '\n' then
        some { state := .recordStart, field := [], record := [],
               records := r.records ++ [r.record ++ [""]] }
      else some { r with state := .unquoted, field := [c] }
    | .unquoted =>
      if c = '"' then none
      else if c = ',' then
        some { r with state := .fieldStart, field := [],
                      record := r.record ++ [String.mk r.field] }
      else if c = '\n' then
        some { state := .recordStart, field := [], record := [],
               records := r.records ++ [r.record ++ [String.mk r.field]] }
      else some { r with field := r.field ++ [c] }
    | .quoted =>
      if c = '"' then some { r with state := .quoteSeen }
      else some { r with field := r.field ++ [c] }
    | .quoteSeen =>
      if c = '"' then some { r with state := .quoted, field := r.field ++ ['"'] }
      else if c = ',' then
        some { r with state := .fieldStart, field := [],
                      record := r.record ++ [String.mk r.field] }
      else if c = '\n' then
        some { state := .recordStart, field := [], record := [],
               records := r.records ++ [r.record ++ [String.mk r.field]] }
      else none

/-- The end of the input. -/
def CsvReader.finish : Option CsvReader → Option (List (List String))
  | none => none
  | some r =>
    match r.state with
    | .recordStart => some r.records
    | .fieldStart => some (r.records ++ [r.record ++ [""]])
    | .unquoted => some (r.records ++ [r.record ++ [String.mk r.field]])
    | .quoted => none
    | .quoteSeen => some (r.records ++ [r.record ++ [String.mk r.field]])

/-- What the reader would return if its input ended here. -/
def CsvReader.pending (r : CsvReader) : List (List String) :=
  r.records ++ [r.record ++ [String.mk r.field]]

/-- The records of a text under RFC 4180, each a list of fields, after an optional
byte-order mark; `none` when the text is not well-formed. -/
def readCsv (text : String) : Option (List (List String)) :=
  let chars := match text.data with
    | '\uFEFF' :: rest => rest
    | chars => chars
  CsvReader.finish
    (chars.foldl CsvReader.step
      (some { state := .recordStart, field := [], record := [], records := [] }))

/-- Where a reader of table-body markup stands. -/
inductive TablePlace where
  | betweenRows
  | inRow
  | inCell
  deriving DecidableEq, Repr

/-- A reader of table-body markup part-way through its input. -/
structure TableReader where
  place : TablePlace
  /-- The text read since the last tag. -/
  text : List Char
  /-- The characters of the tag being read, after its `<`. -/
  tag : Option (List Char)
  cells : List String
  rows : List (List String)
  deriving DecidableEq, Repr

/-- The end of a tag: `<tr>` opens a row, `<td>` a cell, `</td>` ends the cell with the text
read in it, `</tr>` ends the row; any other tag, and text outside a cell, is refused. -/
def TableReader.closeTag (r : TableReader) (name : String) : Option TableReader :=
  if r.place = .betweenRows ∧ name = "tr" ∧ r.text = [] then
    some { place := .inRow, text := [], tag := none, cells := [], rows := r.rows }
  else if r.place = .inRow ∧ name = "td" ∧ r.text = [] then
    some { place := .inCell, text := [], tag := none, cells := r.cells, rows := r.rows }
  else if r.place = .inCell ∧ name = "/td" then
    some { place := .inRow, text := [], tag := none, cells := r.cells ++ [String.mk r.text],
           rows := r.rows }
  else if r.place = .inRow ∧ name = "/tr" ∧ r.text = [] then
    some { place := .betweenRows, text := [], tag := none, cells := [],
           rows := r.rows ++ [r.cells] }
  else none

/-- One character read; `none` is markup that is not rows of cells. A `<` starts a tag,
which runs to the next `>`; a character reference (`&`) is not read. -/
def TableReader.step (reader : Option TableReader) (c : Char) : Option TableReader :=
  match reader with
  | none => none
  | some r =>
    match r.tag with
    | some name =>
      if c = '>' then r.closeTag (String.mk name) else some { r with tag := some (name ++ [c]) }
    | none =>
      if c = '<' then some { r with tag := some [] }
      else if c = '&' then none
      else some { r with text := r.text ++ [c] }

/-- The end of the input. -/
def TableReader.finish : Option TableReader → Option (List (List String))
  | none => none
  | some r => if r.place = .betweenRows ∧ r.text = [] ∧ r.tag = none then some r.rows else none

/-- The rows of a table body, each the list of the texts of its cells; `none` when the
markup is not a sequence of rows of cells. -/
def readTableRows (markup : String) : Option (List (List String)) :=
  TableReader.finish
    (markup.data.foldl TableReader.step
      (some { place := .betweenRows, text := [], tag := none, cells := [], rows := [] }))

/-- The markup of a row with the given cell texts. -/
def rowMarkup (cells : List String) : String :=
  "<tr>" ++ String.join (cells.map (fun cell => "<td>" ++ cell ++ "</td>")) ++ "</tr>"

/-! ## `runMockSimulationForFrontend` (mlService.js, lines 118-186) -/

/-- The `confidence` object of the mock predictions. -/
structure MockConfidence where
  coverageLow : ℚ
  coverageHigh : ℚ
  revenueLow : ℚ
  revenueHigh : ℚ
  deriving DecidableEq, Repr

/-- The `predictions` object of the mock result. -/
structure MockPredictions where
  emissionCoveragePct : ℚ
  annualRevenueMillionUSD : ℚ
  confidence : MockConfidence
  deriving DecidableEq, Repr

/-- Lines 125-130 and 172-182: the `predictions` that `runMockSimulationForFrontend`
returns for a carbon price; `random1` and `random2` are the two values of `Math.random()`,
in the order of the calls. -/
def runMockSimulationForFrontend (random1 random2 : ℚ) (carbonPriceUSD : ℚ) :
    MockPredictions :=
  let baseCoverage := min 60 (max 20 (carbonPriceUSD * 2))
  let baseRevenue := carbonPriceUSD * 50
  let emissionCoveragePct := baseCoverage + (random1 * 10 - 5)
  let annualRevenueMillionUSD := baseRevenue + (random2 * 200 - 100)
  { emissionCoveragePct := max 0 (min 100 emissionCoveragePct)
    annualRevenueMillionUSD := max 0 annualRevenueMillionUSD
    confidence :=
      { coverageLow := max 0 (emissionCoveragePct - 5)
        coverageHigh := min 100 (emissionCoveragePct + 5)
        revenueLow := max 0 (annualRevenueMillionUSD - 150)
        revenueHigh := annualRevenueMillionUSD + 150 } }

/-! ## `SummaryCards` (lines 5-24) and `CO2DonutChart` (lines 12-31) -/

/-- SummaryCards.js, lines 5-15: the local `co2CoveredMillionTons`, from the props
`predictions` and `carbonPriceUSD`. -/
def SummaryCards.co2CoveredMillionTons (predictions : Option Predictions)
    (carbonPriceUSD : Option NumOrStr) : Option ℚ :=
  let annualRevenueMillionUSD :=
    orNumLit (predictions.bind (fun p => p.annualRevenueMillionUSD)) 0
  match carbonPriceUSD.bind NumOrStr.toNumber with
  | some price =>
    if 0 < annualRevenueMillionUSD ∧ truthyValue carbonPriceUSD ∧ 0 < price then
      let annualRevenueUSD := annualRevenueMillionUSD * 1000000
      let co2CoveredTons := annualRevenueUSD / price
      some (co2CoveredTons / 1000000)
    else none
  | none => none

/-- SummaryCards.js, lines 19-24: the local `revenuePctGDP`, from the props `predictions`
and `countryContext`. -/
def SummaryCards.revenuePctGDP (predictions : Option Predictions)
    (countryContext : Option CountryContext) : Option ℚ :=
  let annualRevenueMillionUSD :=
    orNumLit (predictions.bind (fun p => p.annualRevenueMillionUSD)) 0
  let revenueUSD := annualRevenueMillionUSD * 1000000
  let gdpUSD :=
    orNum (orNum (countryContext.bind (fun c => c.gdpUSD))
      (countryContext.bind (fun c => c.gdpPPP))) none
  match gdpUSD with
  | some gdp => if gdp ≠ 0 ∧ 0 < gdp then some ((revenueUSD / gdp) * 100) else none
  | none => none

/-- CO2DonutChart.js, lines 12-31: the locals `coveredMillionTons` and
`uncoveredMillionTons`, from the props `predictions`, `countryContext` and
`carbonPriceUSD`. -/
def CO2DonutChart.coveredMillionTons (predictions : Option Predictions)
    (countryContext : Option CountryContext) (carbonPriceUSD : Option NumOrStr) :
    Option ℚ × Option ℚ :=
  let annualRevenueMillionUSD :=
    orNumLit (predictions.bind (fun p => p.annualRevenueMillionUSD)) 0
  let annualCO2Tons := orNum (countryContext.bind (fun c => c.annualCO2Tons)) none
  match carbonPriceUSD.bind NumOrStr.toNumber, annualCO2Tons with
  | some price, some tons =>
    if 0 < annualRevenueMillionUSD ∧ (truthyValue carbonPriceUSD ∧ 0 < price) ∧
        (tons ≠ 0 ∧ 0 < tons) then
      let annualRevenueUSD := annualRevenueMillionUSD * 1000000
      let coveredTons := annualRevenueUSD / price
      let coveredMillionTons := coveredTons / 1000000
      let totalMillionTons := tons / 1000000
      let uncoveredMillionTons := totalMillionTons - coveredMillionTons
      (some coveredMillionTons,
        some (if uncoveredMillionTons < 0 then 0 else uncoveredMillionTons))
    else (none, none)
  | _, _ => (none, none)

/-! ## The duration stepper of `InputForm` (InputForm.jsx, lines 15, 31, 173-200) -/

/-- Line 31: the array `durationOptions`. -/
def durationOptions : List ℕ := [1, 3, 5, 10, 20]

/-- Line 15: the initial `duration` of the form. -/
def initialDuration : ℕ := 5

/-- The method `Array.prototype.indexOf`: the first index of the value, or -1. -/
def indexOf (options : List ℕ) (value : ℕ) : ℤ :=
  match options.indexOf? value with
  | some index => index
  | none => -1

/-- Lines 175-181: the click handler of the up button, as a function of the duration. -/
def durationUp (duration : ℕ) : ℕ :=
  let currentIndex := indexOf durationOptions duration
  if currentIndex < (durationOptions.length : ℤ) - 1 then
    (durationOptions.get? (currentIndex + 1).toNat).getD duration
  else duration

/-- Lines 189-195: the click handler of the down button, as a function of the duration. -/
def durationDown (duration : ℕ) : ℕ :=
  let currentIndex := indexOf durationOptions duration
  if 0 < currentIndex then
    (durationOptions.get? (currentIndex - 1).toNat).getD duration
  else duration

/-- A click on one of the two buttons of the stepper. -/
inductive DurationClick where
  | up
  | down
  deriving DecidableEq, Repr

/-- The duration after one click. -/
def DurationClick.apply (duration : ℕ) : DurationClick → ℕ
  | .up => durationUp duration
  | .down => durationDown duration

/-- The duration of the form after a sequence of clicks, from the initial duration. -/
def durationAfter (clicks : List DurationClick) : ℕ :=
  clicks.foldl DurationClick.apply initialDuration

/-! ## Concrete inputs used by the witnesses and counterexamples -/

/-- A stored result with the given revenue, carbon price and GDP properties. -/
def sampleResult (revenue price gdpUSD gdpPPP : Option ℚ) : SimulationResult :=
  { id := some "1700000000000abc123def"
    timestamp := some "2023-11-14T22:13:20.000Z"
    inputs := some
      { country := some "Pakistan", policyType := some "CARBON_TAX",
        carbonPriceUSD := price.map .num, durationYears := some (.num 5) }
    predictions := some { annualRevenueMillionUSD := revenue, confidence := none }
    countryContext := some
      { annualCO2Tons := some 227000000, gdpUSD := gdpUSD, gdpPPP := gdpPPP,
        population := none, fossilFuelDependencyPct := none, region := none,
        incomeGroup := none }
    success := none }

/-- Yearly entries that carry the given revenue figures. -/
def yearlyOf (revenues : List ℚ) : List YearlyPrediction :=
  revenues.map (fun r => { year := some 2024, revenue_million_usd := some r, coverage := none })

/-- The submitted form of the scenario: Pakistan, carbon tax, the text `25` typed into the
price field, and the initial duration 5. -/
def sampleForm : FormState :=
  { country := "Pakistan", policyType := "CARBON_TAX", carbonPriceUSD := .str "25" (some 25),
    durationYears := .num 5 }

/-- An upstream response without an `inputs` echo, with the given yearly predictions and
country context. -/
def sampleApiData (yearly : Option (List YearlyPrediction)) (context : Option CountryContext) :
    ApiData :=
  { yearly_predictions := yearly, country_context := context, inputs := none,
    success_probability := some (7 / 10), risk_level := some "low", status := some "success" }

/-- An upstream country context whose `fossilFuelDependencyPct` is the given value. -/
def sampleContext (fossil : Option ℚ) : CountryContext :=
  { annualCO2Tons := some 227000000, gdpUSD := some 340000000000, gdpPPP := none,
    population := some 231402117, fossilFuelDependencyPct := fossil,
    region := some "South Asia", incomeGroup := some "Lower middle income" }

/-- A request body that is valid in every field other than the given `policyType`. -/
def sampleRequest (policyType : String) : SimulateRequest :=
  { duration := none, durationYears := some 5, policyType := some policyType,
    carbonPrice := none, carbonPriceUSD := some 25, country := some "Pakistan" }

/-- The values read from the environment by a first call of `saveSimulation`. -/
def sampleTime1 : CallTime :=
  { dateNow := 1700000000000, randomSuffix := "k3j9x0q2a",
    isoString := "2023-11-14T22:13:20.000Z" }

/-- The values read from the environment by a second, later call of `saveSimulation`. -/
def sampleTime2 : CallTime :=
  { dateNow := 1700000060000, randomSuffix := "p7m1w4z8c",
    isoString := "2023-11-14T22:14:20.000Z" }

/-- A stored record with the given id, timestamp, country, policy type and carbon price,
with duration 5, and with no predictions, country context or success assessment. -/
def typedRecord (id timestamp country policyType : String) (price : Option NumOrStr) :
    SimulationResult :=
  { id := some id
    timestamp := some timestamp
    inputs := some
      { country := some country, policyType := some policyType, carbonPriceUSD := price,
        durationYears := some (.num 5) }
    predictions := none
    countryContext := none
    success := none }

/-- A stored record whose carbon price is the given number, or is missing. -/
def storedRecord (id timestamp country policyType : String) (price : Option ℚ) :
    SimulationResult :=
  { id := some id
    timestamp := some timestamp
    inputs := some
      { country := some country, policyType := some policyType,
        carbonPriceUSD := price.map .num, durationYears := some (.num 5) }
    predictions := none
    countryContext := none
    success := none }

/-- A result as `transformApiResponse` builds it, without `id` and `timestamp`. -/
def unsavedResult : SimulationResult :=
  { id := none
    timestamp := none
    inputs := some
      { country := some "Pakistan", policyType := some "CARBON_TAX",
        carbonPriceUSD := some (.num 25), durationYears := some (.num 5) }
    predictions := some { annualRevenueMillionUSD := some 140, confidence := none }
    countryContext := none
    success := none }

/-- A host for the examples: `getTime` on the timestamps used below, whole numbers in
decimal digits, and `localeCompare` by code points. -/
def sampleHost : Host :=
  { getTime := fun t =>
      if t = "1970-01-01T00:00:00.100Z" then 100
      else if t = "1970-01-01T00:00:00.150Z" then 150
      else if t = "1970-01-01T00:00:00.200Z" then 200
      else 0
    numToString := fun q =>
      if q.den = 1 then toString q.num else toString q.num ++ "/" ++ toString q.den
    localeCompare := fun a b =>
      if a.data < b.data then -1 else if a = b then 0 else 1 }

/-- The three stored records of the deduplication scenario, in storage order: Pakistan at
t = 100, Pakistan again at t = 200, Japan at t = 150. -/
def scenarioRecords : List SimulationResult :=
  [storedRecord "r1" "1970-01-01T00:00:00.100Z" "Pakistan" "CARBON_TAX" (some 25),
   storedRecord "r2" "1970-01-01T00:00:00.200Z" "Pakistan" "CARBON_TAX" (some 25),
   storedRecord "r3" "1970-01-01T00:00:00.150Z" "Japan" "ETS" (some 30)]

/-- Two stored records whose storage order is not their time order: Japan at t = 150,
then Pakistan at t = 100. -/
def reorderRecords : List SimulationResult :=
  [storedRecord "r1" "1970-01-01T00:00:00.150Z" "Japan" "ETS" (some 30),
   storedRecord "r2" "1970-01-01T00:00:00.100Z" "Pakistan" "CARBON_TAX" (some 25)]

/-- Three stored records that differ in their carbon price only: the number 25 (echoed
by the upstream response), the text `25` and the text `25.0` (typed into the form). -/
def mixedPriceRecords : List SimulationResult :=
  [typedRecord "r1" "1970-01-01T00:00:00.100Z" "Pakistan" "CARBON_TAX" (some (.num 25)),
   typedRecord "r2" "1970-01-01T00:00:00.150Z" "Pakistan" "CARBON_TAX"
     (some (.str "25" (some 25))),
   typedRecord "r3" "1970-01-01T00:00:00.200Z" "Pakistan" "CARBON_TAX"
     (some (.str "25.0" (some 25)))]

/-- Three stored records whose carbon prices are the texts `9`, `25` and `100`, as the
form stores them. -/
def textPriceRecords : List SimulationResult :=
  [typedRecord "r1" "1970-01-01T00:00:00.100Z" "Chile" "CARBON_TAX"
     (some (.str "9" (some 9))),
   typedRecord "r2" "1970-01-01T00:00:00.150Z" "Japan" "ETS" (some (.str "25" (some 25))),
   typedRecord "r3" "1970-01-01T00:00:00.200Z" "Pakistan" "CARBON_TAX"
     (some (.str "100" (some 100)))]

/-- Two stored records, the second of which has no carbon price in its inputs. -/
def unknownPriceRecords : List SimulationResult :=
  [storedRecord "r1" "1970-01-01T00:00:00.100Z" "Japan" "ETS" (some 30),
   storedRecord "r2" "1970-01-01T00:00:00.150Z" "Pakistan" "CARBON_TAX" none]

/-- A formatted record with the given success probability, CO2 covered and revenue as a
share of GDP. -/
def sampleRow (successProbability co2Covered revenuePctGDP : Option ℚ) : ComparisonRow :=
  { id := some "r1", timestamp := some "1970-01-01T00:00:00.100Z", country := "Pakistan",
    policyType := "Carbon Tax", carbonPrice := .num 25, duration := .num 5,
    annualRevenue := 140, co2Covered := co2Covered, revenuePctGDP := revenuePctGDP,
    successProbability := successProbability, riskLevel := some "low",
    status := some "success" }

/-- A formatted record with the given country, policy type and status, and with unknown
success probability, CO2 covered and revenue as a share of GDP. -/
def textRow (country policyType status : String) : ComparisonRow :=
  { id := some "r1", timestamp := some "1970-01-01T00:00:00.100Z", country := country,
    policyType := policyType, carbonPrice := .num 25, duration := .num 5,
    annualRevenue := 140, co2Covered := none, revenuePctGDP := none,
    successProbability := none,
    riskLevel := none, status := some status }

/-- A stored record whose success assessment has the given risk level and status. -/
def assessedResult (risk_level status : Option String) : SimulationResult :=
  { id := some "r1"
    timestamp := some "1970-01-01T00:00:00.100Z"
    inputs := some
      { country := some "Pakistan", policyType := some "CARBON_TAX",
        carbonPriceUSD := some (.num 25), durationYears := some (.num 5) }
    predictions := none
    countryContext := none
    success := some
      { success_probability := none, risk_level := risk_level, status := status } }

/-- A request body that is valid in every field other than the two carbon price fields. -/
def priceRequest (carbonPriceUSD carbonPrice : Option ℚ) : SimulateRequest :=
  { duration := none, durationYears := some 5, policyType := some "ETS",
    carbonPrice := carbonPrice, carbonPriceUSD := carbonPriceUSD,
    country := some "Pakistan" }

/-- A request body that is valid in every field other than the two duration fields. -/
def durationRequest (durationYears duration : Option ℚ) : SimulateRequest :=
  { duration := duration, durationYears := durationYears, policyType := some "ETS",
    carbonPrice := none, carbonPriceUSD := some 25, country := some "Pakistan" }

/-! ## Auxiliary lemmas -/

theorem orNumLit_some_zero (r : ℚ) : orNumLit (some r) 0 = r := by
  unfold orNumLit
  by_cases h : r = 0 <;> simp [h]

theorem orNumLit_none_zero : orNumLit none 0 = 0 := rfl

theorem orNumLit_pos_iff (a : Option ℚ) :
    0 < orNumLit a 0 ↔ ∃ r, a = some r ∧ 0 < r := by
  cases a with
  | none => simp [orNumLit]
  | some r => simp [orNumLit_some_zero]

theorem co2CoveredMillionTons_pos (r p : ℚ) (hr : 0 < r) (hp : 0 < p) :
    co2CoveredMillionTons r (.num p) = some (r * 1000000 / p / 1000000) := by
  simp [co2CoveredMillionTons, NumOrStr.toNumber, hr, hp]

theorem scaled_quotient (r p : ℚ) : r * 1000000 / p / 1000000 = r / p := by
  by_cases hp : p = 0
  · subst hp
    simp
  · field_simp
    ring

theorem orValueLit_num (p : ℚ) : orValueLit (some (.num p)) 0 = .num p := by
  unfold orValueLit
  by_cases h : p = 0 <;> simp [NumOrStr.truthy, h]

theorem orValueLit_none : orValueLit none 0 = .num 0 := rfl

theorem co2Covered_of_fields (sim : SimulationResult) (r p : ℚ)
    (hr : sim.revenueField = some r) (hp : sim.priceField = some (.num p))
    (hr0 : 0 < r) (hp0 : 0 < p) :
    (formatSimulationForComparison sim).co2Covered = some (r * 1000000 / p / 1000000) := by
  simp only [formatSimulationForComparison, hr, hp, orNumLit_some_zero, orValueLit_num]
  exact co2CoveredMillionTons_pos r p hr0 hp0

/-! ## Lemmas on rounding to binary64 -/

theorem roundHalfEven_spec (a b : ℕ) (hb : 0 < b) :
    2 * (roundHalfEven a b * b) ≤ 2 * a + b ∧ 2 * a ≤ 2 * (roundHalfEven a b * b) + b ∧
    (2 * a = 2 * (roundHalfEven a b * b) + b → roundHalfEven a b % 2 = 0) ∧
    (2 * a + b = 2 * (roundHalfEven a b * b) → roundHalfEven a b % 2 = 0) := by
  have hdm : b * (a / b) + a % b = a := Nat.div_add_mod a b
  have hr : a % b < b := Nat.mod_lt a hb
  have hq1 : (a / b + 1) * b = b * (a / b) + b := by ring
  have hq0 : a / b * b = b * (a / b) := by ring
  unfold roundHalfEven
  simp only
  generalize hX : b * (a / b) = X at hdm hq1 hq0
  generalize a % b = r at hdm hr
  generalize a / b = q at hq1 hq0
  by_cases h1 : 2 * r < b
  · rw [if_pos h1, hq0]
    refine ⟨by omega, by omega, by omega, by omega⟩
  · rw [if_neg h1]
    by_cases h2 : b < 2 * r
    · rw [if_pos h2, hq1]
      refine ⟨by omega, by omega, by omega, by omega⟩
    · rw [if_neg h2]
      by_cases h3 : q % 2 = 0
      · rw [if_pos h3, hq0]
        refine ⟨by omega, by omega, fun _ => h3, by omega⟩
      · rw [if_neg h3, hq1]
        refine ⟨by omega, by omega, by omega, fun _ => by omega⟩

theorem roundHalfEven_mono (a b c d : ℕ) (hb : 0 < b) (hd : 0 < d) (h : a * d ≤ c * b) :
    roundHalfEven a b ≤ roundHalfEven c d := by
  obtain ⟨a1, _, _, a4⟩ := roundHalfEven_spec a b hb
  obtain ⟨_, c2, c3, _⟩ := roundHalfEven_spec c d hd
  by_contra hlt
  have hmn : roundHalfEven c d + 1 ≤ roundHalfEven a b := by omega
  generalize roundHalfEven a b = m at a1 a4 hmn
  generalize roundHalfEven c d = n at c2 c3 hmn
  have h1 : (n + 1) * b ≤ m * b := Nat.mul_le_mul_right b hmn
  have e1 : (n + 1) * b = n * b + b := by ring
  have h2 : 2 * (n * b) + b ≤ 2 * a := by omega
  have h4 : (2 * (n * b) + b) * d ≤ 2 * a * d := Nat.mul_le_mul_right d h2
  have h5 : 2 * c * b ≤ (2 * (n * d) + d) * b := Nat.mul_le_mul_right b c2
  have e2 : (2 * (n * b) + b) * d = (2 * (n * d) + d) * b := by ring
  have e3 : 2 * a * d = 2 * (a * d) := by ring
  have e4 : 2 * c * b = 2 * (c * b) := by ring
  have h6 : 2 * a * d = (2 * (n * b) + b) * d := by omega
  have h7 : 2 * c * b = (2 * (n * d) + d) * b := by omega
  have h8 : 2 * a = 2 * (n * b) + b := Nat.eq_of_mul_eq_mul_right hd h6
  have h9 : 2 * c = 2 * (n * d) + d := Nat.eq_of_mul_eq_mul_right hb h7
  have h10 : m * b ≤ (n + 1) * b := by omega
  have h11 : m ≤ n + 1 := Nat.le_of_mul_le_mul_right h10 hb
  have h12 : m = n + 1 := by omega
  subst h12
  have hn : n % 2 = 0 := c3 h9
  have hm : (n + 1) % 2 = 0 := a4 (by omega)
  omega

theorem roundHalfEven_mul_self (n b : ℕ) (hb : 0 < b) : roundHalfEven (n * b) b = n := by
  unfold roundHalfEven
  simp [Nat.mul_div_cancel _ hb, hb]

theorem binadeFuel_spec : ∀ (fuel q : ℕ), q ≤ fuel →
    q < 2 ^ (53 + binadeFuel fuel q) ∧
      (binadeFuel fuel q = 0 ∨ 2 ^ (52 + binadeFuel fuel q) ≤ q) := by
  intro fuel
  induction fuel with
  | zero =>
    intro q hq
    have : q = 0 := by omega
    subst this
    simp [binadeFuel]
  | succ fuel ih =>
    intro q hq
    unfold binadeFuel
    by_cases h : q < 2 ^ 53
    · rw [if_pos h]
      exact ⟨by simpa using h, Or.inl rfl⟩
    · rw [if_neg h]
      have hq2 : q / 2 ≤ fuel := by
        have : 0 < q := lt_of_lt_of_le (by positivity) (not_lt.1 h)
        omega
      obtain ⟨h1, h2⟩ := ih (q / 2) hq2
      constructor
      · have : q < 2 * 2 ^ (53 + binadeFuel fuel (q / 2)) := by omega
        calc q < 2 * 2 ^ (53 + binadeFuel fuel (q / 2)) := this
          _ = 2 ^ (53 + (binadeFuel fuel (q / 2) + 1)) := by ring
      · right
        rcases h2 with h2 | h2
        · rw [h2]
          exact not_lt.1 h
        · have : 2 * 2 ^ (52 + binadeFuel fuel (q / 2)) ≤ q := by omega
          calc 2 ^ (52 + (binadeFuel fuel (q / 2) + 1))
              = 2 * 2 ^ (52 + binadeFuel fuel (q / 2)) := by ring
            _ ≤ q := this

theorem binade_spec (q : ℕ) :
    q < 2 ^ (53 + binade q) ∧ (binade q = 0 ∨ 2 ^ (52 + binade q) ≤ q) :=
  binadeFuel_spec q q le_rfl

theorem binade_mono (q q2 : ℕ) (h : q ≤ q2) : binade q ≤ binade q2 := by
  obtain ⟨_, h2⟩ := binade_spec q
  obtain ⟨h3, _⟩ := binade_spec q2
  by_contra hlt
  have hk : binade q2 + 1 ≤ binade q := by omega
  rcases h2 with h2 | h2
  · omega
  · have : 2 ^ (53 + binade q2) ≤ 2 ^ (52 + binade q) :=
      Nat.pow_le_pow_right (by norm_num) (by omega)
    omega

theorem div_le_div_of_cross (a b c d : ℕ) (hb : 0 < b) (hd : 0 < d) (h : a * d ≤ c * b) :
    a / b ≤ c / d := by
  rw [Nat.le_div_iff_mul_le hd]
  have h1 : a / b * b ≤ a := Nat.div_mul_le_self a b
  have h2 : a / b * d * b ≤ c * b := by
    calc a / b * d * b = a / b * b * d := by ring
      _ ≤ a * d := Nat.mul_le_mul_right d h1
      _ ≤ c * b := h
  exact Nat.le_of_mul_le_mul_right h2 hb

theorem roundToDouble_le_pow (a b : ℕ) (hb : 0 < b) :
    roundToDouble a b ≤ 2 ^ (53 + binade (a / b)) := by
  unfold roundToDouble
  simp only
  obtain ⟨h1, _⟩ := binade_spec (a / b)
  generalize binade (a / b) = k at h1
  have hbk : 0 < b * 2 ^ k := by positivity
  have ha : a < 2 ^ (53 + k) * b := by
    rw [← Nat.div_lt_iff_lt_mul hb]
    exact h1
  have h2 : roundHalfEven a (b * 2 ^ k) ≤ roundHalfEven (2 ^ 53 * (b * 2 ^ k)) (b * 2 ^ k) := by
    apply roundHalfEven_mono _ _ _ _ hbk hbk
    apply Nat.mul_le_mul_right
    calc a ≤ 2 ^ (53 + k) * b := le_of_lt ha
      _ = 2 ^ 53 * (b * 2 ^ k) := by ring
  rw [roundHalfEven_mul_self _ _ hbk] at h2
  calc roundHalfEven a (b * 2 ^ k) * 2 ^ k ≤ 2 ^ 53 * 2 ^ k := Nat.mul_le_mul_right _ h2
    _ = 2 ^ (53 + k) := by ring

theorem roundToDouble_ge_of_le (a b j : ℕ) (hb : 0 < b) (h : 2 ^ j * b ≤ a) :
    2 ^ j ≤ roundToDouble a b := by
  unfold roundToDouble
  simp only
  obtain ⟨h1, h2⟩ := binade_spec (a / b)
  generalize binade (a / b) = k at h1 h2
  have hbk : 0 < b * 2 ^ k := by positivity
  by_cases hjk : j ≤ k
  · -- the rounded quotient is at least 2^52 >= 1 ... need quotient >= 1
    have hak : 1 * (b * 2 ^ k) ≤ a := by
      rcases h2 with h2 | h2
      · have hj : j = 0 := by omega
        subst hj
        subst h2
        simpa using h
      · have h3 : 2 ^ (52 + k) * b ≤ a := (Nat.le_div_iff_mul_le hb).1 h2
        calc 1 * (b * 2 ^ k) = 2 ^ k * b := by ring
          _ ≤ 2 ^ (52 + k) * b :=
            Nat.mul_le_mul_right b (Nat.pow_le_pow_right (by norm_num) (by omega))
          _ ≤ a := h3
    have h4 : roundHalfEven (1 * (b * 2 ^ k)) (b * 2 ^ k) ≤ roundHalfEven a (b * 2 ^ k) :=
      roundHalfEven_mono _ _ _ _ hbk hbk (Nat.mul_le_mul_right _ hak)
    rw [roundHalfEven_mul_self _ _ hbk] at h4
    calc 2 ^ j ≤ 2 ^ k := Nat.pow_le_pow_right (by norm_num) hjk
      _ = 1 * 2 ^ k := by ring
      _ ≤ roundHalfEven a (b * 2 ^ k) * 2 ^ k := Nat.mul_le_mul_right _ h4
  · have hkj : k ≤ j := by omega
    have h2 : roundHalfEven (2 ^ (j - k) * (b * 2 ^ k)) (b * 2 ^ k) ≤ roundHalfEven a (b * 2 ^ k) := by
      apply roundHalfEven_mono _ _ _ _ hbk hbk
      apply Nat.mul_le_mul_right
      calc 2 ^ (j - k) * (b * 2 ^ k) = 2 ^ (j - k + k) * b := by ring
        _ = 2 ^ j * b := by rw [Nat.sub_add_cancel hkj]
        _ ≤ a := h
    rw [roundHalfEven_mul_self _ _ hbk] at h2
    calc 2 ^ j = 2 ^ (j - k + k) := by rw [Nat.sub_add_cancel hkj]
      _ = 2 ^ (j - k) * 2 ^ k := by ring
      _ ≤ roundHalfEven a (b * 2 ^ k) * 2 ^ k := Nat.mul_le_mul_right _ h2

theorem roundToDouble_ge_binade (a b : ℕ) (hb : 0 < b) (hk : binade (a / b) ≠ 0) :
    2 ^ (52 + binade (a / b)) ≤ roundToDouble a b := by
  obtain ⟨_, h2⟩ := binade_spec (a / b)
  rcases h2 with h2 | h2
  · exact absurd h2 hk
  · exact roundToDouble_ge_of_le a b _ hb ((Nat.le_div_iff_mul_le hb).1 h2)

theorem roundToDouble_mono (a b c d : ℕ) (hb : 0 < b) (hd : 0 < d) (h : a * d ≤ c * b) :
    roundToDouble a b ≤ roundToDouble c d := by
  have hq : a / b ≤ c / d := div_le_div_of_cross a b c d hb hd h
  have hk : binade (a / b) ≤ binade (c / d) := binade_mono _ _ hq
  rcases Nat.eq_or_lt_of_le hk with hk | hk
  · unfold roundToDouble
    simp only
    rw [hk]
    apply Nat.mul_le_mul_right
    apply roundHalfEven_mono _ _ _ _ (by positivity) (by positivity)
    calc a * (d * 2 ^ binade (c / d)) = a * d * 2 ^ binade (c / d) := by ring
      _ ≤ c * b * 2 ^ binade (c / d) := Nat.mul_le_mul_right _ h
      _ = c * (b * 2 ^ binade (c / d)) := by ring
  · calc roundToDouble a b ≤ 2 ^ (53 + binade (a / b)) := roundToDouble_le_pow a b hb
      _ ≤ 2 ^ (52 + binade (c / d)) := Nat.pow_le_pow_right (by norm_num) (by omega)
      _ ≤ roundToDouble c d := roundToDouble_ge_binade c d hd (by omega)

/-! ## Lemmas on the binary64 operations -/

theorem million_units : Double.ofRatio 1000000 1 = .finite false (1000000 * 2 ^ 1074) := by
  decide!

theorem Double.orZero_gtZero (a : Option Double) :
    (Double.orZero a).gtZero = true ↔ ∃ x, a = some x ∧ x.gtZero = true := by
  cases a with
  | none => simp [Double.orZero, Double.gtZero]
  | some x =>
    cases x with
    | nan => simp [Double.orZero, Double.gtZero, Double.truthy]
    | infinite s => cases s <;> simp [Double.orZero, Double.gtZero, Double.truthy]
    | finite s n =>
      cases s <;> by_cases hn : n = 0 <;> simp [Double.orZero, Double.gtZero, Double.truthy, hn]

theorem Double.orZero_of_gtZero (x : Double) (h : x.gtZero = true) :
    Double.orZero (some x) = x := by
  cases x with
  | nan => simp [Double.gtZero] at h
  | infinite s => cases s <;> simp [Double.orZero, Double.gtZero, Double.truthy] at h ⊢
  | finite s n =>
    cases s
    · have hn : n ≠ 0 := by simpa [Double.gtZero] using h
      simp [Double.orZero, Double.truthy, hn]
    · simp [Double.gtZero] at h

theorem ofMagnitude_cases (s : Bool) (a b : ℕ) :
    (roundToDouble a b < 2 ^ 2098 ∧ Double.ofMagnitude s a b = .finite s (roundToDouble a b)) ∨
    (2 ^ 2098 ≤ roundToDouble a b ∧ Double.ofMagnitude s a b = .infinite s) := by
  unfold Double.ofMagnitude
  simp only
  by_cases h : roundToDouble a b < 2 ^ 2098
  · exact Or.inl ⟨h, by rw [if_pos h]⟩
  · exact Or.inr ⟨not_lt.1 h, by rw [if_neg h]⟩

theorem ofMagnitude_le (a b c d : ℕ) (hb : 0 < b) (hd : 0 < d) (h : a * d ≤ c * b) :
    (Double.ofMagnitude false a b).le (Double.ofMagnitude false c d) = true := by
  have hm := roundToDouble_mono a b c d hb hd h
  rcases ofMagnitude_cases false a b with ⟨h1, e1⟩ | ⟨h1, e1⟩ <;>
    rcases ofMagnitude_cases false c d with ⟨h2, e2⟩ | ⟨h2, e2⟩ <;> rw [e1, e2]
  · simpa [Double.le] using hm
  · simp [Double.le]
  · omega
  · simp [Double.le]

theorem ofMagnitude_nonNegative (a b : ℕ) : (Double.ofMagnitude false a b).nonNegative = true := by
  rcases ofMagnitude_cases false a b with ⟨_, e⟩ | ⟨_, e⟩ <;> rw [e] <;> rfl


theorem Double.le_refl_of_nonNegative (x : Double) (hx : x.nonNegative = true) :
    x.le x = true := by
  cases x with
  | nan => simp [Double.nonNegative] at hx
  | infinite s => cases s <;> simp [Double.nonNegative, Double.le] at hx ⊢
  | finite s m => cases s <;> simp [Double.nonNegative, Double.le] at hx ⊢

theorem mul_finite_mono (x y : Double) (k : ℕ) (hk : k ≠ 0) (hx : x.nonNegative = true)
    (hy : y.nonNegative = true) (h : x.le y = true) :
    (x.mul (.finite false k)).le (y.mul (.finite false k)) = true ∧
    (x.mul (.finite false k)).nonNegative = true ∧
    (y.mul (.finite false k)).nonNegative = true := by
  cases x with
  | nan => simp [Double.nonNegative] at hx
  | infinite s =>
    cases s
    · cases y with
      | nan => simp [Double.nonNegative] at hy
      | infinite t =>
        cases t
        · simp [Double.mul, Double.le, Double.nonNegative, hk]
        · simp [Double.nonNegative] at hy
      | finite t n => simp [Double.le] at h
    · simp [Double.nonNegative] at hx
  | finite s m =>
    cases s
    · cases y with
      | nan => simp [Double.nonNegative] at hy
      | infinite t =>
        cases t
        · refine ⟨?_, ?_, ?_⟩
          · simp only [Double.mul, if_neg hk, Bool.xor_false]
            rcases ofMagnitude_cases false (m * k) (2 ^ 1074)
              with ⟨_, e⟩ | ⟨_, e⟩ <;> rw [e] <;> simp [Double.le]
          · simp only [Double.mul, Bool.xor_false]
            exact ofMagnitude_nonNegative _ _
          · simp [Double.mul, hk, Double.nonNegative]
        · simp [Double.nonNegative] at hy
      | finite t n =>
        cases t
        · have hmn : m ≤ n := by simpa [Double.le] using h
          refine ⟨?_, ?_, ?_⟩
          · simp only [Double.mul, Bool.xor_false]
            apply ofMagnitude_le _ _ _ _ (by positivity) (by positivity)
            apply Nat.mul_le_mul_right
            exact Nat.mul_le_mul_right _ hmn
          · simp only [Double.mul, Bool.xor_false]
            exact ofMagnitude_nonNegative _ _
          · simp only [Double.mul, Bool.xor_false]
            exact ofMagnitude_nonNegative _ _
        · simp [Double.nonNegative] at hy
    · simp [Double.nonNegative] at hx

theorem div_finite_nonNegative (x : Double) (k : ℕ) (hk : k ≠ 0) (hx : x.nonNegative = true) :
    (x.div (.finite false k)).nonNegative = true := by
  cases x with
  | nan => simp [Double.nonNegative] at hx
  | infinite s => cases s <;> simp [Double.nonNegative, Double.div] at hx ⊢
  | finite s m =>
    cases s
    · simp only [Double.div, if_neg hk, Bool.xor_false]
      exact ofMagnitude_nonNegative _ _
    · simp [Double.nonNegative] at hx

theorem div_finite_mono (x y : Double) (k : ℕ) (hk : k ≠ 0) (hx : x.nonNegative = true)
    (hy : y.nonNegative = true) (h : x.le y = true) :
    (x.div (.finite false k)).le (y.div (.finite false k)) = true := by
  have hk0 : 0 < k := Nat.pos_of_ne_zero hk
  cases x with
  | nan => simp [Double.nonNegative] at hx
  | infinite s =>
    cases s
    · cases y with
      | nan => simp [Double.nonNegative] at hy
      | infinite t =>
        cases t
        · simp [Double.div, Double.le]
        · simp [Double.nonNegative] at hy
      | finite t n => simp [Double.le] at h
    · simp [Double.nonNegative] at hx
  | finite s m =>
    cases s
    · cases y with
      | nan => simp [Double.nonNegative] at hy
      | infinite t =>
        cases t
        · simp only [Double.div, if_neg hk, Bool.xor_false]
          rcases ofMagnitude_cases false (m * 2 ^ 1074) k
            with ⟨_, e⟩ | ⟨_, e⟩ <;> rw [e] <;> simp [Double.le]
        · simp [Double.nonNegative] at hy
      | finite t n =>
        cases t
        · have hmn : m ≤ n := by simpa [Double.le] using h
          simp only [Double.div, if_neg hk, Bool.xor_false]
          apply ofMagnitude_le _ _ _ _ hk0 hk0
          apply Nat.mul_le_mul_right
          exact Nat.mul_le_mul_right _ hmn
        · simp [Double.nonNegative] at hy
    · simp [Double.nonNegative] at hx

theorem div_finite_anti (x : Double) (k1 k2 : ℕ) (hk1 : k1 ≠ 0) (h : k1 ≤ k2)
    (hx : x.nonNegative = true) :
    (x.div (.finite false k2)).le (x.div (.finite false k1)) = true := by
  have hk2 : k2 ≠ 0 := by omega
  cases x with
  | nan => simp [Double.nonNegative] at hx
  | infinite s => cases s <;> simp [Double.nonNegative, Double.div, Double.le] at hx ⊢
  | finite s m =>
    cases s
    · simp only [Double.div, if_neg hk1, if_neg hk2, Bool.xor_false]
      apply ofMagnitude_le _ _ _ _ (Nat.pos_of_ne_zero hk2) (Nat.pos_of_ne_zero hk1)
      exact Nat.mul_le_mul_left _ h
    · simp [Double.nonNegative] at hx

theorem ofMagnitude_atLeast (a b j : ℕ) (hb : 0 < b) (h : 2 ^ j * b ≤ a) :
    (Double.ofMagnitude false a b).atLeast j := by
  rcases ofMagnitude_cases false a b with ⟨_, e⟩ | ⟨_, e⟩
  · exact Or.inr ⟨_, e, roundToDouble_ge_of_le a b j hb h⟩
  · exact Or.inl e


theorem co2Covered_of_gtZero (r p : Double) (hr : r.gtZero = true) (hp : p.gtZero = true) :
    Binary64.co2CoveredMillionTons (some r) (some p)
      = some (((r.mul (Double.ofRatio 1000000 1)).div p).div (Double.ofRatio 1000000 1)) := by
  simp only [Binary64.co2CoveredMillionTons, Double.orZero_of_gtZero r hr,
    Double.orZero_of_gtZero p hp, hr, hp, Bool.and_self, if_true]

theorem co2Covered_ne_none_iff (revenueField priceField : Option Double) :
    Binary64.co2CoveredMillionTons revenueField priceField ≠ none ↔
      ∃ r p, revenueField = some r ∧ priceField = some p ∧ r.gtZero = true ∧
        p.gtZero = true := by
  constructor
  · intro h
    unfold Binary64.co2CoveredMillionTons at h
    simp only at h
    by_cases hc : ((Double.orZero revenueField).gtZero && (Double.orZero priceField).gtZero) = true
    · rw [Bool.and_eq_true] at hc
      obtain ⟨r, hr, hr0⟩ := (Double.orZero_gtZero _).1 hc.1
      obtain ⟨p, hp, hp0⟩ := (Double.orZero_gtZero _).1 hc.2
      exact ⟨r, p, hr, hp, hr0, hp0⟩
    · rw [if_neg hc] at h
      exact absurd rfl h
  · rintro ⟨r, p, hr, hp, hr0, hp0⟩
    rw [hr, hp, co2Covered_of_gtZero r p hr0 hp0]
    simp

theorem co2Covered_finite (m n : ℕ) (hm : m ≠ 0) (hn : n ≠ 0) :
    Binary64.co2CoveredMillionTons (some (.finite false m)) (some (.finite false n))
      = some ((((Double.finite false m).mul (.finite false (1000000 * 2 ^ 1074))).div
          (.finite false n)).div (.finite false (1000000 * 2 ^ 1074))) := by
  rw [co2Covered_of_gtZero _ _ (by simp [Double.gtZero, hm]) (by simp [Double.gtZero, hn]),
    million_units]

theorem million_ne_zero : (1000000 * 2 ^ 1074 : ℕ) ≠ 0 := by positivity

theorem finite_nonNegative (m : ℕ) : (Double.finite false m).nonNegative = true := rfl

theorem atLeast_div (x : Double) (n i j : ℕ) (hn : n ≠ 0) (hx : x.atLeast i)
    (h : 2 ^ j * n ≤ 2 ^ i * 2 ^ 1074) : (x.div (.finite false n)).atLeast j := by
  rcases hx with hx | ⟨k, hx, hk⟩
  · rw [hx]
    exact Or.inl rfl
  · rw [hx]
    simp only [Double.div, if_neg hn, Bool.xor_false]
    apply ofMagnitude_atLeast _ _ _ (Nat.pos_of_ne_zero hn)
    calc 2 ^ j * n ≤ 2 ^ i * 2 ^ 1074 := h
      _ ≤ k * 2 ^ 1074 := Nat.mul_le_mul_right _ hk

theorem gtZero_of_atLeast (x : Double) (j : ℕ) (hx : x.atLeast j) : x.gtZero = true := by
  rcases hx with hx | ⟨k, hx, hk⟩
  · rw [hx]
    rfl
  · rw [hx]
    have : 0 < 2 ^ j := by positivity
    have hk0 : k ≠ 0 := by omega
    simp [Double.gtZero, hk0]

theorem co2Covered_positive (m n : ℕ) (hm : m ≠ 0) (hn : n ≠ 0) (h : n ≤ 2 ^ 1072 * m) :
    ((((Double.finite false m).mul (.finite false (1000000 * 2 ^ 1074))).div
        (.finite false n)).div (.finite false (1000000 * 2 ^ 1074))).gtZero = true := by
  have hlog : 2 ^ Nat.log2 m ≤ m := Nat.log2_self_le hm
  have hlt : m < 2 ^ (Nat.log2 m + 1) := Nat.lt_log2_self
  generalize Nat.log2 m = α at hlog hlt
  have hA : ((Double.finite false m).mul (.finite false (1000000 * 2 ^ 1074))).atLeast (α + 19) := by
    simp only [Double.mul, Bool.xor_false]
    apply ofMagnitude_atLeast _ _ _ (by positivity)
    calc 2 ^ (α + 19) * 2 ^ 1074 = 2 ^ α * (2 ^ 19 * 2 ^ 1074) := by ring
      _ ≤ m * (1000000 * 2 ^ 1074) :=
        Nat.mul_le_mul hlog (Nat.mul_le_mul_right _ (by norm_num))
  have hB := atLeast_div _ n (α + 19) 20 hn hA (by
    calc 2 ^ 20 * n ≤ 2 ^ 20 * (2 ^ 1072 * m) := Nat.mul_le_mul_left _ h
      _ ≤ 2 ^ 20 * (2 ^ 1072 * 2 ^ (α + 1)) :=
        Nat.mul_le_mul_left _ (Nat.mul_le_mul_left _ (le_of_lt hlt))
      _ = 2 ^ (α + 19) * 2 ^ 1074 := by ring)
  have hC := atLeast_div _ (1000000 * 2 ^ 1074) 20 0 million_ne_zero hB (by
    calc 2 ^ 0 * (1000000 * 2 ^ 1074) = 1000000 * 2 ^ 1074 := by ring
      _ ≤ 2 ^ 20 * 2 ^ 1074 := Nat.mul_le_mul_right _ (by norm_num))
  exact gtZero_of_atLeast _ 0 hC

/-! ## Claims on `formatSimulationForComparison` -/

/-- C1, counterexample: the revenue `1e-320` (the binary64 value of 2024 units) and the
price `1e10` are both strictly positive, and the returned `co2Covered` is the number 0,
not `null`: `1e-320 * 1000000 / 1e10` is below half a unit and rounds to 0. With the
revenue `1.5e308` and the price 25 the product overflows and the returned value is
`Infinity`, not revenue / price. -/
theorem co2CoveredMillionTons_underflow_counterexample :
    Double.ofRatio 1 (10 ^ 320) = .finite false 2024 ∧
    (Double.ofRatio 1 (10 ^ 320)).gtZero = true ∧
    (Double.ofRatio 10000000000 1).gtZero = true ∧
    Binary64.co2CoveredMillionTons (some (Double.ofRatio 1 (10 ^ 320)))
        (some (Double.ofRatio 10000000000 1))
      = some (.finite false 0) ∧
    Binary64.co2CoveredMillionTons (some (Double.ofRatio (15 * 10 ^ 307) 1))
        (some (Double.ofRatio 25 1))
      = some (.infinite false) := by
  refine ⟨by decide!, by decide!, by decide!, by decide!, by decide!⟩

/-- C1, as amended: `co2Covered` is `null` unless both
`predictions.annualRevenueMillionUSD` and `inputs.carbonPriceUSD` are present and `> 0`;
when both are, it is `((revenue * 1000000) / price) / 1000000` with each of the three
operations rounded to the nearest binary64 value. For finite operands this value is never
negative and never `NaN`, and it is `> 0` whenever the price is at most `2 ^ 1072` times
the revenue; beyond that the quotient can round to 0. -/
theorem co2CoveredMillionTons_binary64 (revenueField priceField : Option Double) :
    (Binary64.co2CoveredMillionTons revenueField priceField ≠ none ↔
      ∃ r p, revenueField = some r ∧ priceField = some p ∧ r.gtZero = true ∧
        p.gtZero = true) ∧
    (∀ r p, revenueField = some r → priceField = some p → r.gtZero = true →
      p.gtZero = true →
      Binary64.co2CoveredMillionTons revenueField priceField
        = some (((r.mul (Double.ofRatio 1000000 1)).div p).div (Double.ofRatio 1000000 1))) ∧
    (∀ m n, revenueField = some (.finite false m) → priceField = some (.finite false n) →
      m ≠ 0 → n ≠ 0 →
      ∃ v, Binary64.co2CoveredMillionTons revenueField priceField = some v ∧
        v.nonNegative = true ∧ (n ≤ 2 ^ 1072 * m → v.gtZero = true)) := by
  refine ⟨co2Covered_ne_none_iff _ _, ?_, ?_⟩
  · intro r p hr hp hr0 hp0
    rw [hr, hp, co2Covered_of_gtZero r p hr0 hp0]
  · intro m n hr hp hm hn
    rw [hr, hp, co2Covered_finite m n hm hn]
    refine ⟨_, rfl, ?_, co2Covered_positive m n hm hn⟩
    apply div_finite_nonNegative _ _ million_ne_zero
    apply div_finite_nonNegative _ _ hn
    exact (mul_finite_mono _ _ _ million_ne_zero (finite_nonNegative m) (finite_nonNegative m)
      (Double.le_refl_of_nonNegative _ (finite_nonNegative m))).2.1

/-- C1, witness: revenue 140 and price 25 give the binary64 value nearest to 5.6 (the
significand 3152519739159347 at `2 ^ (-49)`), which is `> 0`; a price of 0 and a missing
price give `null`. -/
theorem co2CoveredMillionTons_binary64_witness :
    Binary64.co2CoveredMillionTons (some (Double.ofRatio 140 1)) (some (Double.ofRatio 25 1))
      = some (Double.ofRatio 28 5) ∧
    Double.ofRatio 28 5 = .finite false (3152519739159347 * 2 ^ 1025) ∧
    (Double.ofRatio 28 5).gtZero = true ∧
    Binary64.co2CoveredMillionTons (some (Double.ofRatio 140 1)) (some (Double.ofRatio 0 1))
      = none ∧
    Binary64.co2CoveredMillionTons (some (Double.ofRatio 140 1)) none = none := by
  have h := (co2CoveredMillionTons_binary64 (some (Double.ofRatio 140 1))
    (some (Double.ofRatio 25 1))).2.1 _ _ rfl rfl (by decide!) (by decide!)
  have hzero := (co2CoveredMillionTons_binary64 (some (Double.ofRatio 140 1))
    (some (Double.ofRatio 0 1))).1
  have hnone := (co2CoveredMillionTons_binary64 (some (Double.ofRatio 140 1)) none).1
  refine ⟨?_, by decide!, by decide!, ?_, ?_⟩
  · rw [h]
    decide!
  · by_contra hne
    obtain ⟨r, p, _, hp, _, hp0⟩ := hzero.1 hne
    rw [← Option.some.inj hp] at hp0
    exact absurd hp0 (by decide!)
  · by_contra hne
    obtain ⟨r, p, _, hp, _, _⟩ := hnone.1 hne
    exact absurd hp (by simp)

/-- C2, counterexample: the revenues 1.9 and 1.9000000000000001 are different numbers and
at the price 3 both give 0.6333333333333334; the prices 3 and 3.0000000000000004 are
different numbers and at the revenue 100 both give 33.33333333333333. The value is not
strictly increasing in the revenue and not strictly decreasing in the price. -/
theorem co2CoveredMillionTons_not_strict_counterexample :
    Double.ofRatio 19 10 = .finite false (4278419646001971 * 2 ^ 1023) ∧
    Double.ofRatio 19000000000000001 (10 ^ 16)
      = .finite false (8556839292003943 * 2 ^ 1022) ∧
    Double.ofRatio 6333333333333334 (10 ^ 16)
      = .finite false (5704559528002629 * 2 ^ 1021) ∧
    Double.ofRatio 19 10 ≠ Double.ofRatio 19000000000000001 (10 ^ 16) ∧
    (Double.ofRatio 19 10).le (Double.ofRatio 19000000000000001 (10 ^ 16)) = true ∧
    Binary64.co2CoveredMillionTons (some (Double.ofRatio 19 10)) (some (Double.ofRatio 3 1))
      = some (Double.ofRatio 6333333333333334 (10 ^ 16)) ∧
    Binary64.co2CoveredMillionTons (some (Double.ofRatio 19000000000000001 (10 ^ 16)))
        (some (Double.ofRatio 3 1))
      = some (Double.ofRatio 6333333333333334 (10 ^ 16)) ∧
    Double.ofRatio 3 1 ≠ Double.ofRatio 30000000000000004 (10 ^ 16) ∧
    (Double.ofRatio 3 1).le (Double.ofRatio 30000000000000004 (10 ^ 16)) = true ∧
    Binary64.co2CoveredMillionTons (some (Double.ofRatio 100 1)) (some (Double.ofRatio 3 1))
      = some (Double.ofRatio 3333333333333333 (10 ^ 14)) ∧
    Binary64.co2CoveredMillionTons (some (Double.ofRatio 100 1))
        (some (Double.ofRatio 30000000000000004 (10 ^ 16)))
      = some (Double.ofRatio 3333333333333333 (10 ^ 14)) := by
  refine ⟨by decide!, by decide!, by decide!, by decide!, by decide!, by decide!,
    by decide!, by decide!, by decide!, by decide!, by decide!⟩

/-- C2, as amended: for finite, strictly positive revenues and prices the `co2Covered`
value is non-decreasing in the revenue (at equal price) and non-increasing in the price
(at equal revenue); the operands are given by their magnitudes in units of
`2 ^ (-1074)`. -/
theorem co2CoveredMillionTons_binary64_monotone (mA mB nA nB : ℕ) (hmA : mA ≠ 0)
    (hmB : mB ≠ 0) (hnA : nA ≠ 0) (hnB : nB ≠ 0) :
    ∃ vA vB,
      Binary64.co2CoveredMillionTons (some (.finite false mA)) (some (.finite false nA))
        = some vA ∧
      Binary64.co2CoveredMillionTons (some (.finite false mB)) (some (.finite false nB))
        = some vB ∧
      (nA = nB → mA ≤ mB → vA.le vB = true) ∧
      (mA = mB → nA ≤ nB → vB.le vA = true) := by
  refine ⟨_, _, co2Covered_finite mA nA hmA hnA, co2Covered_finite mB nB hmB hnB, ?_, ?_⟩
  · intro hn hm
    subst hn
    have h1 := mul_finite_mono (.finite false mA) (.finite false mB) _ million_ne_zero
      (finite_nonNegative mA) (finite_nonNegative mB) (by simpa [Double.le] using hm)
    have h2 := div_finite_mono _ _ nA hnA h1.2.1 h1.2.2 h1.1
    exact div_finite_mono _ _ _ million_ne_zero (div_finite_nonNegative _ _ hnA h1.2.1)
      (div_finite_nonNegative _ _ hnA h1.2.2) h2
  · intro hm hn
    subst hm
    have h1 := mul_finite_mono (.finite false mA) (.finite false mA) _ million_ne_zero
      (finite_nonNegative mA) (finite_nonNegative mA)
      (Double.le_refl_of_nonNegative _ (finite_nonNegative mA))
    have h2 := div_finite_anti _ nA nB hnA hn h1.2.1
    exact div_finite_mono _ _ _ million_ne_zero (div_finite_nonNegative _ _ hnB h1.2.1)
      (div_finite_nonNegative _ _ hnA h1.2.1) h2

/-- C2, witness: at the price 25 the revenues 100 and 140 give 4 and the value nearest to
5.6, in this order; at the revenue 140 the prices 25 and 50 give the values nearest to 5.6
and to 2.8, the larger price the smaller value. -/
theorem co2CoveredMillionTons_binary64_monotone_witness :
    Double.ofRatio 100 1 = .finite false (100 * 2 ^ 1074) ∧
    Double.ofRatio 140 1 = .finite false (140 * 2 ^ 1074) ∧
    Double.ofRatio 25 1 = .finite false (25 * 2 ^ 1074) ∧
    Double.ofRatio 50 1 = .finite false (50 * 2 ^ 1074) ∧
    (∃ vA vB,
      Binary64.co2CoveredMillionTons (some (.finite false (100 * 2 ^ 1074)))
          (some (.finite false (25 * 2 ^ 1074))) = some vA ∧
      Binary64.co2CoveredMillionTons (some (.finite false (140 * 2 ^ 1074)))
          (some (.finite false (25 * 2 ^ 1074))) = some vB ∧
      vA.le vB = true ∧ vA = Double.ofRatio 4 1 ∧ vB = Double.ofRatio 28 5) ∧
    (∃ vA vB,
      Binary64.co2CoveredMillionTons (some (.finite false (140 * 2 ^ 1074)))
          (some (.finite false (25 * 2 ^ 1074))) = some vA ∧
      Binary64.co2CoveredMillionTons (some (.finite false (140 * 2 ^ 1074)))
          (some (.finite false (50 * 2 ^ 1074))) = some vB ∧
      vB.le vA = true ∧ vA = Double.ofRatio 28 5 ∧ vB = Double.ofRatio 14 5) := by
  refine ⟨by decide!, by decide!, by decide!, by decide!, ?_, ?_⟩
  · obtain ⟨vA, vB, hA, hB, hinc, _⟩ := co2CoveredMillionTons_binary64_monotone
      (100 * 2 ^ 1074) (140 * 2 ^ 1074) (25 * 2 ^ 1074) (25 * 2 ^ 1074)
      (by positivity) (by positivity) (by positivity) (by positivity)
    refine ⟨vA, vB, hA, hB, hinc rfl (by omega), ?_, ?_⟩
    · have h : Binary64.co2CoveredMillionTons (some (.finite false (100 * 2 ^ 1074)))
          (some (.finite false (25 * 2 ^ 1074))) = some (Double.ofRatio 4 1) := by decide!
      rw [hA] at h
      exact Option.some.inj h
    · have h : Binary64.co2CoveredMillionTons (some (.finite false (140 * 2 ^ 1074)))
          (some (.finite false (25 * 2 ^ 1074))) = some (Double.ofRatio 28 5) := by decide!
      rw [hB] at h
      exact Option.some.inj h
  · obtain ⟨vA, vB, hA, hB, _, hdec⟩ := co2CoveredMillionTons_binary64_monotone
      (140 * 2 ^ 1074) (140 * 2 ^ 1074) (25 * 2 ^ 1074) (50 * 2 ^ 1074)
      (by positivity) (by positivity) (by positivity) (by positivity)
    refine ⟨vA, vB, hA, hB, hdec rfl (by omega), ?_, ?_⟩
    · have h : Binary64.co2CoveredMillionTons (some (.finite false (140 * 2 ^ 1074)))
          (some (.finite false (25 * 2 ^ 1074))) = some (Double.ofRatio 28 5) := by decide!
      rw [hA] at h
      exact Option.some.inj h
    · have h : Binary64.co2CoveredMillionTons (some (.finite false (140 * 2 ^ 1074)))
          (some (.finite false (50 * 2 ^ 1074))) = some (Double.ofRatio 14 5) := by decide!
      rw [hB] at h
      exact Option.some.inj h

/-- C3, counterexample: the stored result carries `gdpUSD = 0` (present, not `> 0`) and
`gdpPPP = 2000000000`; the claim makes the GDP figure `gdpUSD` here and so demands `null`,
but `0 || gdpPPP` makes `gdpPPP` stand in and the function returns 7. -/
theorem formatSimulationForComparison_revenuePctGDP_counterexample :
    (sampleResult (some 140) (some 25) (some 0) (some 2000000000)).gdpUSDField = some 0 ∧
    (sampleResult (some 140) (some 25) (some 0) (some 2000000000)).gdpPPPField
      = some 2000000000 ∧
    (formatSimulationForComparison
      (sampleResult (some 140) (some 25) (some 0) (some 2000000000))).revenuePctGDP
      = some 7 := by
  refine ⟨rfl, rfl, ?_⟩
  simp only [formatSimulationForComparison, sampleResult, SimulationResult.revenueField,
    SimulationResult.gdpUSDField, SimulationResult.gdpPPPField, Option.bind,
    orNumLit_some_zero, revenuePctGDP, orNum, truthyNum]
  norm_num

/-- C3, as amended: `revenuePctGDP` is `null` unless the GDP figure is present and `> 0`,
and otherwise it is exactly `((annualRevenueMillionUSD * 1000000) / gdp) * 100` with no
clamping, where the GDP figure is `countryContext.gdpUSD` when that is present and not
zero, and `countryContext.gdpPPP` when `gdpUSD` is absent or zero; the revenue is the
stored figure, or 0 when it is absent. -/
theorem formatSimulationForComparison_revenuePctGDP (sim : SimulationResult) :
    (∀ g, sim.gdpUSDField = some g → g ≠ 0 →
      (formatSimulationForComparison sim).revenuePctGDP =
        if 0 < g then
          some ((formatSimulationForComparison sim).annualRevenue * 1000000 / g * 100)
        else none) ∧
    (sim.gdpUSDField = none ∨ sim.gdpUSDField = some 0 →
      (formatSimulationForComparison sim).revenuePctGDP =
        match sim.gdpPPPField with
        | some g =>
          if 0 < g then
            some ((formatSimulationForComparison sim).annualRevenue * 1000000 / g * 100)
          else none
        | none => none) ∧
    (∀ r, sim.revenueField = some r → (formatSimulationForComparison sim).annualRevenue = r) ∧
    (sim.revenueField = none → (formatSimulationForComparison sim).annualRevenue = 0) := by
  refine ⟨?_, ?_, ?_, ?_⟩
  · intro g hg hg0
    simp only [formatSimulationForComparison, revenuePctGDP, hg, orNum, truthyNum]
    by_cases hpos : 0 < g <;> simp [hg0, hpos]
  · intro h
    have hfirst : orNum sim.gdpUSDField sim.gdpPPPField = sim.gdpPPPField := by
      rcases h with h | h <;> simp [h, orNum, truthyNum]
    simp only [formatSimulationForComparison, revenuePctGDP, hfirst]
    cases hP : sim.gdpPPPField with
    | none => simp [orNum, truthyNum]
    | some g =>
      by_cases hg0 : g = 0
      · subst hg0
        simp [orNum, truthyNum]
      · by_cases hpos : 0 < g <;> simp [orNum, truthyNum, hg0, hpos]
  · intro r hr
    simp only [formatSimulationForComparison, hr, orNumLit_some_zero]
  · intro hr
    simp only [formatSimulationForComparison, hr, orNumLit_none_zero]

/-- C3, witness: revenue 140 against `gdpUSD = 100000000` gives 140 (not clamped to 100),
and against `gdpUSD = 0`, `gdpPPP = 2000000000` gives 7. -/
theorem formatSimulationForComparison_revenuePctGDP_witness :
    (formatSimulationForComparison
      (sampleResult (some 140) (some 25) (some 100000000) none)).revenuePctGDP = some 140 ∧
    (formatSimulationForComparison
      (sampleResult (some 140) (some 25) (some 0) (some 2000000000))).revenuePctGDP
      = some 7 := by
  constructor
  · have h := formatSimulationForComparison_revenuePctGDP
      (sampleResult (some 140) (some 25) (some 100000000) none)
    rw [h.1 100000000 rfl (by norm_num), h.2.2.1 140 rfl]
    norm_num
  · have h := formatSimulationForComparison_revenuePctGDP
      (sampleResult (some 140) (some 25) (some 0) (some 2000000000))
    rw [h.2.1 (Or.inr rfl), h.2.2.1 140 rfl]
    show (if (0 : ℚ) < 2000000000 then some ((140 : ℚ) * 1000000 / 2000000000 * 100) else none)
      = some 7
    norm_num

/-! ## Claims on `transformApiResponse` -/

theorem foldl_sumRevenue (ys : List YearlyPrediction) :
    ∀ (rs : List ℚ) (acc : ℚ),
      ys.map (fun y => y.revenue_million_usd) = rs.map some →
      ys.foldl sumRevenue acc = acc + rs.sum := by
  induction ys with
  | nil =>
    intro rs acc h
    cases rs with
    | nil => simp
    | cons r rs => simp at h
  | cons y ys ih =>
    intro rs acc h
    cases rs with
    | nil => simp at h
    | cons r rs =>
      simp only [List.map_cons, List.cons.injEq] at h
      rw [List.foldl_cons, ih rs _ h.2, sumRevenue, h.1, orNumLit_some_zero, List.sum_cons]
      ring

theorem averageRevenue_of_empty : averageRevenue [] = 0 := by
  simp [averageRevenue, orNumLit]

/-- C4: when `yearly_predictions` is a non-empty sequence in which every entry carries a
`revenue_million_usd` figure, `transformApiResponse` sets
`predictions.annualRevenueMillionUSD` to the arithmetic mean of those figures: their sum
divided by the length of the sequence. -/
theorem transformApiResponse_averageRevenue (inputs : FormState) (apiData : ApiData)
    (ys : List YearlyPrediction) (rs : List ℚ)
    (hys : apiData.yearly_predictions = some ys) (hne : ys ≠ [])
    (hrs : ys.map (fun y => y.revenue_million_usd) = rs.map some) :
    (transformApiResponse inputs apiData).predictions.annualRevenueMillionUSD
      = some (rs.sum / (rs.length : ℚ)) ∧ rs.length = ys.length := by
  have hlen : rs.length = ys.length := by
    have h := congrArg List.length hrs
    simpa using h.symm
  have hpos : 0 < ys.length := List.length_pos.2 hne
  refine ⟨?_, hlen⟩
  simp only [transformApiResponse, hys, Option.getD_some, averageRevenue, if_pos hpos]
  rw [foldl_sumRevenue ys rs 0 hrs, zero_add, hlen]

/-- C4, witness: the yearly revenues 100, 120, 140, 160, 180 give 140. -/
theorem transformApiResponse_averageRevenue_witness :
    (transformApiResponse sampleForm
      (sampleApiData (some (yearlyOf [100, 120, 140, 160, 180])) none)).predictions.annualRevenueMillionUSD
      = some 140 := by
  have h := (transformApiResponse_averageRevenue sampleForm
    (sampleApiData (some (yearlyOf [100, 120, 140, 160, 180])) none)
    (yearlyOf [100, 120, 140, 160, 180]) [100, 120, 140, 160, 180] rfl (by decide) rfl).1
  rw [h]
  norm_num

/-- C5: for every upstream response the result of `transformApiResponse` has
`confidence.revenueLow = 0.8 * annualRevenueMillionUSD` and
`confidence.revenueHigh = 1.2 * annualRevenueMillionUSD`, so that
`revenueLow <= annualRevenueMillionUSD <= revenueHigh` whenever the revenue is not
negative. -/
theorem transformApiResponse_confidence (inputs : FormState) (apiData : ApiData) :
    ∃ a : ℚ,
      (transformApiResponse inputs apiData).predictions.annualRevenueMillionUSD = some a ∧
      (transformApiResponse inputs apiData).predictions.confidence
        = some { revenueLow := 0.8 * a, revenueHigh := 1.2 * a } ∧
      (0 ≤ a → 0.8 * a ≤ a ∧ a ≤ 1.2 * a) := by
  refine ⟨averageRevenue (apiData.yearly_predictions.getD []), rfl, ?_, ?_⟩
  · simp only [transformApiResponse, mul_comm]
  · intro h
    constructor <;> nlinarith

/-- C5, witness: the scenario revenue 140 gets the bounds 112 and 168. -/
theorem transformApiResponse_confidence_witness :
    (transformApiResponse sampleForm
      (sampleApiData (some (yearlyOf [100, 120, 140, 160, 180])) none)).predictions
      = { annualRevenueMillionUSD := some 140,
          confidence := some { revenueLow := 112, revenueHigh := 168 } } := by
  obtain ⟨a, ha, hc, _⟩ := transformApiResponse_confidence sampleForm
    (sampleApiData (some (yearlyOf [100, 120, 140, 160, 180])) none)
  have h140 : (transformApiResponse sampleForm
      (sampleApiData (some (yearlyOf [100, 120, 140, 160, 180])) none)).predictions.annualRevenueMillionUSD
      = some 140 := by
    simp only [transformApiResponse, sampleApiData, yearlyOf, averageRevenue, sumRevenue,
      Option.getD_some, List.map, List.foldl, List.length, orNumLit_some_zero]
    norm_num
  have ha140 : a = 140 := by
    rw [h140] at ha
    exact (Option.some.inj ha).symm
  subst ha140
  have hp : ∀ p : Predictions, p.annualRevenueMillionUSD = some 140 →
      p.confidence = some { revenueLow := 0.8 * 140, revenueHigh := 1.2 * 140 } →
      p = { annualRevenueMillionUSD := some 140,
            confidence := some { revenueLow := 112, revenueHigh := 168 } } := by
    intro p h1 h2
    cases p
    simp only at h1 h2
    subst h1 h2
    norm_num
  exact hp _ h140 hc

/-- C6: when `yearly_predictions` is empty or absent, the first year is the empty object
and `transformApiResponse` yields the number 0 as `annualRevenueMillionUSD` (with both
confidence bounds 0). -/
theorem transformApiResponse_no_yearly (inputs : FormState) (apiData : ApiData)
    (h : apiData.yearly_predictions = none ∨ apiData.yearly_predictions = some []) :
    (transformApiResponse inputs apiData).predictions
      = { annualRevenueMillionUSD := some 0,
          confidence := some { revenueLow := 0, revenueHigh := 0 } } ∧
    (transformApiResponse inputs apiData).yearlyPredictions = [] := by
  have hys : apiData.yearly_predictions.getD [] = [] := by
    rcases h with h | h <;> simp [h]
  simp only [transformApiResponse, hys, averageRevenue_of_empty, zero_mul, and_self]

/-- C6, witness: an absent and an empty `yearly_predictions` both give revenue 0. -/
theorem transformApiResponse_no_yearly_witness :
    (transformApiResponse sampleForm (sampleApiData none none)).predictions.annualRevenueMillionUSD
      = some 0 ∧
    (transformApiResponse sampleForm
      (sampleApiData (some []) none)).predictions.annualRevenueMillionUSD = some 0 := by
  constructor
  · rw [(transformApiResponse_no_yearly sampleForm (sampleApiData none none) (Or.inl rfl)).1]
  · rw [(transformApiResponse_no_yearly sampleForm (sampleApiData (some []) none)
      (Or.inr rfl)).1]

/-- C9, the failing input: the form carries `policyType = CARBON_TAX` and the upstream
response has no `inputs` echo; the result echoes the country, the carbon price and the
duration of the form, but its `policyType` is `ETS`. -/
theorem transformApiResponse_policyType_not_echoed :
    sampleForm.policyType = "CARBON_TAX" ∧
    (sampleApiData (some (yearlyOf [100, 120, 140, 160, 180])) none).inputs = none ∧
    (transformApiResponse sampleForm
      (sampleApiData (some (yearlyOf [100, 120, 140, 160, 180])) none)).inputs
      = { country := some "Pakistan", policyType := some "ETS",
          carbonPriceUSD := some (.str "25" (some 25)), durationYears := some (.num 5) } := by
  refine ⟨rfl, rfl, ?_⟩
  decide

theorem orNum_eq (a b : Option ℚ) :
    orNum a b = if a = none ∨ a = some 0 then b else a := by
  cases a with
  | none => simp [orNum, truthyNum]
  | some q => by_cases h : q = 0 <;> simp [orNum, truthyNum, h]

theorem orNum_none (a : Option ℚ) :
    orNum a none = if a = some 0 then none else a := by
  cases a with
  | none => simp [orNum, truthyNum]
  | some q => by_cases h : q = 0 <;> simp [orNum, truthyNum, h]

theorem orStr_none (a : Option String) :
    orStr a none = if a = some "" then none else a := by
  cases a with
  | none => simp [orStr, truthyStr]
  | some s => by_cases h : s = "" <;> simp [orStr, truthyStr, h]

theorem orNum_none_ne_zero (a : Option ℚ) : orNum a none ≠ some 0 := by
  rw [orNum_none]
  by_cases h : a = some 0
  · simp [h]
  · simp [h]

theorem orStr_none_ne_empty (a : Option String) : orStr a none ≠ some "" := by
  rw [orStr_none]
  by_cases h : a = some ""
  · simp [h]
  · simp [h]

/-- C10, counterexample: the upstream supplies `fossilFuelDependencyPct = 0`, a value of
its range `[0, 100]`, and the built country context carries `null` for it. -/
theorem transformApiResponse_countryContext_counterexample :
    (sampleContext (some 0)).fossilFuelDependencyPct = some 0 ∧
    (transformApiResponse sampleForm
      (sampleApiData none (some (sampleContext (some 0))))).countryContext.fossilFuelDependencyPct
      = none := by
  refine ⟨rfl, ?_⟩
  decide

/-- C10, as amended: each field of the built country context equals the value the upstream
supplied for it when that value is not 0 (for `region` and `incomeGroup`: not the empty
text), `gdpUSD` and `gdpPPP` standing in for each other when the other one is absent or 0;
a field that the upstream supplies as 0 (or as the empty text), or does not supply, is
`null`, and no field is ever 0. -/
theorem transformApiResponse_countryContext (inputs : FormState) (apiData : ApiData) :
    (apiData.country_context = none →
      (transformApiResponse inputs apiData).countryContext = emptyCountryContext) ∧
    (∀ cc, apiData.country_context = some cc →
      (transformApiResponse inputs apiData).countryContext.annualCO2Tons
        = (if cc.annualCO2Tons = some 0 then none else cc.annualCO2Tons) ∧
      (transformApiResponse inputs apiData).countryContext.population
        = (if cc.population = some 0 then none else cc.population) ∧
      (transformApiResponse inputs apiData).countryContext.fossilFuelDependencyPct
        = (if cc.fossilFuelDependencyPct = some 0 then none else cc.fossilFuelDependencyPct) ∧
      (transformApiResponse inputs apiData).countryContext.gdpUSD
        = (if cc.gdpUSD = none ∨ cc.gdpUSD = some 0
            then (if cc.gdpPPP = some 0 then none else cc.gdpPPP) else cc.gdpUSD) ∧
      (transformApiResponse inputs apiData).countryContext.gdpPPP
        = (if cc.gdpPPP = none ∨ cc.gdpPPP = some 0
            then (if cc.gdpUSD = some 0 then none else cc.gdpUSD) else cc.gdpPPP) ∧
      (transformApiResponse inputs apiData).countryContext.region
        = (if cc.region = some "" then none else cc.region) ∧
      (transformApiResponse inputs apiData).countryContext.incomeGroup
        = (if cc.incomeGroup = some "" then none else cc.incomeGroup)) ∧
    ((transformApiResponse inputs apiData).countryContext.annualCO2Tons ≠ some 0 ∧
      (transformApiResponse inputs apiData).countryContext.population ≠ some 0 ∧
      (transformApiResponse inputs apiData).countryContext.fossilFuelDependencyPct ≠ some 0 ∧
      (transformApiResponse inputs apiData).countryContext.gdpUSD ≠ some 0 ∧
      (transformApiResponse inputs apiData).countryContext.gdpPPP ≠ some 0 ∧
      (transformApiResponse inputs apiData).countryContext.region ≠ some "" ∧
      (transformApiResponse inputs apiData).countryContext.incomeGroup ≠ some "") := by
  refine ⟨?_, ?_, ?_⟩
  · intro h
    simp only [transformApiResponse, transformCountryContext, h, Option.getD_none]
    rfl
  · intro cc h
    simp only [transformApiResponse, transformCountryContext, h, Option.getD_some]
    refine ⟨orNum_none _, orNum_none _, orNum_none _, ?_, ?_, orStr_none _, orStr_none _⟩
    · rw [orNum_none, orNum_eq]
      by_cases h1 : cc.gdpUSD = none ∨ cc.gdpUSD = some 0
      · simp only [if_pos h1]
      · have h2 : cc.gdpUSD ≠ some 0 := fun h0 => h1 (Or.inr h0)
        simp only [if_neg h1, if_neg h2]
    · rw [orNum_none, orNum_eq]
      by_cases h1 : cc.gdpPPP = none ∨ cc.gdpPPP = some 0
      · simp only [if_pos h1]
      · have h2 : cc.gdpPPP ≠ some 0 := fun h0 => h1 (Or.inr h0)
        simp only [if_neg h1, if_neg h2]
  · simp only [transformApiResponse, transformCountryContext]
    exact ⟨orNum_none_ne_zero _, orNum_none_ne_zero _, orNum_none_ne_zero _,
      orNum_none_ne_zero _, orNum_none_ne_zero _, orStr_none_ne_empty _,
      orStr_none_ne_empty _⟩

/-- C10, witness: the scenario context (only `gdpUSD` supplied, share of fossil fuels
64.3) is carried over field by field, `gdpUSD` standing in for the missing `gdpPPP`. -/
theorem transformApiResponse_countryContext_witness :
    (transformApiResponse sampleForm
      (sampleApiData none (some (sampleContext (some (643 / 10)))))).countryContext
      = { annualCO2Tons := some 227000000, gdpUSD := some 340000000000,
          gdpPPP := some 340000000000, population := some 231402117,
          fossilFuelDependencyPct := some (643 / 10), region := some "South Asia",
          incomeGroup := some "Lower middle income" } ∧
    (transformApiResponse sampleForm (sampleApiData none none)).countryContext
      = emptyCountryContext := by
  constructor
  · have h := (transformApiResponse_countryContext sampleForm
      (sampleApiData none (some (sampleContext (some (643 / 10)))))).2.1
      (sampleContext (some (643 / 10))) rfl
    obtain ⟨h1, h2, h3, h4, h5, h6, h7⟩ := h
    have hext : ∀ a b : CountryContext, a.annualCO2Tons = b.annualCO2Tons →
        a.population = b.population → a.fossilFuelDependencyPct = b.fossilFuelDependencyPct →
        a.gdpUSD = b.gdpUSD → a.gdpPPP = b.gdpPPP → a.region = b.region →
        a.incomeGroup = b.incomeGroup → a = b := by
      intro a b e1 e2 e3 e4 e5 e6 e7
      cases a
      cases b
      simp only at e1 e2 e3 e4 e5 e6 e7
      subst e1 e2 e3 e4 e5 e6 e7
      rfl
    apply hext
    · rw [h1]; decide
    · rw [h2]; decide
    · rw [h3]; norm_num [sampleContext]
    · rw [h4]; decide
    · rw [h5]; decide
    · rw [h6]; decide
    · rw [h7]; decide
  · exact (transformApiResponse_countryContext sampleForm (sampleApiData none none)).1 rfl

/-! ## Claims on `runSimulation` -/

/-- C7, the failing input: in a request that is valid otherwise, the spelling
`Carbon Tax` (which the comment on line 40 lists as accepted) is upper-cased to
`CARBON TAX`, matches neither `CARBON_TAX` nor `CARBONTAX`, and is answered with HTTP 400;
the spellings `CARBON_TAX`, `carbonTax` and `ets` are accepted and normalised. -/
theorem runSimulation_rejects_Carbon_Tax :
    toUpperCase "Carbon Tax" = "CARBON TAX" ∧
    runSimulation (sampleRequest "Carbon Tax") = .badRequest policyTypeMessage ∧
    runSimulation (sampleRequest "carbon tax") = .badRequest policyTypeMessage ∧
    runSimulation (sampleRequest "CARBON_TAX")
      = .proceed { country := "Pakistan", policyType := "CARBON_TAX", carbonPriceUSD := 25,
                   durationYears := 5 } ∧
    runSimulation (sampleRequest "carbonTax")
      = .proceed { country := "Pakistan", policyType := "CARBON_TAX", carbonPriceUSD := 25,
                   durationYears := 5 } ∧
    runSimulation (sampleRequest "ets")
      = .proceed { country := "Pakistan", policyType := "ETS", carbonPriceUSD := 25,
                   durationYears := 5 } := by
  refine ⟨by decide, by decide, by decide, by decide, by decide, by decide⟩

/-- C8, counterexample: for the empty string as `policyType`, in a request that is valid
otherwise, the answer is HTTP 400 with the message of the missing-fields check, which is
neither the policy-type message nor a continuation with `CARBON_TAX` or `ETS`. -/
theorem runSimulation_policyType_counterexample :
    runSimulation (sampleRequest "") = .badRequest missingFieldsMessage ∧
    ¬ (runSimulation (sampleRequest "") = .badRequest policyTypeMessage ∨
      ∃ i, runSimulation (sampleRequest "") = .proceed i ∧
        (i.policyType = "CARBON_TAX" ∨ i.policyType = "ETS")) := by
  have h : runSimulation (sampleRequest "") = .badRequest missingFieldsMessage := by decide
  refine ⟨h, ?_⟩
  rw [h]
  rintro (h1 | ⟨i, h2, _⟩)
  · exact absurd h1 (by decide)
  · exact ValidationOutcome.noConfusion h2

/-- C8, as amended: for every `policyType` string in a request that is valid otherwise,
`runSimulation` answers HTTP 400 with the missing-fields message when the string is empty,
answers HTTP 400 with `Policy type must be either CARBON_TAX or ETS` when the upper-cased
string is none of `CARBON_TAX`, `CARBONTAX`, `ETS`, and otherwise continues with a
normalised policy type that is exactly `CARBON_TAX` or exactly `ETS`; no value is silently
defaulted to one of the two tokens. -/
theorem runSimulation_policyType (body : SimulateRequest) (d price : ℚ)
    (country pt : String)
    (hd : orNum body.durationYears body.duration = some d) (hd1 : 1 ≤ d) (hd20 : d ≤ 20)
    (hprice : orNum body.carbonPriceUSD body.carbonPrice = some price)
    (hcountry : body.country = some country) (hc : country ≠ "")
    (hpt : body.policyType = some pt) :
    (pt = "" ∧ runSimulation body = .badRequest missingFieldsMessage) ∨
    (pt ≠ "" ∧ toUpperCase pt ≠ "CARBON_TAX" ∧ toUpperCase pt ≠ "CARBONTAX" ∧
      toUpperCase pt ≠ "ETS" ∧ runSimulation body = .badRequest policyTypeMessage) ∨
    (pt ≠ "" ∧ (toUpperCase pt = "CARBON_TAX" ∨ toUpperCase pt = "CARBONTAX") ∧
      runSimulation body
        = .proceed { country := country, policyType := "CARBON_TAX", carbonPriceUSD := price,
                     durationYears := parseIntNum d }) ∨
    (pt ≠ "" ∧ toUpperCase pt = "ETS" ∧
      runSimulation body
        = .proceed { country := country, policyType := "ETS", carbonPriceUSD := price,
                     durationYears := parseIntNum d }) := by
  have hd0 : d ≠ 0 := by
    intro h0
    rw [h0] at hd1
    norm_num at hd1
  have hrange : ¬ (d < 1 ∨ 20 < d) := by
    rintro (h | h)
    · exact absurd hd1 (not_le.2 h)
    · exact absurd hd20 (not_le.2 h)
  by_cases hempty : pt = ""
  · left
    refine ⟨hempty, ?_⟩
    simp only [runSimulation, hd, hprice, hcountry, hpt]
    rw [if_pos (Or.inr (Or.inl hempty))]
  · right
    have hfields : ¬ (d = 0 ∨ pt = "" ∨ country = "") := by
      rintro (h | h | h)
      · exact hd0 h
      · exact hempty h
      · exact hc h
    have hrun : runSimulation body =
        match normalizePolicyType pt with
        | some normalizedPolicyType =>
          .proceed { country := country, policyType := normalizedPolicyType,
                     carbonPriceUSD := price, durationYears := parseIntNum d }
        | none => .badRequest policyTypeMessage := by
      simp only [runSimulation, hd, hprice, hcountry, hpt]
      rw [if_neg hfields, if_neg hrange]
    by_cases htax : toUpperCase pt = "CARBON_TAX" ∨ toUpperCase pt = "CARBONTAX"
    · right
      left
      refine ⟨hempty, htax, ?_⟩
      rw [hrun]
      simp only [normalizePolicyType, if_pos htax]
    · by_cases hets : toUpperCase pt = "ETS"
      · right
        right
        refine ⟨hempty, hets, ?_⟩
        rw [hrun]
        simp only [normalizePolicyType, if_neg htax, if_pos hets]
      · left
        refine ⟨hempty, fun h => htax (Or.inl h), fun h => htax (Or.inr h), hets, ?_⟩
        rw [hrun]
        simp only [normalizePolicyType, if_neg htax, if_neg hets]

/-- C8, witness: in the sample request `Ets` continues as `ETS`, `carbon` is answered
with the policy-type message, and `etſ`, whose last letter is the long s that upper-cases
to `S`, continues as `ETS`. -/
theorem runSimulation_policyType_witness :
    runSimulation (sampleRequest "Ets")
      = .proceed { country := "Pakistan", policyType := "ETS", carbonPriceUSD := 25,
                   durationYears := 5 } ∧
    runSimulation (sampleRequest "carbon") = .badRequest policyTypeMessage ∧
    toUpperCase "etſ" = "ETS" ∧
    runSimulation (sampleRequest "etſ")
      = .proceed { country := "Pakistan", policyType := "ETS", carbonPriceUSD := 25,
                   durationYears := 5 } := by
  refine ⟨?_, ?_, by decide, ?_⟩
  · rcases runSimulation_policyType (sampleRequest "Ets") 5 25 "Pakistan" "Ets"
      (by decide) (by norm_num) (by norm_num) (by decide) rfl (by decide) rfl
      with h | h | h | h
    · exact absurd h.1 (by decide)
    · exact absurd h.2.2.2.1 (by decide)
    · exact absurd h.2.1 (by decide)
    · rw [h.2.2]
      decide
  · rcases runSimulation_policyType (sampleRequest "carbon") 5 25 "Pakistan" "carbon"
      (by decide) (by norm_num) (by norm_num) (by decide) rfl (by decide) rfl
      with h | h | h | h
    · exact absurd h.1 (by decide)
    · exact h.2.2.2.2
    · exact absurd h.2.1 (by decide)
    · exact absurd h.2.1 (by decide)
  · rcases runSimulation_policyType (sampleRequest "etſ") 5 25 "Pakistan" "etſ"
      (by decide) (by norm_num) (by norm_num) (by decide) rfl (by decide) rfl
      with h | h | h | h
    · exact absurd h.1 (by decide)
    · exact absurd h.2.2.2.1 (by decide)
    · exact absurd h.2.1 (by decide)
    · rw [h.2.2]
      decide

/-! ## Claims on the comparison store -/

theorem saveSimulation_of_list (now : CallTime) (storage : Storage)
    (simulationResult : SimulationResult) (previous : List SimulationResult)
    (h : getSimulations storage = some previous) :
    saveSimulation now storage simulationResult
      = (some (.array (previous ++ [newSimulation now simulationResult])),
         .returned (newSimulation now simulationResult).id) := by
  simp only [saveSimulation, h]

theorem removeSimulation_of_list (storage : Storage) (id : String)
    (previous : List SimulationResult) (h : getSimulations storage = some previous) :
    removeSimulation storage id
      = (some (.array (previous.filter (fun sim => decide (sim.id ≠ some id)))),
         .returned ()) := by
  simp only [removeSimulation, h]

theorem getSimulations_array (records : List SimulationResult) :
    getSimulations (some (.array records)) = some records := rfl

/-- C11: after `saveSimulation` the list returned by `getSimulations` is the previous
list, unchanged and in the same order, followed by exactly one new record that carries
every field of `simulationResult`; the returned id is the id of that last record. -/
theorem saveSimulation_appends (now : CallTime) (storage : Storage)
    (simulationResult : SimulationResult) (previous : List SimulationResult)
    (h : getSimulations storage = some previous) :
    ∃ added : SimulationResult,
      getSimulations (saveSimulation now storage simulationResult).1
        = some (previous ++ [added]) ∧
      added.inputs = simulationResult.inputs ∧
      added.predictions = simulationResult.predictions ∧
      added.countryContext = simulationResult.countryContext ∧
      added.success = simulationResult.success ∧
      (∀ i, simulationResult.id = some i → added.id = some i) ∧
      (∀ t, simulationResult.timestamp = some t → added.timestamp = some t) ∧
      (saveSimulation now storage simulationResult).2 = .returned added.id := by
  refine ⟨newSimulation now simulationResult, ?_, rfl, rfl, rfl, rfl, ?_, ?_, ?_⟩
  · rw [saveSimulation_of_list now storage simulationResult previous h, getSimulations_array]
  · intro i hi
    simp [newSimulation, hi]
  · intro t ht
    simp [newSimulation, ht]
  · rw [saveSimulation_of_list now storage simulationResult previous h]

/-- C11, witness: saving the scenario result into a store that holds one record gives
that record followed by the new one, whose generated id is returned. -/
theorem saveSimulation_appends_witness :
    getSimulations (saveSimulation sampleTime1
        (some (.array [storedRecord "1699990000000abcdefghi" "2023-11-14T19:26:40.000Z"
          "Japan" "ETS" (some 30)])) unsavedResult).1
      = some [storedRecord "1699990000000abcdefghi" "2023-11-14T19:26:40.000Z"
          "Japan" "ETS" (some 30),
          { unsavedResult with
            id := some "1700000000000k3j9x0q2a"
            timestamp := some "2023-11-14T22:13:20.000Z" }] ∧
    (saveSimulation sampleTime1
        (some (.array [storedRecord "1699990000000abcdefghi" "2023-11-14T19:26:40.000Z"
          "Japan" "ETS" (some 30)])) unsavedResult).2
      = .returned (some "1700000000000k3j9x0q2a") := by
  obtain ⟨added, h1, _, _, _, _, _, _, h8⟩ := saveSimulation_appends sampleTime1
    (some (.array [storedRecord "1699990000000abcdefghi" "2023-11-14T19:26:40.000Z"
      "Japan" "ETS" (some 30)])) unsavedResult
    [storedRecord "1699990000000abcdefghi" "2023-11-14T19:26:40.000Z" "Japan" "ETS" (some 30)]
    rfl
  constructor
  · decide
  · decide

/-- C12, the failing input: a result that carries an `id` and a `timestamp` of its own
(here the record that a first call stored, saved once more) keeps them: the appended
record has neither the identifier generated during the call nor the current time of the
call, and the returned id is not the generated one. -/
theorem saveSimulation_keeps_own_id :
    (newSimulation sampleTime1 unsavedResult).id = some "1700000000000k3j9x0q2a" ∧
    generatedId sampleTime2 = "1700000060000p7m1w4z8c" ∧
    saveSimulation sampleTime2 none (newSimulation sampleTime1 unsavedResult)
      = (some (.array [{ unsavedResult with
                         id := some "1700000000000k3j9x0q2a"
                         timestamp := some "2023-11-14T22:13:20.000Z" }]),
         .returned (some "1700000000000k3j9x0q2a")) := by
  refine ⟨by decide, by decide, by decide⟩

/-- C13, the failing sequence: from the empty store, saving a result and then saving the
record that this first call stored leaves two records with the same id, although the two
generated identifiers differ. -/
theorem runCalls_duplicate_id :
    generatedId sampleTime1 ≠ generatedId sampleTime2 ∧
    runCalls [.save sampleTime1 unsavedResult,
        .save sampleTime2 (newSimulation sampleTime1 unsavedResult)]
      = some (.array [{ unsavedResult with
                        id := some "1700000000000k3j9x0q2a"
                        timestamp := some "2023-11-14T22:13:20.000Z" },
                      { unsavedResult with
                        id := some "1700000000000k3j9x0q2a"
                        timestamp := some "2023-11-14T22:13:20.000Z" }]) := by
  refine ⟨by decide, by decide⟩

theorem filter_ne_of_forall_ne (l : List SimulationResult) (id : String)
    (h : ∀ r ∈ l, r.id ≠ some id) :
    l.filter (fun sim => decide (sim.id ≠ some id)) = l := by
  rw [List.filter_eq_self]
  intro r hr
  simpa using h r hr

/-- C14: for a stored list whose ids are pairwise distinct, `removeSimulation(id)` returns
without an error; when no record has that id the stored list is unchanged, and otherwise
the stored list afterwards is the previous one with exactly the one record of that id
deleted, all other records unchanged in their order. -/
theorem removeSimulation_deletes_one (storage : Storage) (id : String)
    (previous : List SimulationResult) (h : getSimulations storage = some previous)
    (hdistinct : (previous.map (fun r => r.id)).Nodup) :
    (removeSimulation storage id).2 = .returned () ∧
    ((∀ r ∈ previous, r.id ≠ some id) →
      getSimulations (removeSimulation storage id).1 = some previous) ∧
    (∀ r ∈ previous, r.id = some id →
      ∃ before after, previous = before ++ r :: after ∧
        (∀ x ∈ before ++ after, x.id ≠ some id) ∧
        getSimulations (removeSimulation storage id).1 = some (before ++ after)) := by
  refine ⟨?_, ?_, ?_⟩
  · rw [removeSimulation_of_list storage id previous h]
  · intro hno
    rw [removeSimulation_of_list storage id previous h, getSimulations_array,
      filter_ne_of_forall_ne previous id hno]
  · intro r hr hid
    obtain ⟨before, after, hsplit⟩ := List.append_of_mem hr
    have hothers : ∀ x ∈ before ++ after, x.id ≠ some id := by
      intro x hx hxid
      rw [hsplit, List.map_append, List.map_cons] at hdistinct
      have hnd := List.nodup_append.1 hdistinct
      have hcons := List.nodup_cons.1 hnd.2.1
      rcases List.mem_append.1 hx with hb | ha
      · have h1 : x.id ∈ before.map (fun r => r.id) := List.mem_map_of_mem _ hb
        have h2 : x.id ∈ (r.id :: after.map (fun r => r.id)) := by
          rw [hxid, hid]
          exact List.mem_cons_self _ _
        exact hnd.2.2 h1 h2
      · have h1 : r.id ∈ after.map (fun r => r.id) := by
          rw [hid, ← hxid]
          exact List.mem_map_of_mem _ ha
        exact hcons.1 h1
    refine ⟨before, after, hsplit, hothers, ?_⟩
    have hb : ∀ x ∈ before, x.id ≠ some id :=
      fun x hx => hothers x (List.mem_append_left _ hx)
    have ha : ∀ x ∈ after, x.id ≠ some id :=
      fun x hx => hothers x (List.mem_append_right _ hx)
    have hr0 : decide (r.id ≠ some id) = false := by simp [hid]
    rw [removeSimulation_of_list storage id previous h, getSimulations_array, hsplit,
      List.filter_append, List.filter_cons_of_neg (by simp [hr0]),
      filter_ne_of_forall_ne before id hb, filter_ne_of_forall_ne after id ha]

/-- C14, witness: removing the id of the second of three stored records leaves the first
and the third, and removing an id that no record has leaves all three. -/
theorem removeSimulation_deletes_one_witness :
    getSimulations (removeSimulation
        (some (.array [storedRecord "a1" "2023-11-14T19:26:40.000Z" "Japan" "ETS" (some 30),
          storedRecord "b2" "2023-11-14T20:26:40.000Z" "Pakistan" "CARBON_TAX" (some 25),
          storedRecord "c3" "2023-11-14T21:26:40.000Z" "Chile" "CARBON_TAX" (some 5)]))
        "b2").1
      = some [storedRecord "a1" "2023-11-14T19:26:40.000Z" "Japan" "ETS" (some 30),
          storedRecord "c3" "2023-11-14T21:26:40.000Z" "Chile" "CARBON_TAX" (some 5)] ∧
    getSimulations (removeSimulation
        (some (.array [storedRecord "a1" "2023-11-14T19:26:40.000Z" "Japan" "ETS" (some 30),
          storedRecord "b2" "2023-11-14T20:26:40.000Z" "Pakistan" "CARBON_TAX" (some 25),
          storedRecord "c3" "2023-11-14T21:26:40.000Z" "Chile" "CARBON_TAX" (some 5)]))
        "zz").1
      = some [storedRecord "a1" "2023-11-14T19:26:40.000Z" "Japan" "ETS" (some 30),
          storedRecord "b2" "2023-11-14T20:26:40.000Z" "Pakistan" "CARBON_TAX" (some 25),
          storedRecord "c3" "2023-11-14T21:26:40.000Z" "Chile" "CARBON_TAX" (some 5)] := by
  have h := removeSimulation_deletes_one
    (some (.array [storedRecord "a1" "2023-11-14T19:26:40.000Z" "Japan" "ETS" (some 30),
      storedRecord "b2" "2023-11-14T20:26:40.000Z" "Pakistan" "CARBON_TAX" (some 25),
      storedRecord "c3" "2023-11-14T21:26:40.000Z" "Chile" "CARBON_TAX" (some 5)]))
    "zz"
    [storedRecord "a1" "2023-11-14T19:26:40.000Z" "Japan" "ETS" (some 30),
      storedRecord "b2" "2023-11-14T20:26:40.000Z" "Pakistan" "CARBON_TAX" (some 25),
      storedRecord "c3" "2023-11-14T21:26:40.000Z" "Chile" "CARBON_TAX" (some 5)]
    rfl (by decide)
  refine ⟨by decide, h.2.1 (by decide)⟩

/-! ## Lemmas on the comparison view -/

theorem dedupStep_eq (host : Host) (state : List String × List SimulationResult)
    (sim : SimulationResult) :
    dedupStep host state sim
      = if recordKey host sim ∈ state.1 then state
        else (recordKey host sim :: state.1, state.2 ++ [sim]) := rfl

theorem dedup_foldl_sublist (host : Host) (xs : List SimulationResult) :
    ∀ (seen : List String) (uniq : List SimulationResult),
      ∃ t, (xs.foldl (dedupStep host) (seen, uniq)).2 = uniq ++ t ∧ t.Sublist xs ∧
        (∀ u ∈ t, recordKey host u ∉ seen) ∧ (t.map (recordKey host)).Nodup := by
  induction xs with
  | nil =>
    intro seen uniq
    exact ⟨[], by simp, List.Sublist.refl _, by simp, by simp⟩
  | cons x xs ih =>
    intro seen uniq
    rw [List.foldl_cons, dedupStep_eq]
    by_cases hx : recordKey host x ∈ seen
    · rw [if_pos hx]
      obtain ⟨t, h1, h2, h3, h4⟩ := ih seen uniq
      exact ⟨t, h1, List.Sublist.cons _ h2, h3, h4⟩
    · rw [if_neg hx]
      obtain ⟨t, h1, h2, h3, h4⟩ := ih (recordKey host x :: seen) (uniq ++ [x])
      refine ⟨x :: t, ?_, List.Sublist.cons₂ _ h2, ?_, ?_⟩
      · rw [h1]
        simp
      · intro u hu
        rcases List.mem_cons.1 hu with rfl | hu
        · exact hx
        · exact fun hmem => h3 u hu (List.mem_cons_of_mem _ hmem)
      · rw [List.map_cons, List.nodup_cons]
        refine ⟨?_, h4⟩
        intro hmem
        obtain ⟨u, hu, hkey⟩ := List.mem_map.1 hmem
        exact h3 u hu (by rw [hkey]; exact List.mem_cons_self _ _)

theorem dedup_foldl_mem (host : Host) (u : SimulationResult) (xs : List SimulationResult) :
    ∀ (seen : List String) (uniq : List SimulationResult),
      u ∈ (xs.foldl (dedupStep host) (seen, uniq)).2 ↔
        u ∈ uniq ∨ (recordKey host u ∉ seen ∧
          xs.find? (fun x => decide (recordKey host x = recordKey host u)) = some u) := by
  induction xs with
  | nil =>
    intro seen uniq
    simp
  | cons x xs ih =>
    intro seen uniq
    rw [List.foldl_cons, dedupStep_eq]
    by_cases hx : recordKey host x ∈ seen
    · rw [if_pos hx, ih seen uniq]
      by_cases hk : recordKey host x = recordKey host u
      · have hu : recordKey host u ∈ seen := hk ▸ hx
        simp [hu]
      · rw [List.find?_cons_of_neg _ (by simpa using hk)]
    · have hmem : u ∈ uniq ++ [x] ↔ u ∈ uniq ∨ u = x := by simp
      have hseen : recordKey host u ∉ recordKey host x :: seen ↔
          recordKey host u ≠ recordKey host x ∧ recordKey host u ∉ seen := by simp
      rw [if_neg hx, ih (recordKey host x :: seen) (uniq ++ [x]), hmem, hseen]
      by_cases hk : recordKey host x = recordKey host u
      · have hu : recordKey host u ∉ seen := hk ▸ hx
        rw [List.find?_cons_of_pos _ (by simpa using hk)]
        constructor
        · rintro ((h | h) | h)
          · exact Or.inl h
          · exact Or.inr ⟨hu, by rw [h]⟩
          · exact absurd hk.symm h.1.1
        · rintro (h | h)
          · exact Or.inl (Or.inl h)
          · exact Or.inl (Or.inr (Option.some.inj h.2).symm)
      · rw [List.find?_cons_of_neg _ (by simpa using hk)]
        have hne : u ≠ x := fun h => hk (by rw [h])
        constructor
        · rintro ((h | h) | h)
          · exact Or.inl h
          · exact absurd h hne
          · exact Or.inr ⟨h.1.2, h.2⟩
        · rintro (h | h)
          · exact Or.inl (Or.inl h)
          · exact Or.inr ⟨⟨fun h2 => hk h2.symm, h.1⟩, h.2⟩

theorem mem_uniqueSimulations (host : Host) (u : SimulationResult)
    (xs : List SimulationResult) :
    u ∈ uniqueSimulations host xs ↔
      xs.find? (fun x => decide (recordKey host x = recordKey host u)) = some u := by
  unfold uniqueSimulations
  rw [dedup_foldl_mem host u xs [] []]
  simp

theorem uniqueSimulations_sublist (host : Host) (xs : List SimulationResult) :
    (uniqueSimulations host xs).Sublist xs ∧
      ((uniqueSimulations host xs).map (recordKey host)).Nodup := by
  obtain ⟨t, h1, h2, _, h4⟩ := dedup_foldl_sublist host xs [] []
  unfold uniqueSimulations
  rw [h1, List.nil_append]
  exact ⟨h2, h4⟩

theorem sortedByTime_perm (host : Host) (l : List SimulationResult) :
    (sortedByTime host l).Perm l :=
  List.perm_insertionSort _ l

theorem sortedByTime_sorted (host : Host) (l : List SimulationResult) :
    (sortedByTime host l).Pairwise
      (fun a b => timeOf host a.timestamp ≤ timeOf host b.timestamp) := by
  haveI : IsTotal SimulationResult
      (fun a b => timeOf host a.timestamp - timeOf host b.timestamp ≤ 0) :=
    ⟨fun a b => by
      rcases le_total (timeOf host a.timestamp) (timeOf host b.timestamp) with h | h
      · exact Or.inl (sub_nonpos.2 h)
      · exact Or.inr (sub_nonpos.2 h)⟩
  haveI : IsTrans SimulationResult
      (fun a b => timeOf host a.timestamp - timeOf host b.timestamp ≤ 0) :=
    ⟨fun a b c hab hbc => sub_nonpos.2 (le_trans (sub_nonpos.1 hab) (sub_nonpos.1 hbc))⟩
  have h := List.sorted_insertionSort
    (fun a b : SimulationResult => timeOf host a.timestamp - timeOf host b.timestamp ≤ 0) l
  exact List.Pairwise.imp (fun hab => sub_nonpos.1 hab) h

theorem le_of_mem_dropWhile (host : Host) (a : SimulationResult) :
    ∀ (sorted : List SimulationResult),
      sorted.Pairwise (fun x y => timeOf host x.timestamp ≤ timeOf host y.timestamp) →
      ∀ x ∈ sorted.dropWhile
          (fun b => decide ¬ (timeOf host a.timestamp - timeOf host b.timestamp ≤ 0)),
        timeOf host a.timestamp ≤ timeOf host x.timestamp := by
  intro sorted
  induction sorted with
  | nil =>
    intro _ x hx
    simp at hx
  | cons b rest ih =>
    intro hsorted x hx
    have hpair := List.pairwise_cons.1 hsorted
    by_cases hb : timeOf host a.timestamp - timeOf host b.timestamp ≤ 0
    · rw [List.dropWhile_cons_of_neg (by simpa using hb)] at hx
      have hab : timeOf host a.timestamp ≤ timeOf host b.timestamp := sub_nonpos.1 hb
      rcases List.mem_cons.1 hx with rfl | hx
      · exact hab
      · exact le_trans hab (hpair.1 x hx)
    · rw [List.dropWhile_cons_of_pos (by simpa using hb)] at hx
      exact ih hpair.2 x hx

theorem sortedByTime_cons (host : Host) (a : SimulationResult) (l : List SimulationResult) :
    sortedByTime host (a :: l)
      = (sortedByTime host l).takeWhile
          (fun b => decide ¬ (timeOf host a.timestamp - timeOf host b.timestamp ≤ 0))
        ++ a :: (sortedByTime host l).dropWhile
          (fun b => decide ¬ (timeOf host a.timestamp - timeOf host b.timestamp ≤ 0)) :=
  List.insertionSort_cons_eq_take_drop _ a l

theorem sortedByTime_first (host : Host) (k : String) (l : List SimulationResult) :
    ∀ u, (sortedByTime host l).find? (fun x => decide (recordKey host x = k)) = some u →
      ∃ before after, l = before ++ u :: after ∧
        (∀ x ∈ before, recordKey host x = k →
          timeOf host u.timestamp < timeOf host x.timestamp) ∧
        (∀ x ∈ after, recordKey host x = k →
          timeOf host u.timestamp ≤ timeOf host x.timestamp) := by
  induction l with
  | nil =>
    intro u hu
    simp [sortedByTime, sortArray] at hu
  | cons a l ih =>
    intro u hu
    have hsplit := List.takeWhile_append_dropWhile
      (fun b => decide ¬ (timeOf host a.timestamp - timeOf host b.timestamp ≤ 0))
      (sortedByTime host l)
    rw [sortedByTime_cons, List.find?_append] at hu
    cases hT : ((sortedByTime host l).takeWhile
        (fun b => decide ¬ (timeOf host a.timestamp - timeOf host b.timestamp ≤ 0))).find?
        (fun x => decide (recordKey host x = k)) with
    | some v =>
      rw [hT] at hu
      have hvu : v = u := by simpa using hu
      subst hvu
      have hfind : (sortedByTime host l).find? (fun x => decide (recordKey host x = k))
          = some v := by
        rw [← hsplit, List.find?_append, hT]
        rfl
      obtain ⟨before, after, hl, hb, ha⟩ := ih v hfind
      refine ⟨a :: before, after, by rw [hl]; rfl, ?_, ha⟩
      intro x hx hk
      rcases List.mem_cons.1 hx with rfl | hx
      · have hmem := List.mem_of_find?_eq_some hT
        have hnot := List.mem_takeWhile_imp hmem
        have hnot2 : ¬ (timeOf host x.timestamp - timeOf host v.timestamp ≤ 0) := by
          simpa using hnot
        exact lt_of_sub_pos (not_le.1 hnot2)
      · exact hb x hx hk
    | none =>
      rw [hT] at hu
      have hu2 : (a :: (sortedByTime host l).dropWhile
          (fun b => decide ¬ (timeOf host a.timestamp - timeOf host b.timestamp ≤ 0))).find?
          (fun x => decide (recordKey host x = k)) = some u := by
        simpa using hu
      by_cases hka : recordKey host a = k
      · rw [List.find?_cons_of_pos _ (by simpa using hka)] at hu2
        have hau : a = u := Option.some.inj hu2
        subst hau
        refine ⟨[], l, rfl, by simp, ?_⟩
        intro x hx hk
        have hxs : x ∈ sortedByTime host l := (sortedByTime_perm host l).mem_iff.2 hx
        rw [← hsplit] at hxs
        rcases List.mem_append.1 hxs with hxT | hxD
        · have hnone := List.find?_eq_none.1 hT x hxT
          exact absurd hk (by simpa using hnone)
        · exact le_of_mem_dropWhile host a _ (sortedByTime_sorted host l) x hxD
      · rw [List.find?_cons_of_neg _ (by simpa using hka)] at hu2
        have hfind : (sortedByTime host l).find? (fun x => decide (recordKey host x = k))
            = some u := by
          rw [← hsplit, List.find?_append, hT]
          simpa using hu2
        obtain ⟨before, after, hl, hb, ha⟩ := ih u hfind
        refine ⟨a :: before, after, by rw [hl]; rfl, ?_, ha⟩
        intro x hx hk
        rcases List.mem_cons.1 hx with rfl | hx
        · exact absurd hk hka
        · exact hb x hx hk

theorem mem_formattedSimulations (host : Host) (simulations : List SimulationResult)
    (e : FormattedRow) :
    e ∈ formattedSimulations host simulations ↔
      ∃ entry ∈ (uniqueSimulations host (sortedByTime host simulations)).enum,
        e = { toComparisonRow := formatSimulationForComparison entry.2
              policyId := entry.1 + 1
              originalTimestamp := entry.2.timestamp } := by
  unfold formattedSimulations
  by_cases h0 : simulations.length = 0
  · have hnil : simulations = [] := List.length_eq_zero.1 h0
    subst hnil
    simp [uniqueSimulations, sortedByTime, sortArray]
  · rw [if_neg h0, List.mem_map]
    constructor
    · rintro ⟨entry, hmem, rfl⟩
      exact ⟨entry, hmem, rfl⟩
    · rintro ⟨entry, hmem, rfl⟩
      exact ⟨entry, hmem, rfl⟩

theorem enum_pairwise_of_pairwise {α : Type} (R : α → α → Prop) (l : List α)
    (h : l.Pairwise R) : l.enum.Pairwise (fun a b => R a.2 b.2) := by
  have h2 : (l.enum.map Prod.snd).Pairwise R := by
    rw [List.enum_map_snd]
    exact h
  exact List.pairwise_map.1 h2

theorem exists_enum_of_mem {α : Type} (l : List α) (x : α) (h : x ∈ l) :
    ∃ entry ∈ l.enum, entry.2 = x := by
  have h2 : x ∈ l.enum.map Prod.snd := by
    rw [List.enum_map_snd]
    exact h
  obtain ⟨entry, hmem, hx⟩ := List.mem_map.1 h2
  exact ⟨entry, hmem, hx⟩

theorem snd_mem_of_mem_enum {α : Type} (l : List α) (entry : ℕ × α) (h : entry ∈ l.enum) :
    entry.2 ∈ l := by
  have h2 : entry.2 ∈ l.enum.map Prod.snd := List.mem_map_of_mem _ h
  rw [List.enum_map_snd] at h2
  exact h2

/-! ## Claims on the comparison view -/

theorem timeOf_some (host : Host) (t : String) (h : t ≠ "") :
    timeOf host (some t) = host.getTime t := by
  simp [timeOf, h]

theorem timeOf_missing (host : Host) (t : Option String) (h : t = none ∨ t = some "") :
    timeOf host t = 0 := by
  rcases h with h | h <;> simp [timeOf, h]

/-- C15: the deduplicated comparison view `formattedSimulations` lists its entries in
ascending order of the time that `Date` reads from their timestamps, an entry without a
timestamp counting as time 0, and gives the k-th entry `policyId` k, so the policyIds are
exactly 1, 2, ..., n. -/
theorem formattedSimulations_order (host : Host) (simulations : List SimulationResult) :
    (formattedSimulations host simulations).Pairwise (fun a b =>
      (∀ ta tb, a.timestamp = some ta → ta ≠ "" → b.timestamp = some tb → tb ≠ "" →
        host.getTime ta ≤ host.getTime tb) ∧
      (∀ tb, a.timestamp = none ∨ a.timestamp = some "" → b.timestamp = some tb →
        tb ≠ "" → 0 ≤ host.getTime tb) ∧
      (∀ ta, a.timestamp = some ta → ta ≠ "" → b.timestamp = none ∨ b.timestamp = some "" →
        host.getTime ta ≤ 0)) ∧
    (formattedSimulations host simulations).map (fun row => row.policyId)
      = List.range' 1 (formattedSimulations host simulations).length := by
  unfold formattedSimulations
  by_cases h0 : simulations.length = 0
  · rw [if_pos h0]
    simp
  · rw [if_neg h0]
    constructor
    · rw [List.pairwise_map]
      apply enum_pairwise_of_pairwise
        (fun a b : SimulationResult =>
          (∀ ta tb, a.timestamp = some ta → ta ≠ "" → b.timestamp = some tb → tb ≠ "" →
            host.getTime ta ≤ host.getTime tb) ∧
          (∀ tb, a.timestamp = none ∨ a.timestamp = some "" → b.timestamp = some tb →
            tb ≠ "" → 0 ≤ host.getTime tb) ∧
          (∀ ta, a.timestamp = some ta → ta ≠ "" →
            b.timestamp = none ∨ b.timestamp = some "" → host.getTime ta ≤ 0))
      refine List.Pairwise.imp ?_ (List.Pairwise.sublist (uniqueSimulations_sublist host _).1
        (sortedByTime_sorted host simulations))
      intro a b hab
      refine ⟨?_, ?_, ?_⟩
      · intro ta tb ha hta hb htb
        rw [ha, hb, timeOf_some host ta hta, timeOf_some host tb htb] at hab
        exact hab
      · intro tb ha hb htb
        rw [timeOf_missing host a.timestamp ha, hb, timeOf_some host tb htb] at hab
        exact hab
      · intro ta ha hta hb
        rw [timeOf_missing host b.timestamp hb, ha, timeOf_some host ta hta] at hab
        exact hab
    · rw [List.map_map, List.length_map, List.enum_length, List.range'_eq_map_range,
        ← List.enum_map_fst, List.map_map]
      apply List.map_congr_left
      intro entry _
      simp [Nat.add_comm]

/-- C15, witness: the records (Pakistan, CARBON_TAX, 25, 5, t=100), (Pakistan, CARBON_TAX,
25, 5, t=200) and (Japan, ETS, 30, 5, t=150) give 2 entries: policyId 1 is the Pakistan
record of t=100 and policyId 2 is the Japan record. Of the two records stored as Japan
(t=150), Pakistan (t=100), the later-stored Pakistan record comes first, with policyId 1. -/
theorem formattedSimulations_order_witness :
    (formattedSimulations sampleHost scenarioRecords).map
        (fun row => (row.policyId, row.id, row.country, row.timestamp))
      = [(1, some "r1", "Pakistan", some "1970-01-01T00:00:00.100Z"),
         (2, some "r3", "Japan", some "1970-01-01T00:00:00.150Z")] ∧
    (formattedSimulations sampleHost scenarioRecords).map (fun row => row.policyId)
      = List.range' 1 2 ∧
    reorderRecords.map (fun sim => (sim.id, sim.timestamp))
      = [(some "r1", some "1970-01-01T00:00:00.150Z"),
         (some "r2", some "1970-01-01T00:00:00.100Z")] ∧
    (formattedSimulations sampleHost reorderRecords).map
        (fun row => (row.policyId, row.id, row.country, row.timestamp))
      = [(1, some "r2", "Pakistan", some "1970-01-01T00:00:00.100Z"),
         (2, some "r1", "Japan", some "1970-01-01T00:00:00.150Z")] ∧
    sampleHost.getTime "1970-01-01T00:00:00.100Z"
      ≤ sampleHost.getTime "1970-01-01T00:00:00.150Z" := by
  have h := (formattedSimulations_order sampleHost scenarioRecords).2
  have hlen : (formattedSimulations sampleHost scenarioRecords).length = 2 := by decide
  rw [hlen] at h
  have hview : formattedSimulations sampleHost reorderRecords
      = [{ toComparisonRow := formatSimulationForComparison
             (storedRecord "r2" "1970-01-01T00:00:00.100Z" "Pakistan" "CARBON_TAX" (some 25))
           policyId := 1
           originalTimestamp := some "1970-01-01T00:00:00.100Z" },
         { toComparisonRow := formatSimulationForComparison
             (storedRecord "r1" "1970-01-01T00:00:00.150Z" "Japan" "ETS" (some 30))
           policyId := 2
           originalTimestamp := some "1970-01-01T00:00:00.150Z" }] := by decide
  have horder := (formattedSimulations_order sampleHost reorderRecords).1
  rw [hview, List.pairwise_cons] at horder
  exact ⟨by decide, h, by decide, by decide,
    (horder.1 _ (List.mem_singleton.2 rfl)).1 _ _ rfl (by decide) rfl (by decide)⟩

theorem orStrLit_some_empty (c : String) : orStrLit (some c) "" = c := by
  unfold orStrLit
  by_cases h : c = "" <;> simp [h]

theorem split_at_last_bar (a : List Char) :
    ∀ (a2 b b2 : List Char), '|' ∉ b → '|' ∉ b2 → a ++ '|' :: b = a2 ++ '|' :: b2 →
      a = a2 ∧ b = b2 := by
  induction a with
  | nil =>
    intro a2 b b2 hb _ h
    cases a2 with
    | nil => exact ⟨rfl, by simpa using h⟩
    | cons c rest =>
      simp only [List.nil_append, List.cons_append, List.cons.injEq] at h
      exact absurd (by rw [h.2]; simp) hb
  | cons x rest ih =>
    intro a2 b b2 hb hb2 h
    cases a2 with
    | nil =>
      simp only [List.nil_append, List.cons_append, List.cons.injEq] at h
      exact absurd (by rw [← h.2]; simp) hb2
    | cons c rest2 =>
      simp only [List.cons_append, List.cons.injEq] at h
      obtain ⟨h1, h2⟩ := ih rest2 b b2 hb hb2 h.2
      exact ⟨by rw [h.1, h1], h2⟩

theorem dedupKey_data (host : Host) (row : ComparisonRow) :
    (dedupKey host row).data
      = ((row.country.data ++ '|' :: row.policyType.data)
          ++ '|' :: (keyPart host row.carbonPrice).data)
        ++ '|' :: (keyPart host row.duration).data := by
  simp only [dedupKey, orStrLit_some_empty, String.data_append]
  simp [List.append_assoc]

theorem dedupKey_of_keyedTuple (host : Host) (r1 r2 : ComparisonRow)
    (h : keyedTuple (keyPart host) r1 = keyedTuple (keyPart host) r2) :
    dedupKey host r1 = dedupKey host r2 := by
  simp only [keyedTuple, Prod.mk.injEq] at h
  obtain ⟨h1, h2, h3, h4⟩ := h
  simp only [dedupKey, h1, h2, h3, h4]

theorem policyType_no_bar (sim : SimulationResult) :
    '|' ∉ (formatSimulationForComparison sim).policyType.data := by
  simp only [formatSimulationForComparison]
  split_ifs <;> decide

theorem keyedTuple_of_recordKey (host : Host) (s1 s2 : SimulationResult)
    (hbar1 : '|' ∉ (keyPart host (formatSimulationForComparison s1).carbonPrice).data ∧
      '|' ∉ (keyPart host (formatSimulationForComparison s1).duration).data)
    (hbar2 : '|' ∉ (keyPart host (formatSimulationForComparison s2).carbonPrice).data ∧
      '|' ∉ (keyPart host (formatSimulationForComparison s2).duration).data)
    (h : recordKey host s1 = recordKey host s2) :
    keyedTuple (keyPart host) (formatSimulationForComparison s1)
      = keyedTuple (keyPart host) (formatSimulationForComparison s2) := by
  have hdata := congrArg String.data h
  simp only [recordKey, dedupKey_data] at hdata
  obtain ⟨h123, hdur⟩ := split_at_last_bar _ _ _ _ hbar1.2 hbar2.2 hdata
  obtain ⟨h12, hprice⟩ := split_at_last_bar _ _ _ _ hbar1.1 hbar2.1 h123
  obtain ⟨hcountry, hpolicy⟩ := split_at_last_bar _ _ _ _
    (policyType_no_bar s1) (policyType_no_bar s2) h12
  simp only [keyedTuple, Prod.mk.injEq]
  exact ⟨String.ext hcountry, String.ext hpolicy, String.ext hprice, String.ext hdur⟩

theorem keyPart_eq_of_spec (host : Host) (txt : NumOrStr → String)
    (htxt : (∀ q, q ≠ 0 → txt (.num q) = host.numToString q) ∧ txt (.num 0) = "" ∧
      ∀ s n, txt (.str s n) = s) :
    txt = keyPart host := by
  funext v
  cases v with
  | num q =>
    by_cases hq : q = 0
    · subst hq
      simp [keyPart, htxt.2.1]
    · simp [keyPart, hq, htxt.1 q hq]
  | str s n => simp [keyPart, htxt.2.2 s n]

theorem timeOf_eq_of_spec (host : Host) (time : Option String → ℤ)
    (htime : (∀ t, t ≠ "" → time (some t) = host.getTime t) ∧ time (some "") = 0 ∧
      time none = 0) :
    time = timeOf host := by
  funext t
  cases t with
  | none => simp [timeOf, htime.2.2]
  | some t =>
    by_cases ht : t = ""
    · subst ht
      simp [timeOf, htime.2.1]
    · simp [timeOf, ht, htime.1 t ht]

/-- C16, counterexample: three stored records that differ in their carbon price only, the
number 25, the text `25` and the text `25.0`. The view has two entries, the first and the
third record: the second record, whose price is another value than that of the first (a
string, not a number), has no entry of its own, and the second and the third record, whose
prices are the same number 25, each stand for a tuple of their own. -/
theorem formattedSimulations_mixed_price_counterexample :
    mixedPriceRecords.map (fun sim => (sim.id, sim.priceField))
      = [(some "r1", some (.num 25)), (some "r2", some (.str "25" (some 25))),
         (some "r3", some (.str "25.0" (some 25)))] ∧
    (formattedSimulations sampleHost mixedPriceRecords).map (fun row => row.id)
      = [some "r1", some "r3"] ∧
    mixedPriceRecords.map (fun sim => dedupTuple (formatSimulationForComparison sim))
      = [("Pakistan", "Carbon Tax", .num 25, .num 5),
         ("Pakistan", "Carbon Tax", .str "25" (some 25), .num 5),
         ("Pakistan", "Carbon Tax", .str "25.0" (some 25), .num 5)] ∧
    mixedPriceRecords.map (fun sim => (formatSimulationForComparison sim).carbonPrice.toNumber)
      = [some 25, some 25, some 25] := by
  refine ⟨by decide, by decide, by decide, by decide⟩

/-- C16, as amended: let `txt` give a carbon price or duration the text it has in the key
of line 33 (a number as the host prints it, the empty text for 0, a string as it is) and
let `time` give a timestamp the time that `Date` reads from it (0 when it is missing).
Provided none of these texts of the stored records contains the character `|`, the
deduplicated comparison view contains exactly one entry for each
`(country, policyType, carbonPrice, duration)` tuple occurring among the stored records,
tuples taken as formatted by `formatSimulationForComparison` with carbon price and
duration compared as these texts, and that entry is the record with the earliest time among
those sharing the tuple, the first in storage order when times are equal. -/
theorem formattedSimulations_dedup (host : Host) (simulations : List SimulationResult)
    (txt : NumOrStr → String) (time : Option String → ℤ)
    (htxt : (∀ q, q ≠ 0 → txt (.num q) = host.numToString q) ∧ txt (.num 0) = "" ∧
      ∀ s n, txt (.str s n) = s)
    (htime : (∀ t, t ≠ "" → time (some t) = host.getTime t) ∧ time (some "") = 0 ∧
      time none = 0)
    (hbar : ∀ s ∈ simulations,
      '|' ∉ (txt (formatSimulationForComparison s).carbonPrice).data ∧
      '|' ∉ (txt (formatSimulationForComparison s).duration).data) :
    (∀ s ∈ simulations, ∃ e ∈ formattedSimulations host simulations,
      keyedTuple txt e.toComparisonRow = keyedTuple txt (formatSimulationForComparison s)) ∧
    (formattedSimulations host simulations).Pairwise
      (fun a b => keyedTuple txt a.toComparisonRow ≠ keyedTuple txt b.toComparisonRow) ∧
    (∀ e ∈ formattedSimulations host simulations,
      ∃ before s after, simulations = before ++ s :: after ∧
        e.toComparisonRow = formatSimulationForComparison s ∧
        e.originalTimestamp = s.timestamp ∧
        (∀ x ∈ before,
          keyedTuple txt (formatSimulationForComparison x)
            = keyedTuple txt (formatSimulationForComparison s) →
          time s.timestamp < time x.timestamp) ∧
        (∀ x ∈ after,
          keyedTuple txt (formatSimulationForComparison x)
            = keyedTuple txt (formatSimulationForComparison s) →
          time s.timestamp ≤ time x.timestamp)) := by
  have htxt2 := keyPart_eq_of_spec host txt htxt
  have htime2 := timeOf_eq_of_spec host time htime
  subst htxt2 htime2
  refine ⟨?_, ?_, ?_⟩
  · intro s hs
    have hsS : s ∈ sortedByTime host simulations :=
      (sortedByTime_perm host simulations).mem_iff.2 hs
    have hsome : ((sortedByTime host simulations).find?
        (fun x => decide (recordKey host x = recordKey host s))).isSome := by
      rw [List.find?_isSome]
      exact ⟨s, hsS, by simp⟩
    obtain ⟨u, hu⟩ := Option.isSome_iff_exists.1 hsome
    have hkey : recordKey host u = recordKey host s := by
      simpa using List.find?_some hu
    have huS : u ∈ simulations :=
      (sortedByTime_perm host simulations).mem_iff.1 (List.mem_of_find?_eq_some hu)
    have hu2 : (sortedByTime host simulations).find?
        (fun x => decide (recordKey host x = recordKey host u)) = some u := by
      rw [hkey]
      exact hu
    have hmem : u ∈ uniqueSimulations host (sortedByTime host simulations) :=
      (mem_uniqueSimulations host u _).2 hu2
    obtain ⟨entry, hentry, hsnd⟩ := exists_enum_of_mem _ u hmem
    refine ⟨_, (mem_formattedSimulations host simulations _).2 ⟨entry, hentry, rfl⟩, ?_⟩
    show keyedTuple (keyPart host) (formatSimulationForComparison entry.2)
      = keyedTuple (keyPart host) (formatSimulationForComparison s)
    rw [hsnd]
    exact keyedTuple_of_recordKey host u s (hbar u huS) (hbar s hs) hkey
  · unfold formattedSimulations
    by_cases h0 : simulations.length = 0
    · rw [if_pos h0]
      exact List.Pairwise.nil
    · rw [if_neg h0, List.pairwise_map]
      apply enum_pairwise_of_pairwise
        (fun a b : SimulationResult =>
          keyedTuple (keyPart host) (formatSimulationForComparison a)
            ≠ keyedTuple (keyPart host) (formatSimulationForComparison b))
      have hnodup := (uniqueSimulations_sublist host (sortedByTime host simulations)).2
      have hpair := List.pairwise_map.1 hnodup
      exact List.Pairwise.imp
        (fun hab htuple => hab (dedupKey_of_keyedTuple host _ _ htuple)) hpair
  · intro e he
    obtain ⟨entry, hentry, rfl⟩ := (mem_formattedSimulations host simulations e).1 he
    have hmem : entry.2 ∈ uniqueSimulations host (sortedByTime host simulations) :=
      snd_mem_of_mem_enum _ entry hentry
    have hfind := (mem_uniqueSimulations host entry.2 _).1 hmem
    obtain ⟨before, after, hl, hb, ha⟩ :=
      sortedByTime_first host (recordKey host entry.2) simulations entry.2 hfind
    refine ⟨before, entry.2, after, hl, rfl, rfl, ?_, ?_⟩
    · intro x hx htuple
      exact hb x hx (dedupKey_of_keyedTuple host _ _ htuple)
    · intro x hx htuple
      exact ha x hx (dedupKey_of_keyedTuple host _ _ htuple)

/-- C16, witness: in the scenario the second Pakistan record (t=200) shares its tuple
with the first (t=100); the view holds the records r1 and r3 only, and the tuple of the
second record is that of an entry. In the three records that differ in the price only, the
text `25` is the text of the number 25 in the key, and the record with the text `25.0` has
an entry of its own. -/
theorem formattedSimulations_dedup_witness :
    (formattedSimulations sampleHost scenarioRecords).map (fun row => row.id)
      = [some "r1", some "r3"] ∧
    (∃ e ∈ formattedSimulations sampleHost scenarioRecords,
      keyedTuple (keyPart sampleHost) e.toComparisonRow
        = keyedTuple (keyPart sampleHost) (formatSimulationForComparison
            (storedRecord "r2" "1970-01-01T00:00:00.200Z" "Pakistan" "CARBON_TAX"
              (some 25)))) ∧
    (formattedSimulations sampleHost mixedPriceRecords).Pairwise
      (fun a b => keyedTuple (keyPart sampleHost) a.toComparisonRow
        ≠ keyedTuple (keyPart sampleHost) b.toComparisonRow) ∧
    mixedPriceRecords.map
        (fun sim => keyedTuple (keyPart sampleHost) (formatSimulationForComparison sim))
      = [("Pakistan", "Carbon Tax", "25", "5"), ("Pakistan", "Carbon Tax", "25", "5"),
         ("Pakistan", "Carbon Tax", "25.0", "5")] := by
  have hspec : (∀ q, q ≠ 0 → keyPart sampleHost (.num q) = sampleHost.numToString q) ∧
      keyPart sampleHost (.num 0) = "" ∧ ∀ s n, keyPart sampleHost (.str s n) = s :=
    ⟨fun q hq => by simp [keyPart, hq], by simp [keyPart], fun s n => rfl⟩
  have htime : (∀ t, t ≠ "" → timeOf sampleHost (some t) = sampleHost.getTime t) ∧
      timeOf sampleHost (some "") = 0 ∧ timeOf sampleHost none = 0 :=
    ⟨fun t ht => timeOf_some sampleHost t ht, by decide, by decide⟩
  have h := (formattedSimulations_dedup sampleHost scenarioRecords (keyPart sampleHost)
    (timeOf sampleHost) hspec htime (by decide)).1
  have h2 := (formattedSimulations_dedup sampleHost mixedPriceRecords (keyPart sampleHost)
    (timeOf sampleHost) hspec htime (by decide)).2.1
  exact ⟨by decide, h _ (by decide), h2, by decide⟩

/-! ## Claims on `sortedSimulations` -/

theorem compareRows_null_left (host : Host) (column : SortColumn) (direction : SortDirection)
    (a b : FormattedRow) (ha : a.get column = .null) (hb : b.get column ≠ .null) :
    compareRows host column direction a b = 1 := by
  unfold compareRows
  rw [ha]
  cases hbv : b.get column with
  | null => exact absurd hbv hb
  | str s => rfl
  | num q => rfl

theorem compareRows_null_right (host : Host) (column : SortColumn)
    (direction : SortDirection) (a b : FormattedRow) (ha : a.get column ≠ .null)
    (hb : b.get column = .null) :
    compareRows host column direction a b = -1 := by
  unfold compareRows
  rw [hb]
  cases hav : a.get column with
  | null => exact absurd hav ha
  | str s => rfl
  | num q => rfl

theorem compareRows_null_null (host : Host) (column : SortColumn)
    (direction : SortDirection) (a b : FormattedRow) (ha : a.get column = .null)
    (hb : b.get column = .null) :
    compareRows host column direction a b = 0 := by
  unfold compareRows
  rw [ha, hb]

theorem orderedInsert_nulls_last (host : Host) (column : SortColumn)
    (direction : SortDirection) (a : FormattedRow) :
    ∀ (l : List FormattedRow),
      l.Pairwise (fun x y => x.get column = .null → y.get column = .null) →
      (l.orderedInsert (fun x y => compareRows host column direction x y ≤ 0) a).Pairwise
        (fun x y => x.get column = .null → y.get column = .null) := by
  intro l
  induction l with
  | nil =>
    intro _
    simp
  | cons b rest ih =>
    intro hl
    have hpair := List.pairwise_cons.1 hl
    simp only [List.orderedInsert]
    by_cases hab : compareRows host column direction a b ≤ 0
    · rw [if_pos hab]
      refine List.pairwise_cons.2 ⟨?_, hl⟩
      intro x hx hanull
      have hbnull : b.get column = .null := by
        by_contra hb
        rw [compareRows_null_left host column direction a b hanull hb] at hab
        norm_num at hab
      rcases List.mem_cons.1 hx with rfl | hx
      · exact hbnull
      · exact hpair.1 x hx hbnull
    · rw [if_neg hab]
      refine List.pairwise_cons.2 ⟨?_, ih hpair.2⟩
      intro x _ hbnull
      exfalso
      apply hab
      by_cases hanull : a.get column = .null
      · rw [compareRows_null_null host column direction a b hanull hbnull]
      · rw [compareRows_null_right host column direction a b hanull hbnull]
        norm_num

theorem sortArray_nulls_last (host : Host) (column : SortColumn)
    (direction : SortDirection) (rows : List FormattedRow) :
    (sortArray (compareRows host column direction) rows).Pairwise
      (fun x y => x.get column = .null → y.get column = .null) := by
  unfold sortArray
  induction rows with
  | nil => simp
  | cons a rest ih =>
    rw [List.insertionSort]
    exact orderedInsert_nulls_last host column direction a _ ih

/-- C17: for every list of formatted comparison rows, every sort column and both sort
directions, `sortedSimulations` is a rearrangement of the rows in which no row whose value
in the sort column is null or undefined comes before a row whose value in that column is
non-null. -/
theorem sortedSimulations_nulls_last (host : Host) (column : SortColumn)
    (direction : SortDirection) (rows : List FormattedRow) :
    (sortedSimulations host (some column) direction rows).Pairwise
      (fun x y => x.get column = .null → y.get column = .null) ∧
    (sortedSimulations host (some column) direction rows).Perm rows :=
  ⟨sortArray_nulls_last host column direction rows, List.perm_insertionSort _ rows⟩

theorem orderedInsert_pairwise_on {α : Type} (r : α → α → Prop) [DecidableRel r]
    (P : α → Prop) (htotal : ∀ a b, P a → P b → r a b ∨ r b a)
    (htrans : ∀ a b c, P a → P b → P c → r a b → r b c → r a c) (a : α) (ha : P a) :
    ∀ l : List α, (∀ x ∈ l, P x) → l.Pairwise r → (l.orderedInsert r a).Pairwise r := by
  intro l
  induction l with
  | nil =>
    intro _ _
    simp
  | cons b rest ih =>
    intro hP hl
    have hPb : P b := hP b (List.mem_cons_self _ _)
    have hPrest : ∀ x ∈ rest, P x := fun x hx => hP x (List.mem_cons_of_mem _ hx)
    have hpair := List.pairwise_cons.1 hl
    simp only [List.orderedInsert]
    by_cases hab : r a b
    · rw [if_pos hab]
      refine List.pairwise_cons.2 ⟨?_, hl⟩
      intro x hx
      rcases List.mem_cons.1 hx with rfl | hx
      · exact hab
      · exact htrans a b x ha hPb (hPrest x hx) hab (hpair.1 x hx)
    · rw [if_neg hab]
      have hba : r b a := by
        rcases htotal a b ha hPb with h | h
        · exact absurd h hab
        · exact h
      refine List.pairwise_cons.2 ⟨?_, ih hPrest hpair.2⟩
      intro x hx
      rcases (List.mem_orderedInsert _).1 hx with rfl | hx
      · exact hba
      · exact hpair.1 x hx

theorem sortArray_pairwise_on {α : Type} (compare : α → α → ℚ) (P : α → Prop)
    (htotal : ∀ a b, P a → P b → compare a b ≤ 0 ∨ compare b a ≤ 0)
    (htrans : ∀ a b c, P a → P b → P c → compare a b ≤ 0 → compare b c ≤ 0 →
      compare a c ≤ 0) :
    ∀ l : List α, (∀ x ∈ l, P x) →
      (sortArray compare l).Pairwise (fun a b => compare a b ≤ 0) := by
  intro l
  induction l with
  | nil =>
    intro _
    simp [sortArray]
  | cons a rest ih =>
    intro hP
    have hPa : P a := hP a (List.mem_cons_self _ _)
    have hPrest : ∀ x ∈ rest, P x := fun x hx => hP x (List.mem_cons_of_mem _ hx)
    have hsorted := ih hPrest
    unfold sortArray at hsorted ⊢
    rw [List.insertionSort]
    apply orderedInsert_pairwise_on (fun a b => compare a b ≤ 0) P htotal htrans a hPa
    · intro x hx
      exact hPrest x ((List.perm_insertionSort _ rest).mem_iff.1 hx)
    · exact hsorted

theorem compareRows_num_num (host : Host) (column : SortColumn) (direction : SortDirection)
    (a b : FormattedRow) (x y : ℚ) (ha : a.get column = .num x) (hb : b.get column = .num y) :
    compareRows host column direction a b = if direction = .asc then x - y else y - x := by
  unfold compareRows
  rw [ha, hb]

theorem compareRows_total (host : Host) (column : SortColumn) (direction : SortDirection)
    (a b : FormattedRow)
    (hna : a.get column = .null ∨ ∃ q, a.get column = .num q)
    (hnb : b.get column = .null ∨ ∃ q, b.get column = .num q) :
    compareRows host column direction a b ≤ 0 ∨ compareRows host column direction b a ≤ 0 := by
  rcases hna with ha | ⟨x, ha⟩
  · rcases hnb with hb | ⟨y, hb⟩
    · left
      rw [compareRows_null_null host column direction a b ha hb]
    · right
      rw [compareRows_null_right host column direction b a (by rw [hb]; simp) ha]
      norm_num
  · rcases hnb with hb | ⟨y, hb⟩
    · left
      rw [compareRows_null_right host column direction a b (by rw [ha]; simp) hb]
      norm_num
    · rw [compareRows_num_num host column direction a b x y ha hb,
        compareRows_num_num host column direction b a y x hb ha]
      cases direction
      · rcases le_total x y with h | h
        · exact Or.inl (by simpa using h)
        · exact Or.inr (by simpa using h)
      · rcases le_total x y with h | h
        · exact Or.inr (by simpa using h)
        · exact Or.inl (by simpa using h)

theorem compareRows_trans (host : Host) (column : SortColumn) (direction : SortDirection)
    (a b c : FormattedRow)
    (hna : a.get column = .null ∨ ∃ q, a.get column = .num q)
    (hnb : b.get column = .null ∨ ∃ q, b.get column = .num q)
    (hnc : c.get column = .null ∨ ∃ q, c.get column = .num q)
    (hab : compareRows host column direction a b ≤ 0)
    (hbc : compareRows host column direction b c ≤ 0) :
    compareRows host column direction a c ≤ 0 := by
  rcases hnc with hc | ⟨z, hc⟩
  · rcases hna with ha | ⟨x, ha⟩
    · rw [compareRows_null_null host column direction a c ha hc]
    · rw [compareRows_null_right host column direction a c (by rw [ha]; simp) hc]
      norm_num
  · rcases hnb with hb | ⟨y, hb⟩
    · rw [compareRows_null_left host column direction b c hb (by rw [hc]; simp)] at hbc
      norm_num at hbc
    · rcases hna with ha | ⟨x, ha⟩
      · rw [compareRows_null_left host column direction a b ha (by rw [hb]; simp)] at hab
        norm_num at hab
      · rw [compareRows_num_num host column direction a b x y ha hb] at hab
        rw [compareRows_num_num host column direction b c y z hb hc] at hbc
        rw [compareRows_num_num host column direction a c x z ha hc]
        cases direction
        · simp only [if_true] at hab hbc ⊢
          linarith
        · simp only [reduceCtorEq, if_false] at hab hbc ⊢
          linarith

theorem sortArray_compareRows_sorted (host : Host) (column : SortColumn)
    (direction : SortDirection) (rows : List FormattedRow)
    (hnum : ∀ row ∈ rows, row.get column = .null ∨ ∃ q, row.get column = .num q) :
    (sortArray (compareRows host column direction) rows).Pairwise
      (fun a b => compareRows host column direction a b ≤ 0) :=
  sortArray_pairwise_on (compareRows host column direction)
    (fun row => row.get column = .null ∨ ∃ q, row.get column = .num q)
    (fun a b ha hb => compareRows_total host column direction a b ha hb)
    (fun a b c ha hb hc => compareRows_trans host column direction a b c ha hb hc) rows hnum

theorem exists_record_of_mem_formattedSimulations (host : Host)
    (simulations : List SimulationResult) (row : FormattedRow)
    (h : row ∈ formattedSimulations host simulations) :
    ∃ s ∈ simulations, row.toComparisonRow = formatSimulationForComparison s := by
  obtain ⟨entry, hentry, rfl⟩ := (mem_formattedSimulations host simulations row).1 h
  have hmem : entry.2 ∈ uniqueSimulations host (sortedByTime host simulations) :=
    snd_mem_of_mem_enum _ entry hentry
  have hsorted : entry.2 ∈ sortedByTime host simulations :=
    (uniqueSimulations_sublist host _).1.subset hmem
  exact ⟨entry.2, (sortedByTime_perm host simulations).mem_iff.1 hsorted, rfl⟩

theorem unknownPrice_view :
    formattedSimulations sampleHost unknownPriceRecords
      = [{ toComparisonRow :=
             { id := some "r1", timestamp := some "1970-01-01T00:00:00.100Z",
               country := "Japan", policyType := "ETS", carbonPrice := .num 30,
               duration := .num 5, annualRevenue := 0, co2Covered := none,
               revenuePctGDP := none, successProbability := none, riskLevel := none,
               status := none }
           policyId := 1
           originalTimestamp := some "1970-01-01T00:00:00.100Z" },
         { toComparisonRow :=
             { id := some "r2", timestamp := some "1970-01-01T00:00:00.150Z",
               country := "Pakistan", policyType := "Carbon Tax", carbonPrice := .num 0,
               duration := .num 5, annualRevenue := 0, co2Covered := none,
               revenuePctGDP := none, successProbability := none, riskLevel := none,
               status := none }
           policyId := 2
           originalTimestamp := some "1970-01-01T00:00:00.150Z" }] := by
  decide

/-- C18, counterexample: of two stored records the second has no carbon price in its
inputs; it is shown with `carbonPrice` 0, and sorting the comparison view by `carbonPrice`
in ascending direction places it first, before the record with price 30. -/
theorem sortedSimulations_unknown_price_counterexample :
    (unknownPriceRecords.map (fun sim => (sim.id, sim.priceField)))
      = [(some "r1", some (.num 30)), (some "r2", none)] ∧
    (sortedSimulations sampleHost (some .carbonPrice) .asc
        (formattedSimulations sampleHost unknownPriceRecords)).map
        (fun row => (row.id, row.carbonPrice))
      = [(some "r2", .num 0), (some "r1", .num 30)] := by
  refine ⟨by decide, ?_⟩
  rw [unknownPrice_view]
  norm_num [sortedSimulations, sortArray, List.insertionSort, List.orderedInsert, compareRows,
    FormattedRow.get, CellValue.ofValue]

/-- C18, as amended: for every list of stored simulations, a record whose carbon price is
unknown (absent from its inputs) is shown in the comparison view with `carbonPrice` 0,
never null, and a record whose carbon price is a number is shown with that number. When the carbon prices of the stored records are numbers, sorting the view by
`carbonPrice` orders that record as the number 0: the rows are in non-decreasing order of
`carbonPrice` when the direction is ascending and in non-increasing order when it is
descending. Carbon prices stored as the texts of the form are compared as texts: `9`,
`25`, `100` come out as `100`, `25`, `9` in ascending direction. -/
theorem sortedSimulations_carbonPrice (host : Host) (simulations : List SimulationResult) :
    (∀ s ∈ simulations,
      (s.priceField = none → (formatSimulationForComparison s).carbonPrice = .num 0) ∧
      (∀ q, s.priceField = some (.num q) →
        (formatSimulationForComparison s).carbonPrice = .num q)) ∧
    (∀ row ∈ formattedSimulations host simulations, row.get .carbonPrice ≠ .null) ∧
    ((∀ s ∈ simulations, s.priceField = none ∨ ∃ q, s.priceField = some (.num q)) →
      (∀ row ∈ formattedSimulations host simulations, ∃ q, row.carbonPrice = .num q) ∧
      (sortedSimulations host (some .carbonPrice) .asc
          (formattedSimulations host simulations)).Pairwise
        (fun a b => ∀ x y, a.carbonPrice = .num x → b.carbonPrice = .num y → x ≤ y) ∧
      (sortedSimulations host (some .carbonPrice) .desc
          (formattedSimulations host simulations)).Pairwise
        (fun a b => ∀ x y, a.carbonPrice = .num x → b.carbonPrice = .num y → y ≤ x)) ∧
    (sortedSimulations sampleHost (some .carbonPrice) .asc
        (formattedSimulations sampleHost textPriceRecords)).map
        (fun row => (row.id, row.carbonPrice))
      = [(some "r3", .str "100" (some 100)), (some "r2", .str "25" (some 25)),
         (some "r1", .str "9" (some 9))] := by
  refine ⟨?_, ?_, ?_, by decide⟩
  · intro s _
    constructor
    · intro hs
      simp only [formatSimulationForComparison, hs, orValueLit_none]
    · intro q hs
      simp only [formatSimulationForComparison, hs, orValueLit_num]
  · intro row _ hrow
    cases hp : row.carbonPrice <;> simp [FormattedRow.get, CellValue.ofValue, hp] at hrow
  · intro hnum
    have hrows : ∀ row ∈ formattedSimulations host simulations,
        ∃ q, row.carbonPrice = .num q := by
      intro row hrow
      obtain ⟨s, hs, hformat⟩ := exists_record_of_mem_formattedSimulations host _ row hrow
      have hprice : row.carbonPrice = (formatSimulationForComparison s).carbonPrice := by
        rw [← hformat]
      rcases hnum s hs with h | ⟨q, h⟩
      · exact ⟨0, by rw [hprice]; simp only [formatSimulationForComparison, h, orValueLit_none]⟩
      · exact ⟨q, by rw [hprice]; simp only [formatSimulationForComparison, h, orValueLit_num]⟩
    have hcells : ∀ row ∈ formattedSimulations host simulations,
        row.get .carbonPrice = .null ∨ ∃ q, row.get .carbonPrice = .num q := by
      intro row hrow
      obtain ⟨q, hq⟩ := hrows row hrow
      exact Or.inr ⟨q, by simp [FormattedRow.get, CellValue.ofValue, hq]⟩
    have hget : ∀ (row : FormattedRow) (x : ℚ), row.carbonPrice = .num x →
        row.get .carbonPrice = .num x := by
      intro row x hx
      simp [FormattedRow.get, CellValue.ofValue, hx]
    refine ⟨hrows, ?_, ?_⟩
    · refine List.Pairwise.imp ?_
        (sortArray_compareRows_sorted host .carbonPrice .asc _ hcells)
      intro a b hab x y ha hb
      rw [compareRows_num_num host .carbonPrice .asc a b x y (hget a x ha) (hget b y hb)] at hab
      simpa using hab
    · refine List.Pairwise.imp ?_
        (sortArray_compareRows_sorted host .carbonPrice .desc _ hcells)
      intro a b hab x y ha hb
      rw [compareRows_num_num host .carbonPrice .desc a b x y (hget a x ha) (hget b y hb)] at hab
      simpa using hab

/-- C18, witness: in the example the record without a carbon price is shown with
`carbonPrice` 0 and comes last in descending direction, after the record with price 30. -/
theorem sortedSimulations_carbonPrice_witness :
    (formatSimulationForComparison
      (storedRecord "r2" "1970-01-01T00:00:00.150Z" "Pakistan" "CARBON_TAX" none)).carbonPrice
      = .num 0 ∧
    (sortedSimulations sampleHost (some .carbonPrice) .desc
        (formattedSimulations sampleHost unknownPriceRecords)).Pairwise
      (fun a b => ∀ x y, a.carbonPrice = .num x → b.carbonPrice = .num y → y ≤ x) ∧
    (sortedSimulations sampleHost (some .carbonPrice) .desc
        (formattedSimulations sampleHost unknownPriceRecords)).map
        (fun row => (row.id, row.carbonPrice))
      = [(some "r1", .num 30), (some "r2", .num 0)] := by
  have h := sortedSimulations_carbonPrice sampleHost unknownPriceRecords
  refine ⟨(h.1 _ (by decide)).1 rfl, (h.2.2.1 ?_).2.2, ?_⟩
  · intro s hs
    simp only [unknownPriceRecords, List.mem_cons, List.mem_singleton, List.not_mem_nil,
      or_false] at hs
    rcases hs with rfl | rfl
    · exact Or.inr ⟨30, rfl⟩
    · exact Or.inl rfl
  · have hdir : (SortDirection.desc = SortDirection.asc) = False := eq_false (by decide)
    rw [unknownPrice_view]
    norm_num [sortedSimulations, sortArray, List.insertionSort, List.orderedInsert, compareRows,
      FormattedRow.get, CellValue.ofValue, hdir]

/-! ## Lemmas on the readers of the exported texts -/

theorem intercalate_go_data (sep : String) (l : List String) :
    ∀ acc : String, (String.intercalate.go acc sep l).data
      = acc.data ++ (l.map (fun a => sep.data ++ a.data)).flatten := by
  induction l with
  | nil =>
    intro acc
    simp [String.intercalate.go]
  | cons a rest ih =>
    intro acc
    rw [String.intercalate.go, ih]
    simp [String.data_append, List.append_assoc]

theorem intercalate_cons_data (sep a : String) (l : List String) :
    (String.intercalate sep (a :: l)).data
      = a.data ++ (l.map (fun a => sep.data ++ a.data)).flatten := by
  rw [String.intercalate, intercalate_go_data]

theorem foldl_step_none (cs : List Char) : cs.foldl CsvReader.step none = none := by
  induction cs with
  | nil => rfl
  | cons c rest ih => simpa [List.foldl_cons, CsvReader.step] using ih

theorem read_quoted_body (cs : List Char) (hq : '"' ∉ cs) :
    ∀ (f : List Char) (rec : List String) (recs : List (List String)),
      cs.foldl CsvReader.step
          (some { state := .quoted, field := f, record := rec, records := recs })
        = some { state := .quoted, field := f ++ cs, record := rec, records := recs } := by
  induction cs with
  | nil =>
    intro f rec recs
    simp
  | cons c rest ih =>
    intro f rec recs
    have hc : c ≠ '"' := fun h => hq (by rw [h]; exact List.mem_cons_self _ _)
    have hrest : '"' ∉ rest := fun h => hq (List.mem_cons_of_mem _ h)
    rw [List.foldl_cons]
    have hstep : CsvReader.step
        (some { state := .quoted, field := f, record := rec, records := recs }) c
        = some { state := .quoted, field := f ++ [c], record := rec, records := recs } := by
      simp [CsvReader.step, hc]
    rw [hstep, ih hrest]
    simp

theorem quoted_data (s : String) : ("\"" ++ s ++ "\"").data = '"' :: (s.data ++ ['"']) := by
  simp [String.data_append]

theorem read_quoted_cell (cs : List Char) (hq : '"' ∉ cs) (rec : List String)
    (recs : List (List String)) :
    ('"' :: (cs ++ ['"'])).foldl CsvReader.step
        (some { state := .fieldStart, field := [], record := rec, records := recs })
      = some { state := .quoteSeen, field := cs, record := rec, records := recs } := by
  rw [List.foldl_cons, List.foldl_append]
  have h1 : CsvReader.step
      (some { state := .fieldStart, field := [], record := rec, records := recs }) '"'
      = some { state := .quoted, field := [], record := rec, records := recs } := by
    simp [CsvReader.step]
  rw [h1, read_quoted_body cs hq]
  simp [CsvReader.step]

theorem read_comma (f : List Char) (rec : List String) (recs : List (List String)) :
    CsvReader.step
        (some { state := .quoteSeen, field := f, record := rec, records := recs }) ','
      = some { state := .fieldStart, field := [], record := rec ++ [String.mk f],
               records := recs } := by
  simp [CsvReader.step]

theorem read_more_cells (cells : List String) (hq : ∀ cell ∈ cells, '"' ∉ cell.data) :
    ∀ (f : String) (rec : List String) (recs : List (List String)),
      ((cells.map (fun a => ",".data ++ ("\"" ++ a ++ "\"").data)).flatten).foldl CsvReader.step
          (some { state := .quoteSeen, field := f.data, record := rec, records := recs })
        = some { state := .quoteSeen, field := ((f :: cells).getLast (by simp)).data,
                 record := rec ++ (f :: cells).dropLast, records := recs } := by
  induction cells with
  | nil =>
    intro f rec recs
    simp
  | cons c rest ih =>
    intro f rec recs
    have hc : '"' ∉ c.data := hq c (List.mem_cons_self _ _)
    have hrest : ∀ cell ∈ rest, '"' ∉ cell.data := fun x hx => hq x (List.mem_cons_of_mem _ hx)
    rw [List.map_cons, List.flatten_cons, List.foldl_append, quoted_data]
    have hcomma : ",".data = [','] := rfl
    rw [hcomma, List.singleton_append, List.foldl_cons, read_comma, read_quoted_cell c.data hc,
      ih hrest c]
    simp [List.dropLast_cons_of_ne_nil, List.getLast_cons]

theorem read_line (first : String) (cells : List String)
    (hq : ∀ cell ∈ first :: cells, '"' ∉ cell.data) (recs : List (List String)) :
    (String.intercalate "," ((first :: cells).map (fun a => "\"" ++ a ++ "\""))).data.foldl
        CsvReader.step
        (some { state := .fieldStart, field := [], record := [], records := recs })
      = some { state := .quoteSeen, field := ((first :: cells).getLast (by simp)).data,
               record := (first :: cells).dropLast, records := recs } := by
  rw [List.map_cons, intercalate_cons_data, List.foldl_append, quoted_data,
    read_quoted_cell first.data (hq first (List.mem_cons_self _ _)), List.map_map]
  have h := read_more_cells cells (fun x hx => hq x (List.mem_cons_of_mem _ hx)) first [] recs
  simpa [Function.comp] using h

theorem read_quoted_cell_recordStart (cs : List Char) (hq : '"' ∉ cs) (rec : List String)
    (recs : List (List String)) :
    ('"' :: (cs ++ ['"'])).foldl CsvReader.step
        (some { state := .recordStart, field := [], record := rec, records := recs })
      = some { state := .quoteSeen, field := cs, record := rec, records := recs } := by
  rw [List.foldl_cons, List.foldl_append]
  have h1 : CsvReader.step
      (some { state := .recordStart, field := [], record := rec, records := recs }) '"'
      = some { state := .quoted, field := [], record := rec, records := recs } := by
    simp [CsvReader.step]
  rw [h1, read_quoted_body cs hq]
  simp [CsvReader.step]

theorem read_line_recordStart (first : String) (cells : List String)
    (hq : ∀ cell ∈ first :: cells, '"' ∉ cell.data) (recs : List (List String)) :
    (String.intercalate "," ((first :: cells).map (fun a => "\"" ++ a ++ "\""))).data.foldl
        CsvReader.step
        (some { state := .recordStart, field := [], record := [], records := recs })
      = some { state := .quoteSeen, field := ((first :: cells).getLast (by simp)).data,
               record := (first :: cells).dropLast, records := recs } := by
  rw [List.map_cons, intercalate_cons_data, List.foldl_append, quoted_data,
    read_quoted_cell_recordStart first.data (hq first (List.mem_cons_self _ _)), List.map_map]
  have h := read_more_cells cells (fun x hx => hq x (List.mem_cons_of_mem _ hx)) first [] recs
  simpa [Function.comp] using h

theorem read_newline (r : CsvReader) (h : r.state = .unquoted ∨ r.state = .quoteSeen) :
    CsvReader.step (some r) '\n'
      = some { state := .recordStart, field := [], record := [], records := r.pending } := by
  rcases h with h | h <;> simp [CsvReader.step, h, CsvReader.pending]

theorem finish_pending (r : CsvReader) (h : r.state = .unquoted ∨ r.state = .quoteSeen) :
    CsvReader.finish (some r) = some r.pending := by
  rcases h with h | h <;> simp [CsvReader.finish, h, CsvReader.pending]

theorem read_lines (rows : List (List String)) (hne : ∀ row ∈ rows, row ≠ [])
    (hq : ∀ row ∈ rows, ∀ cell ∈ row, '"' ∉ cell.data) :
    ∀ r : CsvReader, r.state = .unquoted ∨ r.state = .quoteSeen →
      CsvReader.finish
          (((rows.map (fun row => "\n".data ++
              (String.intercalate "," (row.map (fun a => "\"" ++ a ++ "\""))).data)).flatten).foldl
            CsvReader.step (some r))
        = some (r.pending ++ rows) := by
  induction rows with
  | nil =>
    intro r hr
    simpa using finish_pending r hr
  | cons row rest ih =>
    intro r hr
    have hrow : row ≠ [] := hne row (List.mem_cons_self _ _)
    obtain ⟨first, cells, rfl⟩ := List.exists_cons_of_ne_nil hrow
    have hnl : "\n".data = ['\n'] := rfl
    rw [List.map_cons, List.flatten_cons, List.foldl_append, hnl, List.singleton_append,
      List.foldl_cons, read_newline r hr,
      read_line_recordStart first cells (hq _ (List.mem_cons_self _ _)),
      ih (fun x hx => hne x (List.mem_cons_of_mem _ hx))
        (fun x hx => hq x (List.mem_cons_of_mem _ hx)) _ (Or.inr rfl)]
    have hlast : (first :: cells).dropLast
        ++ [String.mk ((first :: cells).getLast (by simp)).data] = first :: cells :=
      List.dropLast_append_getLast _
    simp only [CsvReader.pending, List.nil_append, hlast, List.append_assoc,
      List.singleton_append, List.cons_append]

theorem read_headers :
    (String.intercalate "," csvHeaders).data.foldl CsvReader.step
        (some { state := .recordStart, field := [], record := [], records := [] })
      = some { state := .unquoted, field := "Revenue as % of GDP".data,
               record := csvHeaders.dropLast, records := [] } := by
  decide!

theorem readCsv_lines (host : Host) (rows : List (List CsvCell))
    (hne : ∀ row ∈ rows, row ≠ [])
    (hq : ∀ row ∈ rows, ∀ cell ∈ row, '"' ∉ (cell.render host).data) :
    readCsv ("\uFEFF" ++ String.intercalate "\n"
        (String.intercalate "," csvHeaders :: rows.map (csvLine host)))
      = some (csvHeaders :: rows.map (fun row => row.map (CsvCell.render host))) := by
  have hdata : ("\uFEFF" ++ String.intercalate "\n"
        (String.intercalate "," csvHeaders :: rows.map (csvLine host))).data
      = '\uFEFF' :: ((String.intercalate "," csvHeaders).data
          ++ ((rows.map (fun row => row.map (CsvCell.render host))).map (fun row => "\n".data ++
              (String.intercalate "," (row.map (fun a => "\"" ++ a ++ "\""))).data)).flatten) := by
    simp only [String.data_append, intercalate_cons_data, List.map_map]
    rw [List.singleton_append]
    congr 3
    apply List.map_congr_left
    intro row _
    simp only [csvLine, List.map_map, Function.comp]
    rfl
  unfold readCsv
  rw [hdata]
  simp only [List.foldl_append, read_headers]
  rw [read_lines _ _ _ _ (Or.inl rfl)]
  · rfl
  · intro row hrow
    obtain ⟨r0, hr0, rfl⟩ := List.mem_map.1 hrow
    simpa using hne r0 hr0
  · intro row hrow cell hcell
    obtain ⟨r0, hr0, rfl⟩ := List.mem_map.1 hrow
    obtain ⟨c0, hc0, rfl⟩ := List.mem_map.1 hcell
    exact hq r0 hr0 c0 hc0

theorem foldl_append_data (l : List String) :
    ∀ acc : String, (l.foldl (fun r s => r ++ s) acc).data
      = acc.data ++ (l.map String.data).flatten := by
  induction l with
  | nil =>
    intro acc
    simp
  | cons a rest ih =>
    intro acc
    rw [List.foldl_cons, ih]
    simp [String.data_append]

theorem join_data (l : List String) : (String.join l).data = (l.map String.data).flatten := by
  rw [String.join, foldl_append_data]
  rfl

theorem read_text (cs : List Char) (hlt : '<' ∉ cs) (hamp : '&' ∉ cs) :
    ∀ (place : TablePlace) (text : List Char) (cells : List String) (rows : List (List String)),
      cs.foldl TableReader.step
          (some { place := place, text := text, tag := none, cells := cells, rows := rows })
        = some { place := place, text := text ++ cs, tag := none, cells := cells,
                 rows := rows } := by
  induction cs with
  | nil =>
    intro place text cells rows
    simp
  | cons c rest ih =>
    intro place text cells rows
    have h1 : c ≠ '<' := fun h => hlt (by rw [h]; exact List.mem_cons_self _ _)
    have h2 : c ≠ '&' := fun h => hamp (by rw [h]; exact List.mem_cons_self _ _)
    rw [List.foldl_cons]
    have hstep : TableReader.step
        (some { place := place, text := text, tag := none, cells := cells, rows := rows }) c
        = some { place := place, text := text ++ [c], tag := none, cells := cells,
                 rows := rows } := by
      simp [TableReader.step, h1, h2]
    rw [hstep, ih (fun h => hlt (List.mem_cons_of_mem _ h))
      (fun h => hamp (List.mem_cons_of_mem _ h))]
    simp

theorem read_cell (cell : String) (hlt : '<' ∉ cell.data) (hamp : '&' ∉ cell.data)
    (cells : List String) (rows : List (List String)) :
    ("<td>" ++ cell ++ "</td>").data.foldl TableReader.step
        (some { place := .inRow, text := [], tag := none, cells := cells, rows := rows })
      = some { place := .inRow, text := [], tag := none, cells := cells ++ [cell],
               rows := rows } := by
  have hdata : ("<td>" ++ cell ++ "</td>").data
      = ['<', 't', 'd', '>'] ++ (cell.data ++ ['<', '/', 't', 'd', '>']) := by
    simp [String.data_append]
  rw [hdata, List.foldl_append, List.foldl_append]
  have hopen : ['<', 't', 'd', '>'].foldl TableReader.step
      (some { place := .inRow, text := [], tag := none, cells := cells, rows := rows })
      = some { place := .inCell, text := [], tag := none, cells := cells, rows := rows } := by
    simp [TableReader.step, TableReader.closeTag]
  rw [hopen, read_text cell.data hlt hamp]
  simp [TableReader.step, TableReader.closeTag]

theorem read_cells (cells : List String) (hlt : ∀ cell ∈ cells, '<' ∉ cell.data)
    (hamp : ∀ cell ∈ cells, '&' ∉ cell.data) :
    ∀ (before : List String) (rows : List (List String)),
      (String.join (cells.map (fun cell => "<td>" ++ cell ++ "</td>"))).data.foldl
          TableReader.step
          (some { place := .inRow, text := [], tag := none, cells := before, rows := rows })
        = some { place := .inRow, text := [], tag := none, cells := before ++ cells,
                 rows := rows } := by
  induction cells with
  | nil =>
    intro before rows
    simp [join_data]
  | cons c rest ih =>
    intro before rows
    have hjoin : (String.join ((c :: rest).map (fun cell => "<td>" ++ cell ++ "</td>"))).data
        = ("<td>" ++ c ++ "</td>").data
          ++ (String.join (rest.map (fun cell => "<td>" ++ cell ++ "</td>"))).data := by
      rw [join_data, join_data, List.map_cons, List.map_cons, List.flatten_cons]
    rw [hjoin, List.foldl_append, read_cell c (hlt c (List.mem_cons_self _ _))
      (hamp c (List.mem_cons_self _ _)),
      ih (fun x hx => hlt x (List.mem_cons_of_mem _ hx))
        (fun x hx => hamp x (List.mem_cons_of_mem _ hx))]
    simp

theorem read_row (cells : List String) (hlt : ∀ cell ∈ cells, '<' ∉ cell.data)
    (hamp : ∀ cell ∈ cells, '&' ∉ cell.data) (rows : List (List String)) :
    (rowMarkup cells).data.foldl TableReader.step
        (some { place := .betweenRows, text := [], tag := none, cells := [], rows := rows })
      = some { place := .betweenRows, text := [], tag := none, cells := [],
               rows := rows ++ [cells] } := by
  have hdata : (rowMarkup cells).data
      = ['<', 't', 'r', '>']
        ++ ((String.join (cells.map (fun cell => "<td>" ++ cell ++ "</td>"))).data
          ++ ['<', '/', 't', 'r', '>']) := by
    simp [rowMarkup, String.data_append]
  rw [hdata, List.foldl_append, List.foldl_append]
  have hopen : ['<', 't', 'r', '>'].foldl TableReader.step
      (some { place := .betweenRows, text := [], tag := none, cells := [], rows := rows })
      = some { place := .inRow, text := [], tag := none, cells := [], rows := rows } := by
    simp [TableReader.step, TableReader.closeTag]
  rw [hopen, read_cells cells hlt hamp]
  simp [TableReader.step, TableReader.closeTag]

theorem read_rows (table : List (List String))
    (hlt : ∀ cells ∈ table, ∀ cell ∈ cells, '<' ∉ cell.data)
    (hamp : ∀ cells ∈ table, ∀ cell ∈ cells, '&' ∉ cell.data) :
    ∀ rows : List (List String),
      (String.join (table.map rowMarkup)).data.foldl TableReader.step
          (some { place := .betweenRows, text := [], tag := none, cells := [], rows := rows })
        = some { place := .betweenRows, text := [], tag := none, cells := [],
                 rows := rows ++ table } := by
  induction table with
  | nil =>
    intro rows
    simp [join_data]
  | cons cells rest ih =>
    intro rows
    have hjoin : (String.join ((cells :: rest).map rowMarkup)).data
        = (rowMarkup cells).data ++ (String.join (rest.map rowMarkup)).data := by
      rw [join_data, join_data, List.map_cons, List.map_cons, List.flatten_cons]
    rw [hjoin, List.foldl_append, read_row cells (hlt cells (List.mem_cons_self _ _))
      (hamp cells (List.mem_cons_self _ _)),
      ih (fun x hx => hlt x (List.mem_cons_of_mem _ hx))
        (fun x hx => hamp x (List.mem_cons_of_mem _ hx))]
    simp

theorem readTableRows_join (table : List (List String))
    (hlt : ∀ cells ∈ table, ∀ cell ∈ cells, '<' ∉ cell.data)
    (hamp : ∀ cells ∈ table, ∀ cell ∈ cells, '&' ∉ cell.data) :
    readTableRows (String.join (table.map rowMarkup)) = some table := by
  unfold readTableRows
  rw [read_rows table hlt hamp]
  simp [TableReader.finish]

theorem appendRow_eq (host : Host) (acc : String) (item : ComparisonRow) :
    appendRow host acc item
      = acc ++ rowMarkup ((csvRow host item).map (CsvCell.render host)) := by
  apply String.ext
  cases hs : item.successProbability <;> cases hc : item.co2Covered <;>
    cases hg : item.revenuePctGDP <;>
    simp [appendRow, rowMarkup, csvRow, CsvCell.render, join_data, String.data_append, hs, hc,
      hg]

theorem foldl_appendRow (host : Host) (data : List ComparisonRow) :
    ∀ acc : String, data.foldl (appendRow host) acc
      = acc ++ String.join
          (data.map (fun item => rowMarkup ((csvRow host item).map (CsvCell.render host)))) := by
  induction data with
  | nil =>
    intro acc
    apply String.ext
    simp [join_data]
  | cons item rest ih =>
    intro acc
    rw [List.foldl_cons, ih, appendRow_eq]
    apply String.ext
    simp [join_data, String.data_append]

theorem tableRows_eq_join (host : Host) (data : List ComparisonRow) :
    tableRows host data
      = String.join
          ((data.map (fun item => (csvRow host item).map (CsvCell.render host))).map
            rowMarkup) := by
  rw [tableRows, foldl_appendRow, List.map_map]
  apply String.ext
  rw [String.data_append]
  rfl

/-! ## Claims on `exportToCSV` -/

/-- C19, the failing input: for a record whose status is `a","b` the data line that
`exportToCSV` writes has 10 quoted fields, not 9: a reader of the file under RFC 4180
finds the header row of 9 columns and a row of 10 cells, the status split in two. For
every host and every non-empty list of records whose cells hold no double quote, the file
reads back as the header row of 9 columns followed by one row per record, in input order,
each of the 9 cells of the record, with `N/A` in the cell of an unknown `co2Covered` or
`revenuePctGDP`. -/
theorem exportToCSV_ten_fields :
    (exportToCSV sampleHost [textRow "Pakistan" "Carbon Tax" "a\",\"b"]).bind readCsv
      = some [csvHeaders,
          ["Pakistan", "Carbon Tax", "25.00", "5", "140.00", "N/A", "a", "b", "N/A", "N/A"]] ∧
    (csvRow sampleHost (textRow "Pakistan" "Carbon Tax" "a\",\"b")).map
        (CsvCell.render sampleHost)
      = ["Pakistan", "Carbon Tax", "25.00", "5", "140.00", "N/A", "a\",\"b", "N/A", "N/A"] ∧
    (∀ (host : Host) (data : List ComparisonRow), data ≠ [] →
      (∀ item ∈ data, ∀ cell ∈ csvRow host item, '"' ∉ (cell.render host).data) →
      (exportToCSV host data).bind readCsv
        = some (csvHeaders :: data.map (fun item => (csvRow host item).map
            (CsvCell.render host)))) ∧
    csvHeaders.length = 9 ∧
    (∀ (host : Host) (item : ComparisonRow),
      ((csvRow host item).map (CsvCell.render host)).length = 9 ∧
      (item.co2Covered = none →
        ((csvRow host item).map (CsvCell.render host))[7]? = some "N/A") ∧
      (item.revenuePctGDP = none →
        ((csvRow host item).map (CsvCell.render host))[8]? = some "N/A")) := by
  refine ⟨by decide!, by decide, ?_, rfl, ?_⟩
  · intro host data hne hq
    have hlen : data.length ≠ 0 := fun h => hne (List.length_eq_zero.1 h)
    simp only [exportToCSV, if_neg hlen, csvContent, csvRows, Option.some_bind]
    rw [readCsv_lines host (data.map (csvRow host)), List.map_map]
    · rfl
    · intro row hrow
      obtain ⟨item, _, rfl⟩ := List.mem_map.1 hrow
      simp [csvRow]
    · intro row hrow cell hcell
      obtain ⟨item, hitem, rfl⟩ := List.mem_map.1 hrow
      exact hq item hitem cell hcell
  · intro host item
    refine ⟨by simp [csvRow], ?_, ?_⟩
    · intro h
      simp [csvRow, h, CsvCell.render]
    · intro h
      simp [csvRow, h, CsvCell.render]

theorem digitChar_isDigit : ∀ k, k < 10 → (Nat.digitChar k).isDigit = true := by decide

theorem toDigitsCore_isDigit (fuel : ℕ) :
    ∀ (n : ℕ) (acc : List Char), (∀ c ∈ acc, c.isDigit = true) →
      ∀ c ∈ Nat.toDigitsCore 10 fuel n acc, c.isDigit = true := by
  induction fuel with
  | zero =>
    intro n acc hacc c hc
    exact hacc c (by simpa [Nat.toDigitsCore] using hc)
  | succ fuel ih =>
    intro n acc hacc c hc
    have hd : (Nat.digitChar (n % 10)).isDigit = true :=
      digitChar_isDigit (n % 10) (Nat.mod_lt n (by norm_num))
    have hacc2 : ∀ c ∈ Nat.digitChar (n % 10) :: acc, c.isDigit = true := by
      intro c hc
      rcases List.mem_cons.1 hc with rfl | hc
      · exact hd
      · exact hacc c hc
    simp only [Nat.toDigitsCore] at hc
    by_cases h0 : n / 10 = 0
    · rw [if_pos h0] at hc
      exact hacc2 c hc
    · rw [if_neg h0] at hc
      exact ih (n / 10) _ hacc2 c hc

theorem toString_nat_isDigit (n : ℕ) : ∀ c ∈ (toString n).data, c.isDigit = true := by
  intro c hc
  have hc2 : c ∈ Nat.toDigitsCore 10 (n + 1) n [] := hc
  exact toDigitsCore_isDigit (n + 1) n [] (by simp) c hc2

theorem toFixed_shape (host : Host) (x : ℚ) (d : ℕ) (hd : 0 < d)
    (hx : x.num.natAbs < 10 ^ 21 * x.den) :
    ∃ sign whole frac : List Char,
      (toFixed host x d).data = sign ++ whole ++ '.' :: frac ∧
      (sign = [] ∨ sign = ['-']) ∧ whole ≠ [] ∧ (∀ c ∈ whole, c.isDigit = true) ∧
      frac.length = d ∧ (∀ c ∈ frac, c.isDigit = true) := by
  have hd0 : d ≠ 0 := Nat.pos_iff_ne_zero.1 hd
  obtain ⟨m, hm, hlen, hdig⟩ : ∃ m : List Char,
      (toFixed host x d).data
        = (if x < 0 then "-" else "").data
          ++ (m.take (m.length - d) ++ '.' :: m.drop (m.length - d)) ∧
      d < m.length ∧ ∀ c ∈ m, c.isDigit = true := by
    by_cases hpad :
        (toString ((2 * x.num.natAbs * 10 ^ d + x.den) / (2 * x.den))).data.length ≤ d
    · refine ⟨List.replicate
          (d + 1 - (toString ((2 * x.num.natAbs * 10 ^ d + x.den) / (2 * x.den))).data.length)
          '0' ++ (toString ((2 * x.num.natAbs * 10 ^ d + x.den) / (2 * x.den))).data,
        ?_, ?_, ?_⟩
      · simp only [toFixed, if_neg (not_le.2 hx), if_neg hd0, if_pos hpad,
          String.data_append]
      · rw [List.length_append, List.length_replicate]
        omega
      · intro c hc
        rcases List.mem_append.1 hc with hc | hc
        · rw [(List.mem_replicate.1 hc).2]
          decide
        · exact toString_nat_isDigit _ c hc
    · refine ⟨(toString ((2 * x.num.natAbs * 10 ^ d + x.den) / (2 * x.den))).data,
        ?_, ?_, ?_⟩
      · simp only [toFixed, if_neg (not_le.2 hx), if_neg hd0, if_neg hpad,
          String.data_append]
      · omega
      · exact toString_nat_isDigit _
  refine ⟨(if x < 0 then "-" else "").data, m.take (m.length - d), m.drop (m.length - d),
    ?_, ?_, ?_, ?_, ?_, ?_⟩
  · rw [hm, List.append_assoc]
  · by_cases hneg : x < 0
    · right
      rw [if_pos hneg]
    · left
      rw [if_neg hneg]
  · intro h
    have hl := congrArg List.length h
    rw [List.length_take] at hl
    simp only [List.length_nil] at hl
    omega
  · intro c hc
    exact hdig c (List.mem_of_mem_take hc)
  · rw [List.length_drop]
    omega
  · intro c hc
    exact hdig c (List.mem_of_mem_drop hc)

theorem natAbs_lt_of_abs_lt (x : ℚ) (h : |x| < 10 ^ 21) :
    x.num.natAbs < 10 ^ 21 * x.den := by
  have hden : (0 : ℚ) < x.den := by exact_mod_cast x.den_pos
  have hx : |x| = (x.num.natAbs : ℚ) / x.den := by
    conv_lhs => rw [← Rat.num_div_den x]
    rw [abs_div, Nat.cast_natAbs, Int.cast_abs, abs_of_pos hden]
  rw [hx, div_lt_iff₀ hden] at h
  exact_mod_cast h

/-- C20, counterexample: for a record with duration 5 and success probability 0.7 the
Duration cell is the plain number 5, rendered `5` without a decimal point, and the Policy
Success cell is `70.0`, with one digit after the decimal point. -/
theorem csvRow_decimals_counterexample :
    (csvRow sampleHost (sampleRow (some (7 / 10)) none none))[3]? = some (.number 5) ∧
    CsvCell.render sampleHost (.number 5) = "5" ∧
    (csvRow sampleHost (sampleRow (some (7 / 10)) none none))[5]? = some (.text "70.0") := by
  refine ⟨by decide, by decide, ?_⟩
  have h : (7 / 10 : ℚ) * 100 = 70 := by norm_num
  simp only [csvRow, sampleRow, formatNumber, h]
  decide

/-- C20, as amended: in every data row produced by `exportToCSV` the cells Carbon Price,
Annual Revenue, CO2 Covered and Revenue % GDP that are not `N/A` are `toFixed(2)` of the
value (for the carbon price, of the number that the stored value converts to), the Policy
Success cell that is not `N/A` is `toFixed(1)` of the probability times 100, and the
Duration cell is the plain stored value, a number or the non-empty text of the form field;
`toFixed(d)` of a value below `10^21` in magnitude is rendered with exactly `d` digits
after the decimal point. -/
theorem csvRow_number_format (host : Host) (item : ComparisonRow) :
    (∀ q, item.carbonPrice.toNumber = some q →
      (csvRow host item)[2]? = some (.text (toFixed host q 2))) ∧
    (item.carbonPrice.toNumber = none → (csvRow host item)[2]? = some (.text "N/A")) ∧
    (csvRow host item)[4]? = some (.text (toFixed host item.annualRevenue 2)) ∧
    (∀ c, item.co2Covered = some c →
      (csvRow host item)[7]? = some (.text (toFixed host c 2))) ∧
    (∀ g, item.revenuePctGDP = some g →
      (csvRow host item)[8]? = some (.text (toFixed host g 2))) ∧
    (∀ p, item.successProbability = some p →
      (csvRow host item)[5]? = some (.text (toFixed host (p * 100) 1))) ∧
    (∀ q, item.duration = .num q →
      (csvRow host item)[3]? = some (.number (orNumLit (some q) 0))) ∧
    (∀ text number, item.duration = .str text number → text ≠ "" →
      (csvRow host item)[3]? = some (.text text)) ∧
    (∀ (x : ℚ) (d : ℕ), 0 < d → |x| < 10 ^ 21 →
      ∃ sign whole frac : List Char,
        (toFixed host x d).data = sign ++ whole ++ '.' :: frac ∧
        (sign = [] ∨ sign = ['-']) ∧ whole ≠ [] ∧ (∀ c ∈ whole, c.isDigit = true) ∧
        frac.length = d ∧ (∀ c ∈ frac, c.isDigit = true)) := by
  refine ⟨?_, ?_, rfl, ?_, ?_, ?_, ?_, ?_, ?_⟩
  · intro q h
    simp [csvRow, h, formatNumber]
  · intro h
    simp [csvRow, h, formatNumber]
  · intro c h
    simp [csvRow, h, formatNumber]
  · intro g h
    simp [csvRow, h, formatNumber]
  · intro p h
    simp [csvRow, h, formatNumber]
  · intro q h
    by_cases hq : q = 0 <;>
      simp [csvRow, h, orValueLit, NumOrStr.truthy, CsvCell.ofValue, orNumLit, hq]
  · intro text number h htext
    simp [csvRow, h, orValueLit, NumOrStr.truthy, CsvCell.ofValue, htext]
  · intro x d hd hx
    exact toFixed_shape host x d hd (natAbs_lt_of_abs_lt x hx)

/-- C20, witness: the record with carbon price 25, annual revenue 140, CO2 covered 5 and
revenue 7 % of GDP gets the cells `25.00`, `140.00`, `5.00` and `7.00`. -/
theorem csvRow_number_format_witness :
    (csvRow sampleHost (sampleRow none (some 5) (some 7)))[2]? = some (.text "25.00") ∧
    (csvRow sampleHost (sampleRow none (some 5) (some 7)))[4]? = some (.text "140.00") ∧
    (csvRow sampleHost (sampleRow none (some 5) (some 7)))[7]? = some (.text "5.00") ∧
    (csvRow sampleHost (sampleRow none (some 5) (some 7)))[8]? = some (.text "7.00") ∧
    (∃ sign whole frac : List Char,
      (toFixed sampleHost 25 2).data = sign ++ whole ++ '.' :: frac ∧ frac.length = 2) := by
  have h := csvRow_number_format sampleHost (sampleRow none (some 5) (some 7))
  obtain ⟨sign, whole, frac, h1, _, _, _, h5, _⟩ :=
    h.2.2.2.2.2.2.2.2 25 2 (by norm_num) (by norm_num [abs_of_pos])
  refine ⟨?_, by decide, ?_, ?_, ⟨sign, whole, frac, h1, h5⟩⟩
  · rw [h.1 25 rfl]
    decide
  · rw [h.2.2.2.1 5 rfl]
    decide
  · rw [h.2.2.2.2.1 7 rfl]
    decide

/-- C21, the failing input: a status that contains double quotes is written between double
quotes with its own quotes not doubled, so the line is not a line of quoted fields; and two
different records (a policy type that contains `","` against a country that contains it)
are written as the same text, so that no parser can give back the cells that were
written. -/
theorem csvLine_quote_not_doubled :
    csvLine sampleHost
        (csvRow sampleHost (textRow "Pakistan" "Carbon Tax" "Likely \"at risk\""))
      = "\"Pakistan\",\"Carbon Tax\",\"25.00\",\"5\",\"140.00\",\"N/A\",\"Likely \"at risk\"\",\"N/A\",\"N/A\"" ∧
    csvRow sampleHost (textRow "p" "q\",\"r" "s")
      ≠ csvRow sampleHost (textRow "p\",\"q" "r" "s") ∧
    exportToCSV sampleHost [textRow "p" "q\",\"r" "s"]
      = exportToCSV sampleHost [textRow "p\",\"q" "r" "s"] := by
  have hline : csvLine sampleHost (csvRow sampleHost (textRow "p" "q\",\"r" "s"))
      = csvLine sampleHost (csvRow sampleHost (textRow "p\",\"q" "r" "s")) := by decide
  refine ⟨by decide, by decide, ?_⟩
  simp only [exportToCSV, csvContent, csvRows, List.map, hline, List.length_singleton]

/-! ## Claims on `exportToPDF` -/

/-- C22, the failing input: for a record whose country is `A</td><td>B` the table row that
`exportToPDF` writes has 10 cells, `A` and `B` being two of them, while the row that
`exportToCSV` writes for the same record has 9 cells, the first being `A</td><td>B`. For
every host and every non-empty list of records whose cells hold neither `<` nor `&`, the
table body has one row per record, in input order, and the cells of each row are the 9
rendered cells of the CSV row of the record. -/
theorem exportToPDF_ten_cells :
    (exportToPDF sampleHost [textRow "A</td><td>B" "Carbon Tax" "success"]).bind readTableRows
      = some [["A", "B", "Carbon Tax", "25.00", "5", "140.00", "N/A", "success", "N/A",
               "N/A"]] ∧
    (exportToCSV sampleHost [textRow "A</td><td>B" "Carbon Tax" "success"]).bind readCsv
      = some [csvHeaders,
          ["A</td><td>B", "Carbon Tax", "25.00", "5", "140.00", "N/A", "success", "N/A",
           "N/A"]] ∧
    (∀ (host : Host) (data : List ComparisonRow), data ≠ [] →
      (∀ item ∈ data, ∀ cell ∈ csvRow host item,
        '<' ∉ (cell.render host).data ∧ '&' ∉ (cell.render host).data) →
      (exportToPDF host data).bind readTableRows
        = some ((csvRows host data).map (fun row => row.map (CsvCell.render host)))) ∧
    (∀ (host : Host) (item : ComparisonRow),
      ((csvRow host item).map (CsvCell.render host)).length = 9) := by
  refine ⟨by decide!, by decide!, ?_, ?_⟩
  · intro host data hne hcells
    have hlen : data.length ≠ 0 := fun h => hne (List.length_eq_zero.1 h)
    simp only [exportToPDF, if_neg hlen, Option.some_bind, tableRows_eq_join, csvRows,
      List.map_map]
    rw [← List.map_map, readTableRows_join]
    · rfl
    · intro cells hmem cell hcell
      obtain ⟨item, hitem, rfl⟩ := List.mem_map.1 hmem
      obtain ⟨c0, hc0, rfl⟩ := List.mem_map.1 hcell
      exact (hcells item hitem c0 hc0).1
    · intro cells hmem cell hcell
      obtain ⟨item, hitem, rfl⟩ := List.mem_map.1 hmem
      obtain ⟨c0, hc0, rfl⟩ := List.mem_map.1 hcell
      exact (hcells item hitem c0 hc0).2
  · intro host item
    simp [csvRow]

/-- C23, the failing input: a record whose risk level is `low` and whose status is
`Likely to succeed` has that status, not `low`, in the cell under the header `Risk Level`,
in the CSV row and in the row of the table body that `exportToPDF` writes; with the risk
level `low` and no status the cell is `N/A`. -/
theorem riskLevel_cell_is_status :
    (formatSimulationForComparison
      (assessedResult (some "low") (some "Likely to succeed"))).riskLevel = some "low" ∧
    csvHeaders[6]? = some "Risk Level" ∧
    (csvRow sampleHost (formatSimulationForComparison
      (assessedResult (some "low") (some "Likely to succeed"))))[6]?
      = some (.text "Likely to succeed") ∧
    ((exportToPDF sampleHost [formatSimulationForComparison
        (assessedResult (some "low") (some "Likely to succeed"))]).bind readTableRows).map
        (fun rows => rows.map (fun cells => cells[6]?))
      = some [some "Likely to succeed"] ∧
    (csvRow sampleHost (formatSimulationForComparison
      (assessedResult (some "low") none)))[6]? = some (.text "N/A") := by
  refine ⟨by decide, by decide, by decide, by decide!, by decide⟩

/-! ## Claims on storage failure -/

/-- C24, counterexample: the stored text cannot be parsed; `getSimulations` catches the
error and yields the empty list, so `saveSimulation` returns an id without an error and
replaces the stored text by an array that holds the new record only, and
`removeSimulation` returns and replaces it by the empty array. -/
theorem saveSimulation_malformed_counterexample :
    getSimulations (some (.malformed "[\"abc")) = some [] ∧
    saveSimulation sampleTime1 (some (.malformed "[\"abc")) unsavedResult
      = (some (.array [{ unsavedResult with
                         id := some "1700000000000k3j9x0q2a"
                         timestamp := some "2023-11-14T22:13:20.000Z" }]),
         .returned (some "1700000000000k3j9x0q2a")) ∧
    removeSimulation (some (.malformed "[\"abc")) "r1"
      = (some (.array []), .returned ()) := by
  refine ⟨by decide, by decide, by decide⟩

/-- C24, as amended: for every stored text that parses to a value that is not an array,
`saveSimulation` and `removeSimulation` fail with an error thrown to the caller and leave
the stored text exactly as it was; a stored text that cannot be parsed, or is empty, is
read by `getSimulations` as the empty list, without an error. -/
theorem storage_failure (now : CallTime) (storage : Storage)
    (simulationResult : SimulationResult) (id : String) :
    (∀ text, storage = some (.nonArray text) →
      (∃ error, (saveSimulation now storage simulationResult).2 = .thrown error) ∧
      (saveSimulation now storage simulationResult).1 = storage ∧
      (∃ error, (removeSimulation storage id).2 = .thrown error) ∧
      (removeSimulation storage id).1 = storage) ∧
    (∀ text, storage = some (.malformed text) ∨ storage = some .empty →
      getSimulations storage = some []) := by
  constructor
  · intro text h
    subst h
    exact ⟨⟨_, rfl⟩, rfl, ⟨_, rfl⟩, rfl⟩
  · intro text h
    rcases h with h | h <;> subst h <;> rfl

/-- C24, witness: with the number 42 stored under the key, both calls throw and the stored
text stays. -/
theorem storage_failure_witness :
    saveSimulation sampleTime1 (some (.nonArray "42")) unsavedResult
      = (some (.nonArray "42"), .thrown "TypeError: simulations.push is not a function") ∧
    removeSimulation (some (.nonArray "42")) "r1"
      = (some (.nonArray "42"), .thrown "TypeError: simulations.filter is not a function") ∧
    getSimulations (some (.malformed "[\"abc")) = some [] := by
  have h := storage_failure sampleTime1 (some (.nonArray "42")) unsavedResult "r1"
  have h2 := (storage_failure sampleTime1 (some (.malformed "[\"abc")) unsavedResult "r1").2
    "[\"abc" (Or.inl rfl)
  exact ⟨by decide, by decide, h2⟩

/-! ## Claims on the validation of `runSimulation` -/

theorem runSimulation_proceed (body : SimulateRequest) (i : NormalizedInputs)
    (h : runSimulation body = .proceed i) :
    ∃ d pt price country,
      orNum body.durationYears body.duration = some d ∧ body.policyType = some pt ∧
      orNum body.carbonPriceUSD body.carbonPrice = some price ∧
      body.country = some country ∧ ¬ (d < 1 ∨ 20 < d) ∧
      i.carbonPriceUSD = price ∧ i.durationYears = parseIntNum d ∧ i.country = country := by
  unfold runSimulation at h
  cases hd : orNum body.durationYears body.duration with
  | none => simp [hd] at h
  | some d =>
    cases hpt : body.policyType with
    | none => simp [hd, hpt] at h
    | some pt =>
      cases hp : orNum body.carbonPriceUSD body.carbonPrice with
      | none => simp [hd, hpt, hp] at h
      | some price =>
        cases hc : body.country with
        | none => simp [hd, hpt, hp, hc] at h
        | some country =>
          simp only [hd, hpt, hp, hc] at h
          by_cases h1 : d = 0 ∨ pt = "" ∨ country = ""
          · rw [if_pos h1] at h
            exact ValidationOutcome.noConfusion h
          · rw [if_neg h1] at h
            by_cases h2 : d < 1 ∨ 20 < d
            · rw [if_pos h2] at h
              exact ValidationOutcome.noConfusion h
            · rw [if_neg h2] at h
              cases hn : normalizePolicyType pt with
              | none =>
                rw [hn] at h
                exact ValidationOutcome.noConfusion h
              | some normalized =>
                rw [hn] at h
                have hi := ValidationOutcome.proceed.inj h
                refine ⟨d, pt, price, country, rfl, rfl, rfl, rfl, h2, ?_, ?_, ?_⟩ <;>
                  rw [← hi]

theorem runSimulation_of_no_duration (body : SimulateRequest)
    (h : orNum body.durationYears body.duration = none) :
    runSimulation body = .badRequest missingFieldsMessage := by
  unfold runSimulation
  simp only [h]

theorem runSimulation_of_no_price (body : SimulateRequest)
    (h : orNum body.carbonPriceUSD body.carbonPrice = none) :
    runSimulation body = .badRequest missingFieldsMessage := by
  unfold runSimulation
  simp only [h]
  split <;> first | rfl | simp_all

theorem runSimulation_cases (body : SimulateRequest) :
    (∃ message, runSimulation body = .badRequest message) ∨
      (∃ i, runSimulation body = .proceed i) := by
  cases h : runSimulation body with
  | badRequest message => exact Or.inl ⟨message, rfl⟩
  | proceed i => exact Or.inr ⟨i, rfl⟩

theorem runSimulation_of_duration_range (body : SimulateRequest) (d : ℚ)
    (hd : orNum body.durationYears body.duration = some d) (hrange : d < 1 ∨ 20 < d) :
    ∃ message, runSimulation body = .badRequest message := by
  rcases runSimulation_cases body with h | ⟨i, h⟩
  · exact h
  · obtain ⟨d2, _, _, _, hd2, _, _, _, hok, _⟩ := runSimulation_proceed body i h
    rw [hd] at hd2
    rw [Option.some.inj hd2] at hrange
    exact absurd hrange hok

/-- C25, counterexample: a request with `carbonPriceUSD = -5`, and a request with
`carbonPrice = 0`, are not answered with HTTP 400; the price handed on is -5, and 0. -/
theorem runSimulation_carbonPrice_counterexample :
    runSimulation (priceRequest (some (-5)) none)
      = .proceed { country := "Pakistan", policyType := "ETS", carbonPriceUSD := -5,
                   durationYears := 5 } ∧
    runSimulation (priceRequest none (some 0))
      = .proceed { country := "Pakistan", policyType := "ETS", carbonPriceUSD := 0,
                   durationYears := 5 } := by
  refine ⟨by decide, by decide⟩

/-- C25, as amended: if `runSimulation` does not answer with HTTP 400 then the carbon price
it hands on (to the prediction call, to the mock generator and into the response inputs)
is present: it is `carbonPriceUSD` when that is given and not zero, and `carbonPrice`
otherwise; a request in which `carbonPriceUSD` is absent or zero and `carbonPrice` is
absent is answered with HTTP 400. The sign of the price is not checked. -/
theorem runSimulation_carbonPrice (body : SimulateRequest) :
    (∀ i, runSimulation body = .proceed i →
      (body.carbonPriceUSD = some i.carbonPriceUSD ∧ i.carbonPriceUSD ≠ 0) ∨
      ((body.carbonPriceUSD = none ∨ body.carbonPriceUSD = some 0) ∧
        body.carbonPrice = some i.carbonPriceUSD)) ∧
    ((body.carbonPriceUSD = none ∨ body.carbonPriceUSD = some 0) →
      body.carbonPrice = none →
      runSimulation body = .badRequest missingFieldsMessage) := by
  constructor
  · intro i h
    obtain ⟨d, pt, price, country, _, _, hp, _, _, hi, _, _⟩ := runSimulation_proceed body i h
    rw [orNum_eq] at hp
    by_cases hfalsy : body.carbonPriceUSD = none ∨ body.carbonPriceUSD = some 0
    · rw [if_pos hfalsy] at hp
      exact Or.inr ⟨hfalsy, by rw [hp, hi]⟩
    · rw [if_neg hfalsy] at hp
      refine Or.inl ⟨by rw [hp, hi], ?_⟩
      intro h0
      apply hfalsy
      right
      rw [hp, ← hi, h0]
  · intro hfalsy hnone
    apply runSimulation_of_no_price
    rw [orNum_eq, if_pos hfalsy, hnone]

/-- C25, witness: the sample request with `carbonPriceUSD = 25` hands on the price 25, and
the request without any carbon price is answered with HTTP 400. -/
theorem runSimulation_carbonPrice_witness :
    runSimulation (priceRequest (some 25) none)
      = .proceed { country := "Pakistan", policyType := "ETS", carbonPriceUSD := 25,
                   durationYears := 5 } ∧
    runSimulation (priceRequest (some 0) none) = .badRequest missingFieldsMessage := by
  have h := runSimulation_carbonPrice (priceRequest (some 0) none)
  exact ⟨by decide, h.2 (Or.inr rfl) rfl⟩

theorem parseIntNum_range (d : ℚ) (h1 : 1 ≤ d) (h20 : d ≤ 20) :
    1 ≤ parseIntNum d ∧ parseIntNum d ≤ 20 := by
  have h0 : (0 : ℚ) ≤ d := le_trans (by norm_num) h1
  unfold parseIntNum
  rw [if_pos h0]
  constructor
  · exact Int.le_floor.2 (by exact_mod_cast h1)
  · have hf : ((Int.floor d : ℤ) : ℚ) ≤ 20 := le_trans (Int.floor_le d) h20
    exact_mod_cast hf

/-- C26: for every request body with a numeric duration, the duration being
`durationYears` when that is given and not zero and `duration` otherwise, `runSimulation`
answers HTTP 400 (before any prediction or mock call) whenever the duration is missing,
below 1 or above 20; every request it accepts yields `inputs.durationYears` that is an
integer in `[1, 20]`. -/
theorem runSimulation_duration (body : SimulateRequest) :
    ((body.durationYears = none ∨ body.durationYears = some 0) →
      (body.duration = none ∨ body.duration = some 0) →
      ∃ message, runSimulation body = .badRequest message) ∧
    (∀ d, body.durationYears = some d → d ≠ 0 → d < 1 ∨ 20 < d →
      ∃ message, runSimulation body = .badRequest message) ∧
    (∀ d, (body.durationYears = none ∨ body.durationYears = some 0) →
      body.duration = some d → d < 1 ∨ 20 < d →
      ∃ message, runSimulation body = .badRequest message) ∧
    (∀ i, runSimulation body = .proceed i → 1 ≤ i.durationYears ∧ i.durationYears ≤ 20) := by
  refine ⟨?_, ?_, ?_, ?_⟩
  · intro hy hd
    rcases hd with hd | hd
    · exact ⟨_, runSimulation_of_no_duration body (by rw [orNum_eq, if_pos hy, hd])⟩
    · exact runSimulation_of_duration_range body 0 (by rw [orNum_eq, if_pos hy, hd])
        (Or.inl (by norm_num))
  · intro d hy hd0 hrange
    have hnot : ¬ (body.durationYears = none ∨ body.durationYears = some 0) := by
      rw [hy]
      simp [hd0]
    exact runSimulation_of_duration_range body d (by rw [orNum_eq, if_neg hnot, hy]) hrange
  · intro d hy hd hrange
    exact runSimulation_of_duration_range body d (by rw [orNum_eq, if_pos hy, hd]) hrange
  · intro i h
    obtain ⟨d, _, _, _, _, _, _, _, hok, _, hi, _⟩ := runSimulation_proceed body i h
    rw [hi]
    exact parseIntNum_range d (not_lt.1 (fun h1 => hok (Or.inl h1)))
      (not_lt.1 (fun h20 => hok (Or.inr h20)))

/-- C26, witness: the durations 0, 21 and a missing duration are answered with HTTP 400,
and the duration 7.5 is accepted as 7 years. -/
theorem runSimulation_duration_witness :
    (∃ message, runSimulation (durationRequest (some 21) none) = .badRequest message) ∧
    (∃ message, runSimulation (durationRequest none (some 0)) = .badRequest message) ∧
    (∃ message, runSimulation (durationRequest none none) = .badRequest message) ∧
    (∀ i, runSimulation (durationRequest (some (15 / 2)) none) = .proceed i →
      1 ≤ i.durationYears ∧ i.durationYears ≤ 20) ∧
    runSimulation (durationRequest (some 20) none)
      = .proceed { country := "Pakistan", policyType := "ETS", carbonPriceUSD := 25,
                   durationYears := 20 } := by
  have h1 := runSimulation_duration (durationRequest (some 21) none)
  have h2 := runSimulation_duration (durationRequest none (some 0))
  have h3 := runSimulation_duration (durationRequest none none)
  have h4 := runSimulation_duration (durationRequest (some (15 / 2)) none)
  exact ⟨h1.2.1 21 rfl (by norm_num) (Or.inr (by norm_num)),
    h2.1 (Or.inl rfl) (Or.inr rfl), h3.1 (Or.inl rfl) (Or.inl rfl), h4.2.2.2, by decide⟩

/-! ## Claims on the numeric order of `sortedSimulations` -/

/-- C27: for every list of formatted comparison rows and every numeric sort column (one
whose value is a number or null in every row of the list), `sortedSimulations` is a
permutation of the rows in which the rows with non-null values are in non-decreasing
numeric order when the direction is `asc` and in non-increasing numeric order when it is
`desc`, and two rows with equal values keep the relative order they had before the sort. -/
theorem sortedSimulations_numeric (host : Host) (column : SortColumn)
    (rows : List FormattedRow)
    (hnum : ∀ row ∈ rows, row.get column = .null ∨ ∃ q, row.get column = .num q) :
    (∀ direction, (sortedSimulations host (some column) direction rows).Perm rows) ∧
    (sortedSimulations host (some column) .asc rows).Pairwise
      (fun a b => ∀ x y, a.get column = .num x → b.get column = .num y → x ≤ y) ∧
    (sortedSimulations host (some column) .desc rows).Pairwise
      (fun a b => ∀ x y, a.get column = .num x → b.get column = .num y → y ≤ x) ∧
    (∀ direction a b, [a, b].Sublist rows → a.get column = b.get column →
      [a, b].Sublist (sortedSimulations host (some column) direction rows)) := by
  refine ⟨fun direction => List.perm_insertionSort _ rows, ?_, ?_, ?_⟩
  · refine List.Pairwise.imp ?_ (sortArray_compareRows_sorted host column .asc rows hnum)
    intro a b hab x y ha hb
    rw [compareRows_num_num host column .asc a b x y ha hb] at hab
    simpa using hab
  · refine List.Pairwise.imp ?_ (sortArray_compareRows_sorted host column .desc rows hnum)
    intro a b hab x y ha hb
    rw [compareRows_num_num host column .desc a b x y ha hb] at hab
    simpa using hab
  · intro direction a b hsub heq
    apply List.pair_sublist_insertionSort _ hsub
    have hmem : a ∈ rows := hsub.subset (List.mem_cons_self _ _)
    rcases hnum a hmem with ha | ⟨x, ha⟩
    · rw [compareRows_null_null host column direction a b ha (by rw [← heq, ha])]
    · rw [compareRows_num_num host column direction a b x x ha (by rw [← heq, ha])]
      split_ifs <;> simp

/-- C27, witness: sorting the two rows of the example by `carbonPrice` in ascending
direction gives the row with price 0 before the row with price 30, a permutation of the
view. -/
theorem sortedSimulations_numeric_witness :
    (sortedSimulations sampleHost (some .carbonPrice) .asc
        (formattedSimulations sampleHost unknownPriceRecords)).map
        (fun row => (row.id, row.carbonPrice))
      = [(some "r2", .num 0), (some "r1", .num 30)] ∧
    (sortedSimulations sampleHost (some .carbonPrice) .asc
        (formattedSimulations sampleHost unknownPriceRecords)).Perm
      (formattedSimulations sampleHost unknownPriceRecords) := by
  have h := sortedSimulations_numeric sampleHost .carbonPrice
    (formattedSimulations sampleHost unknownPriceRecords)
    (by
      intro row hrow
      rw [unknownPrice_view] at hrow
      simp only [List.mem_cons, List.mem_singleton, List.not_mem_nil, or_false] at hrow
      rcases hrow with rfl | rfl
      · exact Or.inr ⟨30, rfl⟩
      · exact Or.inr ⟨0, rfl⟩)
  refine ⟨?_, h.1 .asc⟩
  rw [unknownPrice_view]
  norm_num [sortedSimulations, sortArray, List.insertionSort, List.orderedInsert, compareRows,
    FormattedRow.get, CellValue.ofValue]

/-! ## Claims on `runMockSimulationForFrontend` -/

/-- C28: for every carbon price `> 0` and every two random draws in `[0, 1)`, the mock
predictions lie in the ranges of the data model: the emission coverage is within 5 points
of a base coverage in `[20, 60]` and so in `[0, 100]`, the annual revenue is not negative,
`0 <= coverageLow <= emissionCoveragePct <= coverageHigh <= 100` and
`0 <= revenueLow <= annualRevenueMillionUSD <= revenueHigh`. -/
theorem runMockSimulationForFrontend_ranges (random1 random2 carbonPriceUSD : ℚ)
    (hprice : 0 < carbonPriceUSD) (h1 : 0 ≤ random1) (h1lt : random1 < 1)
    (h2 : 0 ≤ random2) (_h2lt : random2 < 1) :
    0 ≤ (runMockSimulationForFrontend random1 random2 carbonPriceUSD).emissionCoveragePct ∧
    (runMockSimulationForFrontend random1 random2 carbonPriceUSD).emissionCoveragePct ≤ 100 ∧
    (∃ baseCoverage : ℚ, 20 ≤ baseCoverage ∧ baseCoverage ≤ 60 ∧
      |(runMockSimulationForFrontend random1 random2 carbonPriceUSD).emissionCoveragePct
        - baseCoverage| ≤ 5) ∧
    0 ≤ (runMockSimulationForFrontend random1 random2 carbonPriceUSD).annualRevenueMillionUSD ∧
    0 ≤ (runMockSimulationForFrontend random1 random2 carbonPriceUSD).confidence.coverageLow ∧
    (runMockSimulationForFrontend random1 random2 carbonPriceUSD).confidence.coverageLow
      ≤ (runMockSimulationForFrontend random1 random2 carbonPriceUSD).emissionCoveragePct ∧
    (runMockSimulationForFrontend random1 random2 carbonPriceUSD).emissionCoveragePct
      ≤ (runMockSimulationForFrontend random1 random2 carbonPriceUSD).confidence.coverageHigh ∧
    (runMockSimulationForFrontend random1 random2 carbonPriceUSD).confidence.coverageHigh
      ≤ 100 ∧
    0 ≤ (runMockSimulationForFrontend random1 random2 carbonPriceUSD).confidence.revenueLow ∧
    (runMockSimulationForFrontend random1 random2 carbonPriceUSD).confidence.revenueLow
      ≤ (runMockSimulationForFrontend random1 random2 carbonPriceUSD).annualRevenueMillionUSD ∧
    (runMockSimulationForFrontend random1 random2 carbonPriceUSD).annualRevenueMillionUSD
      ≤ (runMockSimulationForFrontend random1 random2 carbonPriceUSD).confidence.revenueHigh := by
  have hbase20 : (20 : ℚ) ≤ min 60 (max 20 (carbonPriceUSD * 2)) :=
    le_min (by norm_num) (le_max_left _ _)
  have hbase60 : min 60 (max 20 (carbonPriceUSD * 2)) ≤ (60 : ℚ) := min_le_left _ _
  have hraw : -100 < carbonPriceUSD * 50 + (random2 * 200 - 100) := by nlinarith
  have hE : (runMockSimulationForFrontend random1 random2 carbonPriceUSD).emissionCoveragePct
      = min 60 (max 20 (carbonPriceUSD * 2)) + (random1 * 10 - 5) := by
    simp only [runMockSimulationForFrontend]
    rw [min_eq_right (by linarith), max_eq_right (by linarith)]
  have hLow : (runMockSimulationForFrontend random1 random2 carbonPriceUSD).confidence.coverageLow
      = min 60 (max 20 (carbonPriceUSD * 2)) + (random1 * 10 - 5) - 5 := by
    simp only [runMockSimulationForFrontend]
    rw [max_eq_right (by linarith)]
  have hHigh :
      (runMockSimulationForFrontend random1 random2 carbonPriceUSD).confidence.coverageHigh
      = min 60 (max 20 (carbonPriceUSD * 2)) + (random1 * 10 - 5) + 5 := by
    simp only [runMockSimulationForFrontend]
    rw [min_eq_right (by linarith)]
  have hRev :
      (runMockSimulationForFrontend random1 random2 carbonPriceUSD).annualRevenueMillionUSD
      = max 0 (carbonPriceUSD * 50 + (random2 * 200 - 100)) := rfl
  have hRevLow :
      (runMockSimulationForFrontend random1 random2 carbonPriceUSD).confidence.revenueLow
      = max 0 (carbonPriceUSD * 50 + (random2 * 200 - 100) - 150) := rfl
  have hRevHigh :
      (runMockSimulationForFrontend random1 random2 carbonPriceUSD).confidence.revenueHigh
      = carbonPriceUSD * 50 + (random2 * 200 - 100) + 150 := rfl
  rw [hE, hLow, hHigh, hRev, hRevLow, hRevHigh]
  refine ⟨by linarith, by linarith, ⟨min 60 (max 20 (carbonPriceUSD * 2)), hbase20, hbase60, ?_⟩,
    le_max_left _ _, by linarith, by linarith, by linarith, by linarith, le_max_left _ _,
    max_le_max le_rfl (by linarith), max_le (by linarith) (by linarith)⟩
  rw [abs_le]
  constructor <;> linarith

/-- C28, witness: with the carbon price 25 and both draws 0 the mock predictions are
coverage 45 in `[40, 50]` and revenue 1150 in `[1000, 1300]`. -/
theorem runMockSimulationForFrontend_ranges_witness :
    (runMockSimulationForFrontend 0 0 25).emissionCoveragePct = 45 ∧
    (runMockSimulationForFrontend 0 0 25).annualRevenueMillionUSD = 1150 ∧
    0 ≤ (runMockSimulationForFrontend 0 0 25).confidence.revenueLow ∧
    (runMockSimulationForFrontend 0 0 25).emissionCoveragePct ≤ 100 := by
  have h := runMockSimulationForFrontend_ranges 0 0 25 (by norm_num) le_rfl (by norm_num)
    le_rfl (by norm_num)
  refine ⟨?_, ?_, h.2.2.2.2.2.2.2.2.1, h.2.1⟩
  · norm_num [runMockSimulationForFrontend]
  · norm_num [runMockSimulationForFrontend]

/-! ## Claims on the copies of the derived metrics -/

/-- C29: for every stored result, the `co2CoveredMillionTons` and `revenuePctGDP` computed
inside `SummaryCards` from its predictions, country context and carbon price equal the
`co2Covered` and `revenuePctGDP` that `formatSimulationForComparison` returns, and the
`coveredMillionTons` of `CO2DonutChart` equals the same `co2Covered` whenever
`annualCO2Tons` is present and `> 0`. -/
theorem derived_metrics_agree (sim : SimulationResult) :
    SummaryCards.co2CoveredMillionTons sim.predictions sim.priceField
      = (formatSimulationForComparison sim).co2Covered ∧
    SummaryCards.revenuePctGDP sim.predictions sim.countryContext
      = (formatSimulationForComparison sim).revenuePctGDP ∧
    (∀ tons, sim.countryContext.bind (fun c => c.annualCO2Tons) = some tons → 0 < tons →
      (CO2DonutChart.coveredMillionTons sim.predictions sim.countryContext sim.priceField).1
        = (formatSimulationForComparison sim).co2Covered) := by
  refine ⟨?_, rfl, ?_⟩
  · simp only [SummaryCards.co2CoveredMillionTons, formatSimulationForComparison,
      co2CoveredMillionTons, SimulationResult.revenueField]
    rcases hp : sim.priceField with _ | q | ⟨s, _ | n⟩
    · simp [orValueLit, NumOrStr.toNumber]
    · by_cases hq : q = 0 <;>
        simp [orValueLit, NumOrStr.toNumber, NumOrStr.truthy, truthyValue, hq]
    · by_cases hs : s = "" <;>
        simp [orValueLit, NumOrStr.toNumber, NumOrStr.truthy, truthyValue, hs]
    · by_cases hs : s = "" <;>
        simp [orValueLit, NumOrStr.toNumber, NumOrStr.truthy, truthyValue, hs]
  · intro tons htons hpos
    have hne : tons ≠ 0 := ne_of_gt hpos
    simp only [CO2DonutChart.coveredMillionTons, formatSimulationForComparison,
      co2CoveredMillionTons, SimulationResult.revenueField, htons, orNum, truthyNum]
    rcases hp : sim.priceField with _ | q | ⟨s, _ | n⟩
    · simp [orValueLit, NumOrStr.toNumber, hne]
    · by_cases hq : q = 0 <;>
        by_cases hr : 0 < orNumLit (sim.predictions.bind fun p => p.annualRevenueMillionUSD) 0 <;>
        by_cases h0 : 0 < q <;>
        simp [orValueLit, NumOrStr.toNumber, NumOrStr.truthy, truthyValue, hq, hne, hpos, hr, h0]
    · by_cases hs : s = "" <;>
        simp [orValueLit, NumOrStr.toNumber, NumOrStr.truthy, truthyValue, hs, hne]
    · by_cases hs : s = "" <;>
        by_cases hr : 0 < orNumLit (sim.predictions.bind fun p => p.annualRevenueMillionUSD) 0 <;>
        by_cases h0 : 0 < n <;>
        simp [orValueLit, NumOrStr.toNumber, NumOrStr.truthy, truthyValue, hs, hne, hpos, hr, h0]

/-- C29, witness: for revenue 140, price 25 and `annualCO2Tons = 227000000` the three
copies give 5.6 million tons. -/
theorem derived_metrics_agree_witness :
    SummaryCards.co2CoveredMillionTons
        (sampleResult (some 140) (some 25) none none).predictions (some (.num 25))
      = some (28 / 5) ∧
    (CO2DonutChart.coveredMillionTons (sampleResult (some 140) (some 25) none none).predictions
        (sampleResult (some 140) (some 25) none none).countryContext (some (.num 25))).1
      = some (28 / 5) ∧
    (formatSimulationForComparison (sampleResult (some 140) (some 25) none none)).co2Covered
      = some (28 / 5) := by
  have h := derived_metrics_agree (sampleResult (some 140) (some 25) none none)
  have hformat :
      (formatSimulationForComparison (sampleResult (some 140) (some 25) none none)).co2Covered
        = some (28 / 5) := by
    rw [co2Covered_of_fields (sampleResult (some 140) (some 25) none none) 140 25 rfl rfl
      (by norm_num) (by norm_num)]
    norm_num
  have h1 := h.1
  have h3 := h.2.2 227000000 rfl (by norm_num)
  rw [hformat] at h1 h3
  exact ⟨h1, h3, hformat⟩

/-! ## Claims on the duration stepper -/

theorem durationAfter_mem_of_start (clicks : List DurationClick) :
    ∀ start ∈ durationOptions, clicks.foldl DurationClick.apply start ∈ durationOptions := by
  induction clicks with
  | nil =>
    intro start h
    exact h
  | cons click rest ih =>
    intro start h
    rw [List.foldl_cons]
    apply ih
    have hstep : ∀ d ∈ durationOptions,
        durationUp d ∈ durationOptions ∧ durationDown d ∈ durationOptions := by decide
    cases click
    · exact (hstep start h).1
    · exact (hstep start h).2

/-- C30: starting from the initial duration 5, after every sequence of clicks on the up and
down buttons the duration is one of the allowed values 1, 3, 5, 10, 20; an up click moves
to the next larger allowed value and a down click to the next smaller one, and up at 20 and
down at 1 leave the duration unchanged. -/
theorem durationAfter_allowed :
    (∀ clicks : List DurationClick, durationAfter clicks ∈ durationOptions) ∧
    (∀ d ∈ durationOptions, d < 20 →
      d < durationUp d ∧ durationUp d ∈ durationOptions ∧
      ∀ x ∈ durationOptions, d < x → durationUp d ≤ x) ∧
    (∀ d ∈ durationOptions, 1 < d →
      durationDown d < d ∧ durationDown d ∈ durationOptions ∧
      ∀ x ∈ durationOptions, x < d → x ≤ durationDown d) ∧
    durationUp 20 = 20 ∧ durationDown 1 = 1 ∧
    [durationUp 1, durationUp 3, durationUp 5, durationUp 10] = [3, 5, 10, 20] ∧
    [durationDown 3, durationDown 5, durationDown 10, durationDown 20] = [1, 3, 5, 10] := by
  refine ⟨?_, by decide, by decide, by decide, by decide, by decide, by decide⟩
  intro clicks
  exact durationAfter_mem_of_start clicks initialDuration (by decide)

/-- C30, witness: up, up, up, down from 5 passes through 10, 20, 20 and ends at 10. -/
theorem durationAfter_allowed_witness :
    durationAfter [.up, .up, .up, .down] = 10 ∧
    durationAfter [.up, .up, .up, .down] ∈ durationOptions ∧
    durationAfter [.down, .down, .down] = 1 := by
  exact ⟨by decide, durationAfter_allowed.1 _, by decide⟩

end EcoImpact
